import Mathlib

/-!
# AN30259A LED controller driver (`drivers/leds/leds-an30259a.c`)

A shallow embedding of the driver's control logic: the shadow register image,
the channel encoders (`leds_on`, `leds_set_slope_mode`, `leds_set_imax`), the
bus commit (`leds_i2c_write_all`), the restriction guard (`check_restrictions`),
the pattern and blink engines and the sysfs setters.

Conventions.
* C globals become fields of `State`, with the names they have in the source.
* `u8` / `u32` values are `Nat`; every store into a `u8` object is truncated
  with `% 256`, every `unsigned int` computation that can wrap with `% 2^32`.
  `int` values are `Int`.
* The wall clock and the I2C transport are the environment `Env` of a command.
  One command reads one clock value.
* Every bus transfer the driver issues is appended to `State.bus`.
* Integer division by zero yields `0` (the behaviour of `__div0` on the ARM
  target of this kernel, and of `/` on `Nat`).
-/

namespace AN30259A

/-! ## Register map and constants -/

def AN30259A_REG_SRESET : Nat := 0x00
def AN30259A_REG_LEDON : Nat := 0x01
def AN30259A_REG_SEL : Nat := 0x02
def AN30259A_REG_LED1CC : Nat := 0x03
def AN30259A_REG_LED1SLP : Nat := 0x06
def AN30259A_REG_LED1CNT1 : Nat := 0x09
def AN30259A_REG_LED1CNT2 : Nat := 0x0a
def AN30259A_REG_LED1CNT3 : Nat := 0x0b
def AN30259A_REG_LED1CNT4 : Nat := 0x0c
def AN30259A_REG_MAX : Nat := 0x15
def AN30259A_MASK_IMAX : Nat := 0xc0
def AN30259A_MASK_DELAY : Nat := 0xf0
def LED_SLOPE_MODE : Nat := 0x10
def LED_ON : Nat := 0x01
def SLPTT_MAX_VALUE : Nat := 7500
def AN30259A_TIME_UNIT : Nat := 500
def LED_R_MASK : Nat := 0x00ff0000
def LED_G_MASK : Nat := 0x0000ff00
def LED_B_MASK : Nat := 0x000000ff
def LED_R_SHIFT : Nat := 16
def LED_G_SHIFT : Nat := 8
def LED_IMAX_SHIFT : Nat := 6
def AN30259A_CTN_RW_FLG : Nat := 0x80
def LED_MAX_CURRENT : Nat := 0xFF
def LED_OFF : Nat := 0x00

/-- Values of `enum an30259a_led_enum`. -/
def LED_R : Nat := 0
def LED_G : Nat := 1
def LED_B : Nat := 2

/-- Values of `enum an30259a_pattern`. -/
def PATTERN_OFF : Int := 0
def CHARGING : Int := 1
def CHARGING_ERR : Int := 2
def MISSED_NOTI : Int := 3
def LOW_BATTERY : Int := 4
def FULLY_CHARGED : Int := 5
def POWERING : Int := 6

/-- The value `-1` stored into an `unsigned int`. -/
def UINT_M1 : Nat := 4294967295

/-- The value `-1` stored into a `u8`. -/
def U8_M1 : Nat := 255

/-- Bitwise complement `~x` of a 32-bit `int`, as a bit pattern. -/
def compl32 (x : Nat) : Nat := 4294967295 ^^^ (x % 4294967296)

/-! ## Register image -/

/-- The array `shadow_reg`, indexed by register address. -/
abbrev Image := Nat → Nat

/-- Store into one `u8` cell of `shadow_reg`. -/
def Image.set (img : Image) (a v : Nat) : Image :=
  fun r => if r = a then v % 256 else img r

/-- One transfer handed to the I2C transport. -/
inductive BusOp where
  | block (command : Nat) (values : List Nat)
  | byte (command : Nat) (value : Nat)
  deriving DecidableEq, Repr

/-- Clock and transport seen by one command. `xfer log op` is the return code
of the transfer `op` issued after the transfers in `log`. -/
structure Env where
  tm_hour : Int
  tz_minuteswest : Int
  xfer : List BusOp → BusOp → Int

/-- The driver's globals and the device data. -/
structure State where
  shadow_reg : Image
  bus : List BusOp
  brightness : Nat → Nat
  is_work_active : Bool
  LED_DYNAMIC_CURRENT : Nat
  LED_LOWPOWER_MODE : Nat
  LED_R_CURRENT : Nat
  LED_G_CURRENT : Nat
  LED_B_CURRENT : Nat
  led_default_cur : Nat
  led_lowpower_cur : Nat
  led_enable_fade : Int
  led_enable_fade_charging : Int
  led_intensity : Nat
  led_time_on : Nat
  led_time_off : Nat
  led_step_speed1 : Nat
  led_step_speed2 : Nat
  led_step_speed3 : Nat
  led_step_speed4 : Nat
  led_step_bit_shift : Nat
  led_block_leds_time_start : Int
  led_block_leds_time_stop : Int
  led_always_disable : Int
  block_leds_not_blocking : Bool
  block_leds_check_allowed : Bool
  block_leds_saved_mode : Int
  block_leds_saved_delay_on_time : Nat → Nat
  block_leds_saved_delay_off_time : Nat → Nat
  block_leds_saved_brightness : Nat → Nat
  led_debug_enable : Int

/-! ## Bus commit and channel encoders -/

/-- The 19 bytes `shadow_reg[0x02 .. 0x14]`. -/
def config_block (img : Image) : List Nat :=
  (List.range (AN30259A_REG_MAX - AN30259A_REG_SEL)).map
    (fun i => img (AN30259A_REG_SEL + i))

/-- Function `leds_i2c_write_all`: block write of the configuration registers, then a
byte write of `LEDON`; the second write is skipped when the first fails. -/
def leds_i2c_write_all (env : Env) (s : State) : Int × State :=
  let op1 := BusOp.block (AN30259A_REG_SEL ||| AN30259A_CTN_RW_FLG)
    (config_block s.shadow_reg)
  let ret1 := env.xfer s.bus op1
  let s1 := { s with bus := s.bus ++ [op1] }
  if ret1 < 0 then (ret1, s1)
  else
    let op2 := BusOp.byte AN30259A_REG_LEDON (s1.shadow_reg AN30259A_REG_LEDON)
    let ret2 := env.xfer s1.bus op2
    let s2 := { s1 with bus := s1.bus ++ [op2] }
    if ret2 < 0 then (ret2, s2) else (0, s2)

/-- Function `leds_set_slope_mode`, on the image. Every parameter is a `u8`. -/
def leds_set_slope_mode_img (shift : Nat) (img : Image) (led delay dutymax dutymid
    dutymin slptt1 slptt2 dt1 dt2 dt3 dt4 : Nat) : Image :=
  let img := img.set (AN30259A_REG_LED1CNT1 + led * 4)
    (((dutymax % 256) <<< 4) ||| (dutymid % 256))
  let img := img.set (AN30259A_REG_LED1CNT2 + led * 4)
    (((delay % 256) <<< 4) ||| (dutymin % 256))
  let img := img.set (AN30259A_REG_LED1CNT3 + led * 4)
    (((dt2 % 256) <<< shift) ||| (dt1 % 256))
  let img := img.set (AN30259A_REG_LED1CNT4 + led * 4)
    (((dt4 % 256) <<< shift) ||| (dt3 % 256))
  img.set (AN30259A_REG_LED1SLP + led) (((slptt2 % 256) <<< 4) ||| (slptt1 % 256))

/-- Function `leds_set_slope_mode`: packs the slope parameters of channel `led`. -/
def leds_set_slope_mode (s : State) (led delay dutymax dutymid dutymin slptt1 slptt2
    dt1 dt2 dt3 dt4 : Nat) : State :=
  let img := leds_set_slope_mode_img s.led_step_bit_shift s.shadow_reg led delay
    dutymax dutymid dutymin slptt1 slptt2 dt1 dt2 dt3 dt4
  { s with shadow_reg := img }

/-- Function `leds_on`, on the image. -/
def leds_on_img (img : Image) (led : Nat) (on_ slopemode : Bool) (ledcc : Nat) : Image :=
  let img :=
    if on_ then
      img.set AN30259A_REG_LEDON (img AN30259A_REG_LEDON ||| (LED_ON <<< led))
    else
      let img := img.set AN30259A_REG_LEDON
        (img AN30259A_REG_LEDON &&& compl32 (LED_ON <<< led))
      img.set (AN30259A_REG_LED1CNT2 + led * 4)
        (img (AN30259A_REG_LED1CNT2 + led * 4) &&& compl32 AN30259A_MASK_DELAY)
  let img :=
    if slopemode then
      img.set AN30259A_REG_LEDON (img AN30259A_REG_LEDON ||| (LED_SLOPE_MODE <<< led))
    else
      img.set AN30259A_REG_LEDON
        (img AN30259A_REG_LEDON &&& compl32 (LED_SLOPE_MODE <<< led))
  img.set (AN30259A_REG_LED1CC + led) ledcc

/-- Function `leds_on`: enable bit, slope bit and current of channel `led`. -/
def leds_on (s : State) (led : Nat) (on_ slopemode : Bool) (ledcc : Nat) : State :=
  { s with shadow_reg := leds_on_img s.shadow_reg led on_ slopemode ledcc }

/-- Function `leds_set_imax`: top two bits of `SEL`, written to the bus at once. -/
def leds_set_imax (_env : Env) (s : State) (imax : Nat) : Int × State :=
  let img := s.shadow_reg.set AN30259A_REG_SEL
    (s.shadow_reg AN30259A_REG_SEL &&& compl32 AN30259A_MASK_IMAX)
  let img := img.set AN30259A_REG_SEL
    (img AN30259A_REG_SEL ||| ((imax % 256) <<< LED_IMAX_SHIFT))
  let op := BusOp.byte AN30259A_REG_SEL (img AN30259A_REG_SEL)
  (0, { s with shadow_reg := img, bus := s.bus ++ [op] })

/-- Function `an30259a_reset_register_work`: all three channels off, then a commit. -/
def an30259a_reset_register_work (env : Env) (s : State) : State :=
  let s := leds_on s LED_R false false 0
  let s := leds_on s LED_G false false 0
  let s := leds_on s LED_B false false 0
  (leds_i2c_write_all env s).2

/-! ## Pattern engine and blink engine, after the restriction check -/

/-- Conversion `(ms + AN30259A_TIME_UNIT - 1) / AN30259A_TIME_UNIT` on `unsigned int`,
as written at every call of `leds_set_slope_mode`. -/
def to_units (ms : Nat) : Nat :=
  ((ms + AN30259A_TIME_UNIT - 1) % 4294967296) / AN30259A_TIME_UNIT

/-- Value assigned to `LED_DYNAMIC_CURRENT` by `an30259a_start_led_pattern`. -/
def pattern_dynamic_current (s : State) : Nat :=
  if s.LED_LOWPOWER_MODE = 1 then s.led_lowpower_cur % 256
  else if s.led_enable_fade ≠ 0 then 0x1
  else s.led_default_cur % 256

/-- Locals `led_r_brightness`, `led_g_brightness`, `led_b_brightness` of
`an30259a_start_led_pattern`, for the channel whose current is `current`. -/
def pattern_brightness (s : State) (current : Nat) : Nat :=
  if s.led_intensity = 0 then current % 256
  else (s.led_intensity / s.LED_DYNAMIC_CURRENT) % 256

/-- Local `delay_on_time` of a pattern after the override by `led_time_on`. -/
def pattern_delay_on (s : State) : Nat :=
  if s.led_time_on ≠ 0 then s.led_time_on else 500

/-- Local `delay_off_time` of a pattern after the override by `led_time_off`. -/
def pattern_delay_off (s : State) : Nat :=
  if s.led_time_off ≠ 0 then s.led_time_off else 2000

/-- The call `leds_set_slope_mode(client, led, 0, 30, 15, 0, ...)` shared by the
fade variants of the patterns. -/
def pattern_fade_slope (s : State) (led : Nat) : State :=
  leds_set_slope_mode s led 0 30 15 0
    (to_units (pattern_delay_on s)) (to_units (pattern_delay_off s))
    s.led_step_speed1 s.led_step_speed2 s.led_step_speed3 s.led_step_speed4

/-- The `switch (mode)` of `an30259a_start_led_pattern`, up to the `break`;
`none` is the `default` case, which returns. -/
def pattern_switch (mode : Int) (s : State) : Option State :=
  if mode = CHARGING then
    if s.led_enable_fade_charging = 1 then
      some (pattern_fade_slope
        (leds_on s LED_R true true (pattern_brightness s s.LED_R_CURRENT)) LED_R)
    else
      some (leds_on s LED_R true false (pattern_brightness s s.LED_R_CURRENT))
  else if mode = CHARGING_ERR then
    some (leds_set_slope_mode
      (leds_on s LED_R true true (pattern_brightness s s.LED_R_CURRENT))
      LED_R 1 15 15 0 1 1 0 0 0 0)
  else if mode = MISSED_NOTI then
    if s.led_enable_fade = 1 then
      some (pattern_fade_slope
        (leds_on (leds_on s LED_B true true (pattern_brightness s s.LED_B_CURRENT))
          LED_B true true (pattern_brightness s s.LED_R_CURRENT)) LED_B)
    else
      some (leds_set_slope_mode
        (leds_on s LED_B true true (pattern_brightness s s.LED_B_CURRENT))
        LED_B 10 15 15 0 1 10 0 0 0 0)
  else if mode = LOW_BATTERY then
    if s.led_enable_fade = 1 then
      some (pattern_fade_slope
        (leds_on (leds_on s LED_R true true (pattern_brightness s s.LED_R_CURRENT))
          LED_R true true (pattern_brightness s s.LED_R_CURRENT)) LED_R)
    else
      some (leds_set_slope_mode
        (leds_on s LED_R true true (pattern_brightness s s.LED_R_CURRENT))
        LED_R 10 15 15 0 1 10 0 0 0 0)
  else if mode = FULLY_CHARGED then
    some (leds_on s LED_G true false (pattern_brightness s s.LED_G_CURRENT))
  else if mode = POWERING then
    some (leds_set_slope_mode (leds_on s LED_B true true s.LED_B_CURRENT)
      LED_B 0 15 12 8 2 2 3 3 3 3)
  else none

/-- Tail of `an30259a_start_led_pattern` from the assignment of
`LED_DYNAMIC_CURRENT` on: the brightness triple, the switch and the commit. -/
def pattern_apply (env : Env) (mode : Int) (s : State) : State :=
  match pattern_switch mode { s with LED_DYNAMIC_CURRENT := pattern_dynamic_current s } with
  | some s1 => (leds_i2c_write_all env s1).2
  | none => { s with LED_DYNAMIC_CURRENT := pattern_dynamic_current s }

/-- Body of `an30259a_start_led_pattern` from `if (mode > POWERING)` on: what the
function does once the restriction check has let the call through, or when
`block_leds_check_allowed` is false. -/
def start_led_pattern_body (env : Env) (mode : Int) (s : State) : State :=
  if mode > POWERING then s
  else if mode = (LED_OFF : Int) then an30259a_reset_register_work env s
  else pattern_apply env mode (an30259a_reset_register_work env s)

/-- Value assigned to `LED_DYNAMIC_CURRENT` by `an30259a_set_led_blink`. -/
def blink_dynamic_current (led : Nat) (s : State) : Nat :=
  if led = LED_R then s.LED_R_CURRENT % 256
  else if led = LED_G then s.LED_G_CURRENT % 256
  else if led = LED_B then s.LED_B_CURRENT % 256
  else s.LED_DYNAMIC_CURRENT

/-- Value of `brightness` in `an30259a_set_led_blink` after the clamp to
`LED_MAX_CURRENT` and the scaling by `LED_DYNAMIC_CURRENT` or by `led_intensity`. -/
def blink_brightness (brightness : Nat) (s : State) : Nat :=
  let brightness := if brightness > LED_MAX_CURRENT then LED_MAX_CURRENT else brightness
  if s.led_intensity = 0 ∨ s.led_intensity = 40 then
    ((brightness * s.LED_DYNAMIC_CURRENT) / LED_MAX_CURRENT) % 256
  else if s.led_intensity ≠ 0 then
    ((brightness * s.led_intensity) / LED_MAX_CURRENT) % 256
  else brightness

/-- Value of `delay_on_time` in `an30259a_set_led_blink` after the override under
`led_enable_fade_charging == 1` and the clamp to `SLPTT_MAX_VALUE`. -/
def blink_delay_on (s : State) (delay_on_time : Nat) : Nat :=
  let d := if s.led_enable_fade_charging = 1 ∧ s.led_time_on ≠ 0 then s.led_time_on
    else delay_on_time
  if d > SLPTT_MAX_VALUE then SLPTT_MAX_VALUE else d

/-- Value of `delay_off_time` in `an30259a_set_led_blink` after the override under
`led_enable_fade_charging == 1` and the clamp to `SLPTT_MAX_VALUE`. -/
def blink_delay_off (s : State) (delay_off_time : Nat) : Nat :=
  let d := if s.led_enable_fade_charging = 1 ∧ s.led_time_off ≠ 0 then s.led_time_off
    else delay_off_time
  if d > SLPTT_MAX_VALUE then SLPTT_MAX_VALUE else d

/-- Slope programming at the end of `an30259a_set_led_blink`: the second
override of the two delays by `led_time_on` and `led_time_off`, then the call of
`leds_set_slope_mode` chosen by `led_enable_fade == 1`. -/
def blink_slope (led delay_on_time delay_off_time : Nat) (s : State) : State :=
  if s.led_enable_fade = 1 then
    leds_set_slope_mode s led 0 30 15 0
      (to_units (if s.led_time_on ≠ 0 then s.led_time_on else delay_on_time))
      (to_units (if s.led_time_off ≠ 0 then s.led_time_off else delay_off_time))
      s.led_step_speed1 s.led_step_speed2 s.led_step_speed3 s.led_step_speed4
  else
    leds_set_slope_mode s led 0 15 15 0
      (to_units (if s.led_time_on ≠ 0 then s.led_time_on else delay_on_time))
      (to_units (if s.led_time_off ≠ 0 then s.led_time_off else delay_off_time))
      0 0 0 0

/-- Part of `an30259a_set_led_blink` after the assignment of
`LED_DYNAMIC_CURRENT`, for a non-zero `brightness` byte. -/
def blink_apply (led delay_on_time delay_off_time brightness : Nat) (s : State) : State :=
  if blink_delay_off s delay_off_time = LED_OFF then
    if blink_brightness brightness s = LED_OFF then
      leds_on (leds_on s led true false (blink_brightness brightness s))
        led false false (blink_brightness brightness s)
    else leds_on s led true false (blink_brightness brightness s)
  else
    blink_slope led (blink_delay_on s delay_on_time) (blink_delay_off s delay_off_time)
      (leds_on s led true true (blink_brightness brightness s))

/-- Body of `an30259a_set_led_blink` from `if (brightness == LED_OFF)` on. The
arguments are converted to the parameter types `unsigned int` and `u8`. -/
def set_led_blink_body (led delay_on_time delay_off_time brightness : Nat)
    (s : State) : State :=
  if brightness % 256 = LED_OFF then leds_on s led false false (brightness % 256)
  else
    blink_apply led (delay_on_time % 4294967296) (delay_off_time % 4294967296)
      (brightness % 256) { s with LED_DYNAMIC_CURRENT := blink_dynamic_current led s }

/-! ## Restriction guard -/

/-- Local `curhour` of `check_restrictions`: the hour of the day shifted by the
time zone and wrapped once at either end. -/
def curhour (env : Env) : Int :=
  let c := env.tm_hour + (Int.tdiv env.tz_minuteswest 60) * (-1)
  let c := if c < 0 then 24 + c else c
  if c > 23 then c - 24 else c

/-- Value of `ret` after the window test of `check_restrictions`: `false` when
the hour lies in the window. -/
def window_ret (start stop hour : Int) : Bool :=
  if start > stop then
    if hour ≥ start ∨ hour < stop then false else true
  else
    if hour ≥ start ∧ hour < stop then false else true

/-- Replay of the saved blink of channel `i` in `check_restrictions`, between
`block_leds_check_allowed = false` and `block_leds_check_allowed = true`. -/
def restore_blink (i : Nat) (s : State) : State :=
  if s.block_leds_saved_delay_on_time i ≠ UINT_M1 then
    let s := { s with block_leds_check_allowed := false }
    let s := set_led_blink_body i (s.block_leds_saved_delay_on_time i)
      (s.block_leds_saved_delay_off_time i) (s.block_leds_saved_brightness i) s
    { s with block_leds_check_allowed := true }
  else s

/-- Replay of the saved pattern in `check_restrictions`. -/
def restore_mode (env : Env) (s : State) : State :=
  if s.block_leds_saved_mode ≠ -1 then
    let s := { s with block_leds_check_allowed := false }
    let s := start_led_pattern_body env s.block_leds_saved_mode s
    { s with block_leds_check_allowed := true }
  else s

/-- Final assignments of the restore block: every saved slot is set to `-1`. -/
def clear_saved (s : State) : State :=
  { s with
    block_leds_saved_mode := -1
    block_leds_saved_delay_on_time := fun _ => UINT_M1
    block_leds_saved_delay_off_time := fun _ => UINT_M1
    block_leds_saved_brightness := fun _ => U8_M1 }

/-- Block of `check_restrictions` guarded by `ret && !block_leds_not_blocking`. -/
def restore_saved (env : Env) (s : State) : State :=
  let s := restore_mode env s
  let s := restore_blink 0 s
  let s := restore_blink 1 s
  let s := restore_blink 2 s
  clear_saved s

/-- Function `check_restrictions`. The result is `ret`: `true` when the LEDs may
be lit, `false` when they are blocked. -/
def check_restrictions (env : Env) (s : State) : Bool × State :=
  if s.led_always_disable ≠ 0 then
    let s := an30259a_reset_register_work env s
    (false, { s with block_leds_not_blocking := false })
  else if s.led_block_leds_time_start ≠ -1 ∧ s.led_block_leds_time_stop ≠ -1 then
    let ret := window_ret s.led_block_leds_time_start s.led_block_leds_time_stop
      (curhour env)
    let s := if !ret then an30259a_reset_register_work env s else s
    let s := if ret && !s.block_leds_not_blocking then restore_saved env s else s
    (ret, { s with block_leds_not_blocking := ret })
  else
    (true, { s with block_leds_not_blocking := true })

/-- Function `an30259a_start_led_pattern`. -/
def an30259a_start_led_pattern (env : Env) (mode : Int) (s : State) : State :=
  if s.block_leds_check_allowed then
    let r := check_restrictions env s
    if !r.1 then { r.2 with block_leds_saved_mode := mode }
    else start_led_pattern_body env mode r.2
  else start_led_pattern_body env mode s

/-- Function `an30259a_set_led_blink`. The stores into the saved arrays index them
with `led`. -/
def an30259a_set_led_blink (env : Env) (led delay_on_time delay_off_time
    brightness : Nat) (s : State) : State :=
  let delay_on_time := delay_on_time % 4294967296
  let delay_off_time := delay_off_time % 4294967296
  let brightness := brightness % 256
  if s.block_leds_check_allowed then
    let r := check_restrictions env s
    if !r.1 then
      let s := r.2
      if brightness = LED_OFF then
        { s with
          block_leds_saved_delay_on_time :=
            Function.update s.block_leds_saved_delay_on_time led UINT_M1
          block_leds_saved_delay_off_time :=
            Function.update s.block_leds_saved_delay_off_time led UINT_M1
          block_leds_saved_brightness :=
            Function.update s.block_leds_saved_brightness led U8_M1 }
      else
        { s with
          block_leds_saved_delay_on_time :=
            Function.update s.block_leds_saved_delay_on_time led delay_on_time
          block_leds_saved_delay_off_time :=
            Function.update s.block_leds_saved_delay_off_time led delay_off_time
          block_leds_saved_brightness :=
            Function.update s.block_leds_saved_brightness led brightness }
    else set_led_blink_body led delay_on_time delay_off_time brightness r.2
  else set_led_blink_body led delay_on_time delay_off_time brightness s

/-! ## Command surface -/

/-- Function `an30259a_set_brightness`: latches the value; the deferred
`brightness_work` is the command `an30259a_led_brightness_work`. -/
def an30259a_set_brightness (channel brightness : Nat) (s : State) : State :=
  { s with brightness := Function.update s.brightness channel (brightness % 256) }

/-- Function `an30259a_led_brightness_work` of the LED `channel`. -/
def an30259a_led_brightness_work (env : Env) (channel : Nat) (s : State) : State :=
  let s := leds_on s channel true false (s.brightness channel)
  (leds_i2c_write_all env s).2

/-- Functions `store_led_r`, `store_led_g`, `store_led_b`, for the channel `led`;
`brightness` is the value parsed by `kstrtou8`, which rejects values above 255. -/
def store_led (env : Env) (led brightness : Nat) (s : State) : State :=
  if brightness > 255 then s
  else
    let s :=
      if brightness = 0 then leds_on s led false false 0
      else leds_on s led true false brightness
    (leds_i2c_write_all env s).2

/-- Function `store_an30259a_led_lowpower`; `kstrtou8` rejects values above 255. -/
def store_an30259a_led_lowpower (led_lowpower : Nat) (s : State) : State :=
  if led_lowpower > 255 then s else { s with LED_LOWPOWER_MODE := led_lowpower }

/-- Function `store_an30259a_led_br_lev`. -/
def store_an30259a_led_br_lev (env : Env) (brightness_lev : Nat) (s : State) : State :=
  (leds_set_imax env s brightness_lev).2

/-- Function `store_an30259a_led_pattern`, for a parsed `mode`. -/
def store_an30259a_led_pattern (env : Env) (mode : Int) (s : State) : State :=
  an30259a_start_led_pattern env mode s

/-- Function `store_an30259a_led_blink`, for parsed arguments. -/
def store_an30259a_led_blink (env : Env) (led_brightness delay_on_time
    delay_off_time : Nat) (s : State) : State :=
  let s := an30259a_start_led_pattern env (LED_OFF : Int) s
  let led_r_brightness :=
    (((led_brightness % 4294967296) &&& LED_R_MASK) >>> LED_R_SHIFT) % 256
  let led_g_brightness :=
    (((led_brightness % 4294967296) &&& LED_G_MASK) >>> LED_G_SHIFT) % 256
  let led_b_brightness := ((led_brightness % 4294967296) &&& LED_B_MASK) % 256
  let s := an30259a_set_led_blink env LED_R delay_on_time delay_off_time led_r_brightness s
  let s := an30259a_set_led_blink env LED_G delay_on_time delay_off_time led_g_brightness s
  let s := an30259a_set_led_blink env LED_B delay_on_time delay_off_time led_b_brightness s
  (leds_i2c_write_all env s).2

/-- Function `store_an30259a_led_fade`. -/
def store_an30259a_led_fade (enabled : Int) (s : State) : State :=
  { s with led_enable_fade := enabled }

/-- Function `store_an30259a_led_fade_charging`. -/
def store_an30259a_led_fade_charging (enabled : Int) (s : State) : State :=
  { s with led_enable_fade_charging := enabled }

/-- Function `store_an30259a_led_intensity`. -/
def store_an30259a_led_intensity (intensity : Int) (s : State) : State :=
  if intensity > 0 ∧ intensity ≤ 255 then { s with led_intensity := intensity.toNat % 256 }
  else s

/-- Function `store_an30259a_led_time_on`; `val` is an `unsigned int`. -/
def store_an30259a_led_time_on (val : Nat) (s : State) : State :=
  if val ≥ 100 ∧ val ≤ SLPTT_MAX_VALUE then { s with led_time_on := val } else s

/-- Function `store_an30259a_led_time_off`. -/
def store_an30259a_led_time_off (val : Nat) (s : State) : State :=
  if val ≥ 100 ∧ val ≤ SLPTT_MAX_VALUE then { s with led_time_off := val } else s

/-- Function `store_an30259a_led_step_speed1`. -/
def store_an30259a_led_step_speed1 (val : Nat) (s : State) : State :=
  if val ≥ 1 ∧ val ≤ 20 then { s with led_step_speed1 := val % 256 } else s

/-- Function `store_an30259a_led_step_speed2`. -/
def store_an30259a_led_step_speed2 (val : Nat) (s : State) : State :=
  if val ≥ 1 ∧ val ≤ 20 then { s with led_step_speed2 := val % 256 } else s

/-- Function `store_an30259a_led_step_speed3`. -/
def store_an30259a_led_step_speed3 (val : Nat) (s : State) : State :=
  if val ≥ 1 ∧ val ≤ 20 then { s with led_step_speed3 := val % 256 } else s

/-- Function `store_an30259a_led_step_speed4`. -/
def store_an30259a_led_step_speed4 (val : Nat) (s : State) : State :=
  if val ≥ 1 ∧ val ≤ 20 then { s with led_step_speed4 := val % 256 } else s

/-- Function `store_an30259a_led_step_bit_shift`. -/
def store_an30259a_led_step_bit_shift (val : Nat) (s : State) : State :=
  if val ≥ 1 ∧ val ≤ 15 then { s with led_step_bit_shift := val % 256 } else s

/-- Conversion of an `unsigned int` to `int`. -/
def to_int (val : Nat) : Int :=
  if val % 4294967296 < 2147483648 then ((val % 4294967296 : Nat) : Int)
  else ((val % 4294967296 : Nat) : Int) - 4294967296

/-- Common tail of the two window setters: arming and disarming of the timer. -/
def update_work_active (s : State) : State :=
  if !s.is_work_active ∧ s.led_block_leds_time_start ≠ -1
      ∧ s.led_block_leds_time_stop ≠ -1 then
    { s with is_work_active := true }
  else if s.led_block_leds_time_start = -1 ∨ s.led_block_leds_time_stop = -1 then
    { s with is_work_active := false }
  else s

/-- Function `store_an30259a_led_block_leds_time_start`; `val` is the
`unsigned int` the text was parsed into. -/
def store_an30259a_led_block_leds_time_start (val : Nat) (s : State) : State :=
  let s :=
    if val = UINT_M1 ∨ val ≤ 23 then { s with led_block_leds_time_start := to_int val }
    else s
  update_work_active s

/-- Function `store_an30259a_led_block_leds_time_stop`. -/
def store_an30259a_led_block_leds_time_stop (val : Nat) (s : State) : State :=
  let s :=
    if val = UINT_M1 ∨ val ≤ 23 then { s with led_block_leds_time_stop := to_int val }
    else s
  update_work_active s

/-- Function `store_an30259a_led_always_disable`. -/
def store_an30259a_led_always_disable (val : Nat) (s : State) : State :=
  if val = 0 ∨ val = 1 then { s with led_always_disable := to_int val } else s

/-- Function `store_an30259a_led_debug_enable`. -/
def store_an30259a_led_debug_enable (val : Nat) (s : State) : State :=
  if val = 0 ∨ val = 1 then { s with led_debug_enable := to_int val } else s

/-- Function `check_led_timer`: the periodic restriction evaluation. Re-arming
the delayed work leaves the globals as they are. -/
def check_led_timer (env : Env) (s : State) : State :=
  (check_restrictions env s).2

/-- State left by `an30259a_probe`: the static initialisers of the globals, the
calibration read by `an30259a_parse_dt` (`none` when a property is absent) and
the register file `regs` read back from the chip, after `leds_set_imax(client, 0)`.
The static arrays of saved blinks start zero-filled. -/
def an30259a_probe (regs : Image) (dt_default dt_lowpower : Option Nat) : State :=
  let led_default_cur := (dt_default.getD 0x28) % 4294967296
  let led_lowpower_cur := (dt_lowpower.getD 0x05) % 4294967296
  let img : Image := fun r => regs r % 256
  let img := img.set AN30259A_REG_SEL (img AN30259A_REG_SEL &&& compl32 AN30259A_MASK_IMAX)
  { shadow_reg := img
    bus := []
    brightness := fun _ => 0
    is_work_active := false
    LED_DYNAMIC_CURRENT := 0x8
    LED_LOWPOWER_MODE := 0x0
    LED_R_CURRENT := led_default_cur
    LED_G_CURRENT := led_default_cur
    LED_B_CURRENT := led_default_cur
    led_default_cur := led_default_cur
    led_lowpower_cur := led_lowpower_cur
    led_enable_fade := 0
    led_enable_fade_charging := 0
    led_intensity := 0
    led_time_on := 0
    led_time_off := 0
    led_step_speed1 := 1
    led_step_speed2 := 1
    led_step_speed3 := 1
    led_step_speed4 := 1
    led_step_bit_shift := 4
    led_block_leds_time_start := -1
    led_block_leds_time_stop := -1
    led_always_disable := 0
    block_leds_not_blocking := false
    block_leds_check_allowed := true
    block_leds_saved_mode := -1
    block_leds_saved_delay_on_time := fun _ => 0
    block_leds_saved_delay_off_time := fun _ => 0
    block_leds_saved_brightness := fun _ => 0
    led_debug_enable := 0 }

/-- The control points of the driver, with their parsed arguments. -/
inductive Command where
  | led_r (brightness : Nat)
  | led_g (brightness : Nat)
  | led_b (brightness : Nat)
  | led_pattern (mode : Int)
  | led_blink (led_brightness delay_on_time delay_off_time : Nat)
  | led_fade (enabled : Int)
  | led_fade_charging (enabled : Int)
  | led_intensity (intensity : Int)
  | led_time_on (val : Nat)
  | led_time_off (val : Nat)
  | led_step_speed1 (val : Nat)
  | led_step_speed2 (val : Nat)
  | led_step_speed3 (val : Nat)
  | led_step_speed4 (val : Nat)
  | led_step_bit_shift (val : Nat)
  | led_block_leds_time_start (val : Nat)
  | led_block_leds_time_stop (val : Nat)
  | led_always_disable (val : Nat)
  | led_debug_enable (val : Nat)
  | led_br_lev (brightness_lev : Nat)
  | led_lowpower (led_lowpower : Nat)
  | set_brightness (channel : Fin 3) (brightness : Nat)
  | brightness_work (channel : Fin 3)
  | timer

/-- Effect of one command on the driver state. -/
def Command.run (env : Env) (c : Command) (s : State) : State :=
  match c with
  | .led_r b => store_led env LED_R b s
  | .led_g b => store_led env LED_G b s
  | .led_b b => store_led env LED_B b s
  | .led_pattern mode => store_an30259a_led_pattern env mode s
  | .led_blink b d1 d2 => store_an30259a_led_blink env b d1 d2 s
  | .led_fade v => store_an30259a_led_fade v s
  | .led_fade_charging v => store_an30259a_led_fade_charging v s
  | .led_intensity v => store_an30259a_led_intensity v s
  | .led_time_on v => store_an30259a_led_time_on v s
  | .led_time_off v => store_an30259a_led_time_off v s
  | .led_step_speed1 v => store_an30259a_led_step_speed1 v s
  | .led_step_speed2 v => store_an30259a_led_step_speed2 v s
  | .led_step_speed3 v => store_an30259a_led_step_speed3 v s
  | .led_step_speed4 v => store_an30259a_led_step_speed4 v s
  | .led_step_bit_shift v => store_an30259a_led_step_bit_shift v s
  | .led_block_leds_time_start v => store_an30259a_led_block_leds_time_start v s
  | .led_block_leds_time_stop v => store_an30259a_led_block_leds_time_stop v s
  | .led_always_disable v => store_an30259a_led_always_disable v s
  | .led_debug_enable v => store_an30259a_led_debug_enable v s
  | .led_br_lev v => store_an30259a_led_br_lev env v s
  | .led_lowpower v => store_an30259a_led_lowpower v s
  | .set_brightness ch b => an30259a_set_brightness ch.val b s
  | .brightness_work ch => an30259a_led_brightness_work env ch.val s
  | .timer => check_led_timer env s

/-- States the driver can be in between two commands. -/
inductive Reachable : State → Prop where
  | probe (regs : Image) (dt_default dt_lowpower : Option Nat) :
      Reachable (an30259a_probe regs dt_default dt_lowpower)
  | step (env : Env) (c : Command) (s : State) :
      Reachable s → Reachable (c.run env s)

/-! ## Observations on the register image -/

/-- Enable bit of channel `led` in `LEDON`. -/
def enable_bit (img : Image) (led : Nat) : Bool :=
  (img AN30259A_REG_LEDON).testBit led

/-- Slope-mode bit of channel `led` in `LEDON`. -/
def slope_bit (img : Image) (led : Nat) : Bool :=
  (img AN30259A_REG_LEDON).testBit (4 + led)

/-- Delay nibble of channel `led`: the high nibble of its `CNT2`. -/
def delay_nibble (img : Image) (led : Nat) : Nat :=
  (img (AN30259A_REG_LED1CNT2 + led * 4) >>> 4) % 16

/-- Current-control register of channel `led`. -/
def current_control (img : Image) (led : Nat) : Nat :=
  img (AN30259A_REG_LED1CC + led)

/-- High nibble of a byte: the inverse of the packing `hi << 4 | lo`. -/
def unpack_hi (b : Nat) : Nat := (b >>> 4) % 16

/-- Low nibble of a byte. -/
def unpack_lo (b : Nat) : Nat := b % 16

/-- Image with every output forced off, in the words of the specification: the
enable and slope bits of the three channels cleared (bits 3 and 7 of `LEDON`
kept), the three current-control registers zero, the delay nibble of each
channel's `CNT2` zero (its low nibble kept), every other register as it was. -/
def forced_off (img : Image) : Image := fun r =>
  if r = AN30259A_REG_LEDON then (img r % 256) &&& 0x88
  else if r = AN30259A_REG_LED1CC + LED_R ∨ r = AN30259A_REG_LED1CC + LED_G
      ∨ r = AN30259A_REG_LED1CC + LED_B then 0
  else if r = AN30259A_REG_LED1CNT2 + LED_R * 4 ∨ r = AN30259A_REG_LED1CNT2 + LED_G * 4
      ∨ r = AN30259A_REG_LED1CNT2 + LED_B * 4 then img r % 16
  else img r

/-- State `s` with the two flags of the guard, `block_leds_check_allowed` and
`block_leds_not_blocking`, replaced. -/
def State.with_guard (s : State) (check_allowed not_blocking : Bool) : State :=
  { s with block_leds_check_allowed := check_allowed,
           block_leds_not_blocking := not_blocking }

/-- Value returned by `check_restrictions`, as a function of the kill switch, the
window bounds and the current hour. -/
def restriction_ret (hour : Int) (s : State) : Bool :=
  if s.led_always_disable ≠ 0 then false
  else if s.led_block_leds_time_start ≠ -1 ∧ s.led_block_leds_time_stop ≠ -1 then
    window_ret s.led_block_leds_time_start s.led_block_leds_time_stop hour
  else true

/-- Everything in the state but the register image, the bus log and
`LED_DYNAMIC_CURRENT`. -/
def State.rest (s : State) : State :=
  { s with shadow_reg := fun _ => 0, bus := [], LED_DYNAMIC_CURRENT := 0 }

/-- The globals written only by the sysfs setters and the latched brightness. -/
def State.settings (s : State) : State :=
  { s with
    shadow_reg := fun _ => 0
    bus := []
    LED_DYNAMIC_CURRENT := 0
    block_leds_not_blocking := false
    block_leds_check_allowed := false
    block_leds_saved_mode := 0
    block_leds_saved_delay_on_time := fun _ => 0
    block_leds_saved_delay_off_time := fun _ => 0
    block_leds_saved_brightness := fun _ => 0 }

/-! ## Concrete environments and states used as test inputs -/

/-- Clock reading `h` o'clock in a zone without offset, over a transport that
always succeeds. -/
def env_at (h : Int) : Env := { tm_hour := h, tz_minuteswest := 0, xfer := fun _ _ => 0 }

/-- Driver state after probing a chip whose registers read back as zero, without
calibration properties in the device tree. -/
def state0 : State := an30259a_probe (fun _ => 0) none none

/-- State `state0` after the window has been set to start 22, stop 6. -/
def night_window : State :=
  store_an30259a_led_block_leds_time_stop 6
    (store_an30259a_led_block_leds_time_start 22 state0)

/-- State `night_window` after the Charging pattern was requested at 21 o'clock,
outside the window: Red is lit. -/
def charging_evening : State :=
  an30259a_start_led_pattern (env_at 21) CHARGING night_window

/-- State `night_window` after a first evaluation of the restrictions at noon:
nothing is pending and every saved slot holds `-1`. -/
def night_settled : State := check_led_timer (env_at 12) night_window

/-- State `night_settled` after the Charging pattern was requested at
23 o'clock, inside the window: the pattern is saved. -/
def charging_saved : State :=
  an30259a_start_led_pattern (env_at 23) CHARGING night_settled

/-- State `night_settled` after a green blink and then the Charging pattern were
requested at 23 o'clock: both are saved. -/
def charging_and_blink_saved : State :=
  an30259a_start_led_pattern (env_at 23) CHARGING
    (store_an30259a_led_blink (env_at 23) 0x0000FF00 500 2000 night_settled)

/-- State `charging_saved` after the stop bound of the window has been unset. -/
def charging_saved_unset : State :=
  store_an30259a_led_block_leds_time_stop UINT_M1 charging_saved

/-- State `night_window` after `255` was written to the `led_r` node at noon:
Red is lit at full current and nothing has been suppressed since the probe. -/
def red_lit_night : State := store_led (env_at 12) LED_R 255 night_window

/-- State `state0` after the kill switch `led_always_disable` has been set. -/
def killed : State := store_an30259a_led_always_disable 1 state0

/-- State `state0` after fade has been enabled. -/
def fade_on : State := store_an30259a_led_fade 1 state0

/-- State `fade_on` after the first step duration has been set to 20. -/
def fade_on_step20 : State := store_an30259a_led_step_speed1 20 fade_on

/-- What the register image holds for one channel: its enable and slope bits in
`LEDON`, its current-control register, its sleep-timing register and its four
control bytes. -/
structure ChannelView where
  enable : Bool
  slope : Bool
  cc : Nat
  slp : Nat
  cnt1 : Nat
  cnt2 : Nat
  cnt3 : Nat
  cnt4 : Nat

/-- View of channel `led` in the image. -/
def channel_view (img : Image) (led : Nat) : ChannelView :=
  { enable := enable_bit img led
    slope := slope_bit img led
    cc := img (AN30259A_REG_LED1CC + led)
    slp := img (AN30259A_REG_LED1SLP + led)
    cnt1 := img (AN30259A_REG_LED1CNT1 + led * 4)
    cnt2 := img (AN30259A_REG_LED1CNT2 + led * 4)
    cnt3 := img (AN30259A_REG_LED1CNT3 + led * 4)
    cnt4 := img (AN30259A_REG_LED1CNT4 + led * 4) }

/-- Quantizer `to_units` in the words of the specification: `ceil(ms / 500)`
clamped to 15. -/
def spec_to_units (ms : Nat) : Nat := min 15 ((ms + 499) / 500)

/-- Duration in effect for a blink: the global override when it is non-zero,
else the caller's value. -/
def effective_ms (override ms : Nat) : Nat := if override ≠ 0 then override else ms

/-- State `fade_on` after low-power mode has been switched on. -/
def fade_lowpower : State := store_an30259a_led_lowpower 1 fade_on

/-- State `night_settled` after a red blink with on-time 500 ms was requested at
23 o'clock, inside the window: the blink is saved. -/
def red_blink_saved : State :=
  an30259a_set_led_blink (env_at 23) LED_R 500 2000 255 night_settled

/-- State `night_settled` after a red blink with on-time `0xFFFFFFFF` (the text
`-1` parsed into an `unsigned int`) was requested at 23 o'clock. -/
def red_blink_minus_one : State :=
  an30259a_set_led_blink (env_at 23) LED_R 4294967295 2000 255 night_settled

/-- Brightness byte of channel `led` that `store_an30259a_led_blink` cuts out of the
parsed colour word: `led_r_brightness`, `led_g_brightness`, `led_b_brightness`. -/
def blink_color_byte (led_brightness led : Nat) : Nat :=
  if led = LED_R then
    (((led_brightness % 4294967296) &&& LED_R_MASK) >>> LED_R_SHIFT) % 256
  else if led = LED_G then
    (((led_brightness % 4294967296) &&& LED_G_MASK) >>> LED_G_SHIFT) % 256
  else ((led_brightness % 4294967296) &&& LED_B_MASK) % 256

/-- State after the probe and `store_an30259a_led_time_off 2000`: the off-time
override is set, fade during charging is not. -/
def time_off_set : State := store_an30259a_led_time_off 2000 state0

/-- State `state0` after the intensity has been set to 100. -/
def intensity_100 : State := store_an30259a_led_intensity 100 state0

/-- State `fade_on` after the step bit-shift has been set to 8. -/
def fade_on_shift8 : State := store_an30259a_led_step_bit_shift 8 fade_on

/-- Clock reading noon over a transport on which every transfer fails with `-5`
(`-EIO`). -/
def env_fail : Env := { tm_hour := 12, tz_minuteswest := 0, xfer := fun _ _ => -5 }

/-- Calibrated current of channel `led`: `LED_R_CURRENT`, `LED_G_CURRENT` or
`LED_B_CURRENT`. -/
def calibrated_current (s : State) (led : Nat) : Nat :=
  if led = LED_R then s.LED_R_CURRENT
  else if led = LED_G then s.LED_G_CURRENT
  else s.LED_B_CURRENT

/-- Multiplier of a blink in the words of the specification: the calibrated current
of the channel, as a byte, when the intensity is 0 or the stock value 40, else the
intensity. -/
def spec_blink_multiplier (s : State) (led : Nat) : Nat :=
  if s.led_intensity = 0 ∨ s.led_intensity = 40 then calibrated_current s led % 256
  else s.led_intensity

/-- State `state0` after the Missed-notification pattern was shown at noon: Blue is
in slope mode with the delay nibble 10. -/
def missed_noti_shown : State := an30259a_start_led_pattern (env_at 12) MISSED_NOTI state0

/-- State `state0` after fade during charging has been enabled. -/
def fade_charging_on : State := store_an30259a_led_fade_charging 1 state0

/-- State `charging_saved_unset` after the Off pattern was requested at 23 o'clock
and applied (the stop bound is unset, so nothing blocks), and the stop bound was
then set to 6 again. -/
def off_applied_window_back : State :=
  store_an30259a_led_block_leds_time_stop 6
    (store_an30259a_led_pattern (env_at 23) (LED_OFF : Int) charging_saved_unset)

/-- State `off_applied_window_back` after the timer evaluated the restrictions at
23 o'clock, inside the window. -/
def off_applied_night : State := check_led_timer (env_at 23) off_applied_window_back

/-- State `night_settled` after a custom red blink was requested at 23 o'clock,
inside the window: the blink is saved, with Off as the saved pattern. -/
def custom_blink_saved : State :=
  store_an30259a_led_blink (env_at 23) 0x00FF0000 500 2000 night_settled

/-! ## The pattern engine with the division checked -/

/-- Locals `led_r_brightness`, `led_g_brightness`, `led_b_brightness` of
`an30259a_start_led_pattern` with the division checked: `none` when
`led_intensity / LED_DYNAMIC_CURRENT` is evaluated with a zero divisor. -/
def pattern_brightness_checked (s : State) (current : Nat) : Option Nat :=
  if s.led_intensity = 0 then some (current % 256)
  else if s.LED_DYNAMIC_CURRENT = 0 then none
  else some ((s.led_intensity / s.LED_DYNAMIC_CURRENT) % 256)

/-- Function `pattern_apply` with the division checked: the three locals are
computed before the `switch`, whatever the `mode`, and share one divisor. -/
def pattern_apply_checked (env : Env) (mode : Int) (s : State) : Option State :=
  match pattern_brightness_checked
      { s with LED_DYNAMIC_CURRENT := pattern_dynamic_current s } s.LED_R_CURRENT with
  | none => none
  | some _ => some (pattern_apply env mode s)

/-- Function `start_led_pattern_body` with the division checked. -/
def start_led_pattern_body_checked (env : Env) (mode : Int) (s : State) : Option State :=
  if mode > POWERING then some s
  else if mode = (LED_OFF : Int) then some (an30259a_reset_register_work env s)
  else pattern_apply_checked env mode (an30259a_reset_register_work env s)

/-- Function `restore_mode` with the division checked. -/
def restore_mode_checked (env : Env) (s : State) : Option State :=
  if s.block_leds_saved_mode ≠ -1 then
    let s := { s with block_leds_check_allowed := false }
    match start_led_pattern_body_checked env s.block_leds_saved_mode s with
    | none => none
    | some s => some { s with block_leds_check_allowed := true }
  else some s

/-- Function `restore_saved` with the division checked. -/
def restore_saved_checked (env : Env) (s : State) : Option State :=
  match restore_mode_checked env s with
  | none => none
  | some s =>
    let s := restore_blink 0 s
    let s := restore_blink 1 s
    let s := restore_blink 2 s
    some (clear_saved s)

/-- Function `check_restrictions` with the division of a replayed pattern checked. -/
def check_restrictions_checked (env : Env) (s : State) : Option (Bool × State) :=
  if s.led_always_disable ≠ 0 then
    let s := an30259a_reset_register_work env s
    some (false, { s with block_leds_not_blocking := false })
  else if s.led_block_leds_time_start ≠ -1 ∧ s.led_block_leds_time_stop ≠ -1 then
    let ret := window_ret s.led_block_leds_time_start s.led_block_leds_time_stop
      (curhour env)
    let s := if !ret then an30259a_reset_register_work env s else s
    if ret && !s.block_leds_not_blocking then
      match restore_saved_checked env s with
      | none => none
      | some s => some (ret, { s with block_leds_not_blocking := ret })
    else some (ret, { s with block_leds_not_blocking := ret })
  else
    some (true, { s with block_leds_not_blocking := true })

/-- Function `an30259a_start_led_pattern` with the division checked: `none` when
the call divides by zero, in the replay of a saved pattern or in its own
brightness computation. -/
def an30259a_start_led_pattern_checked (env : Env) (mode : Int) (s : State) :
    Option State :=
  if s.block_leds_check_allowed then
    match check_restrictions_checked env s with
    | none => none
    | some r =>
      if !r.1 then some { r.2 with block_leds_saved_mode := mode }
      else start_led_pattern_body_checked env mode r.2
  else start_led_pattern_body_checked env mode s

/-- State after probing with a device tree whose default current is 0, then
`store_an30259a_led_intensity 100`. -/
def zero_default_intensity_100 : State :=
  store_an30259a_led_intensity 100 (an30259a_probe (fun _ => 0) (some 0) none)

/-- State `intensity_100` after low-power mode has been switched on. -/
def lowpower_intensity_100 : State := store_an30259a_led_lowpower 1 intensity_100

/-! ## Theorems -/

/-! ### Restriction verdict -/

theorem check_restrictions_fst_window (env : Env) (s : State)
    (hk : s.led_always_disable = 0) (h1 : s.led_block_leds_time_start ≠ -1)
    (h2 : s.led_block_leds_time_stop ≠ -1) :
    (check_restrictions env s).1 =
      window_ret s.led_block_leds_time_start s.led_block_leds_time_stop (curhour env) := by
  simp [check_restrictions, hk, h1, h2]

theorem check_restrictions_fst_unset (env : Env) (s : State)
    (hk : s.led_always_disable = 0)
    (h : s.led_block_leds_time_start = -1 ∨ s.led_block_leds_time_stop = -1) :
    (check_restrictions env s).1 = true := by
  have : ¬ (s.led_block_leds_time_start ≠ -1 ∧ s.led_block_leds_time_stop ≠ -1) := by
    rcases h with h | h <;> simp [h]
  simp only [check_restrictions, hk, this]
  simp

theorem window_ret_false_iff (start stop hour : Int) :
    window_ret start stop hour = false ↔
      (start ≤ stop ∧ start ≤ hour ∧ hour < stop) ∨
      (start > stop ∧ (hour ≥ start ∨ hour < stop)) := by
  unfold window_ret
  split_ifs <;> simp <;> omega

/-- Claim C1. With the kill switch off, `check_restrictions` reports blocked
(`ret = false`) exactly when the current hour lies in the window
`[start, stop)`, taken across midnight when `start > stop`; with either bound
unset it reports not-blocked. Window (22, 6) blocks exactly the hours
22, 23, 0, ..., 5 and window (6, 22) exactly the hours 6, ..., 21. -/
theorem check_restrictions_window (env : Env) (s : State)
    (hk : s.led_always_disable = 0) :
    ((s.led_block_leds_time_start = -1 ∨ s.led_block_leds_time_stop = -1) →
      (check_restrictions env s).1 = true) ∧
    ((0 ≤ s.led_block_leds_time_start ∧ s.led_block_leds_time_start ≤ 23) →
      (0 ≤ s.led_block_leds_time_stop ∧ s.led_block_leds_time_stop ≤ 23) →
      (0 ≤ curhour env ∧ curhour env ≤ 23) →
      ((check_restrictions env s).1 = false ↔
        (s.led_block_leds_time_start ≤ s.led_block_leds_time_stop ∧
          s.led_block_leds_time_start ≤ curhour env ∧
          curhour env < s.led_block_leds_time_stop) ∨
        (s.led_block_leds_time_start > s.led_block_leds_time_stop ∧
          (curhour env ≥ s.led_block_leds_time_start ∨
            curhour env < s.led_block_leds_time_stop)))) ∧
    (s.led_block_leds_time_start = 22 → s.led_block_leds_time_stop = 6 →
      (0 ≤ curhour env ∧ curhour env ≤ 23) →
      ((check_restrictions env s).1 = false ↔ curhour env ∈ [22, 23, 0, 1, 2, 3, 4, 5])) ∧
    (s.led_block_leds_time_start = 6 → s.led_block_leds_time_stop = 22 →
      (0 ≤ curhour env ∧ curhour env ≤ 23) →
      ((check_restrictions env s).1 = false ↔ (6 ≤ curhour env ∧ curhour env ≤ 21))) := by
  refine ⟨check_restrictions_fst_unset env s hk, ?_, ?_, ?_⟩
  · intro hs hp _
    rw [check_restrictions_fst_window env s hk (by omega) (by omega), window_ret_false_iff]
  · intro hs hp hh
    rw [check_restrictions_fst_window env s hk (by omega) (by omega), window_ret_false_iff,
      hs, hp]
    simp only [List.mem_cons, List.mem_singleton, List.not_mem_nil, or_false]
    omega
  · intro hs hp hh
    rw [check_restrictions_fst_window env s hk (by omega) (by omega), window_ret_false_iff,
      hs, hp]
    omega

/-- Witness of C1: in the window (22, 6) the hour 23 is blocked and the hour 6
is not. -/
theorem check_restrictions_window_witness :
    night_window.led_always_disable = 0 ∧
      (check_restrictions (env_at 23) night_window).1 = false ∧
      (check_restrictions (env_at 6) night_window).1 = true :=
  ⟨rfl,
    ((check_restrictions_window (env_at 23) night_window rfl).2.2.1 rfl rfl
      (by decide)).mpr (by decide),
    by
      have h := (check_restrictions_window (env_at 6) night_window rfl).2.2.1 rfl rfl
        (by decide)
      cases hc : (check_restrictions (env_at 6) night_window).1
      · exact absurd (h.mp hc) (by decide)
      · rfl⟩

/-! ### Bit-level facts -/

theorem land_mod_256 (a m : Nat) : (a &&& m) % 256 = (a % 256) &&& (m % 256) := by
  apply Nat.eq_of_testBit_eq
  intro i
  have h : (256 : Nat) = 2 ^ 8 := by norm_num
  simp only [h, Nat.testBit_mod_two_pow, Nat.testBit_land]
  by_cases hi : i < 8 <;> simp [hi]

theorem lor_mod_256 (a m : Nat) : (a ||| m) % 256 = (a % 256) ||| (m % 256) := by
  apply Nat.eq_of_testBit_eq
  intro i
  have h : (256 : Nat) = 2 ^ 8 := by norm_num
  simp only [h, Nat.testBit_mod_two_pow, Nat.testBit_lor]
  by_cases hi : i < 8 <;> simp [hi]

theorem land_15 (y : Nat) : y &&& 15 = y % 16 := Nat.and_pow_two_sub_one_eq_mod y 4

theorem byte_masks (y : Nat) :
    ((((((y &&& 254) &&& 239) &&& 253) &&& 223) &&& 251) &&& 191) = y &&& 136 := by
  simp only [Nat.land_assoc]
  rfl

theorem ledon_off_mask (x : Nat) :
    ((((((x &&& 4294967294) % 256 &&& 4294967279) % 256 &&& 4294967293) % 256
      &&& 4294967263) % 256 &&& 4294967291) % 256 &&& 4294967231) % 256
      = x % 256 &&& 136 := by
  simp only [land_mod_256, Nat.mod_mod]
  norm_num
  exact byte_masks (x % 256)

theorem delay_mask (x : Nat) : (x &&& 4294967055) % 256 = x % 16 := by
  rw [land_mod_256]
  norm_num
  rw [land_15]
  omega

/-! ### Frame of the encoders and of the commit -/

theorem Image.set_apply (img : Image) (a v r : Nat) :
    img.set a v r = if r = a then v % 256 else img r := rfl

theorem leds_i2c_write_all_eq (env : Env) (s : State) :
    (leds_i2c_write_all env s).2 = { s with bus := (leds_i2c_write_all env s).2.bus } := by
  unfold leds_i2c_write_all
  simp only
  split_ifs <;> rfl

@[simp] theorem leds_i2c_write_all_shadow_reg (env : Env) (s : State) :
    (leds_i2c_write_all env s).2.shadow_reg = s.shadow_reg := by
  rw [leds_i2c_write_all_eq]

theorem leds_on_img_off_apply (img : Image) (led cc r : Nat) :
    leds_on_img img led false false cc r =
      if r = 3 + led then cc % 256
      else if r = 1 then
        ((img 1 &&& compl32 (1 <<< led)) % 256 &&& compl32 (16 <<< led)) % 256
      else if r = 10 + led * 4 then (img r &&& 4294967055) % 256
      else img r := by
  simp only [leds_on_img, Image.set_apply, AN30259A_REG_LEDON,
    AN30259A_REG_LED1CC, AN30259A_REG_LED1CNT2, LED_ON, LED_SLOPE_MODE,
    AN30259A_MASK_DELAY, Bool.false_eq_true, if_false]
  have hc : compl32 240 = 4294967055 := by decide
  rw [hc]
  split_ifs <;> first | rfl | omega | simp_all

theorem leds_off_img (img : Image) :
    leds_on_img (leds_on_img (leds_on_img img LED_R false false 0) LED_G false false 0)
      LED_B false false 0 = forced_off img := by
  funext r
  have c1 : compl32 (1 <<< 0) = 4294967294 := by decide
  have c2 : compl32 (16 <<< 0) = 4294967279 := by decide
  have c3 : compl32 (1 <<< 1) = 4294967293 := by decide
  have c4 : compl32 (16 <<< 1) = 4294967263 := by decide
  have c5 : compl32 (1 <<< 2) = 4294967291 := by decide
  have c6 : compl32 (16 <<< 2) = 4294967231 := by decide
  simp only [leds_on_img_off_apply, forced_off, LED_R, LED_G, LED_B, AN30259A_REG_LEDON,
    AN30259A_REG_LED1CC, AN30259A_REG_LED1CNT2, c1, c2, c3, c4, c5, c6]
  norm_num
  split_ifs <;>
    first | rfl | omega | (subst_vars; exact ledon_off_mask _) | exact delay_mask _

@[simp] theorem rest_leds_on (s : State) (led : Nat) (a b : Bool) (cc : Nat) :
    (leds_on s led a b cc).rest = s.rest := rfl

@[simp] theorem rest_leds_set_slope_mode (s : State) (led a b c d e f g h i j : Nat) :
    (leds_set_slope_mode s led a b c d e f g h i j).rest = s.rest := rfl

@[simp] theorem rest_leds_i2c_write_all (env : Env) (s : State) :
    (leds_i2c_write_all env s).2.rest = s.rest := by
  rw [leds_i2c_write_all_eq]; rfl

@[simp] theorem rest_reset (env : Env) (s : State) :
    (an30259a_reset_register_work env s).rest = s.rest := by
  simp [an30259a_reset_register_work]

@[simp] theorem rest_set_dyn (s : State) (v : Nat) :
    ({ s with LED_DYNAMIC_CURRENT := v } : State).rest = s.rest := rfl

@[simp] theorem rest_pattern_apply (env : Env) (mode : Int) (s : State) :
    (pattern_apply env mode s).rest = s.rest := by
  unfold pattern_apply pattern_switch pattern_fade_slope
  split_ifs <;> simp

@[simp] theorem rest_start_led_pattern_body (env : Env) (mode : Int) (s : State) :
    (start_led_pattern_body env mode s).rest = s.rest := by
  unfold start_led_pattern_body
  split_ifs <;> simp

@[simp] theorem rest_set_led_blink_body (led d1 d2 b : Nat) (s : State) :
    (set_led_blink_body led d1 d2 b s).rest = s.rest := by
  unfold set_led_blink_body blink_apply blink_slope
  split_ifs <;> simp

theorem reset_shadow_reg (env : Env) (s : State) :
    (an30259a_reset_register_work env s).shadow_reg = forced_off s.shadow_reg := by
  simp [an30259a_reset_register_work, leds_on, leds_off_img]

theorem check_restrictions_blocked (env : Env) (s : State)
    (h : (check_restrictions env s).1 = false) :
    (check_restrictions env s).2 =
      { an30259a_reset_register_work env s with block_leds_not_blocking := false } := by
  unfold check_restrictions at h ⊢
  split_ifs at h ⊢ with h1 h2
  · rfl
  · simp only at h
    simp [h]

theorem check_restrictions_blocked_shadow_reg (env : Env) (s : State)
    (h : (check_restrictions env s).1 = false) :
    (check_restrictions env s).2.shadow_reg = forced_off s.shadow_reg := by
  rw [check_restrictions_blocked env s h]
  exact reset_shadow_reg env s

theorem forced_off_bits (img : Image) (led : Nat) (hled : led < 3) :
    enable_bit (forced_off img) led = false ∧ slope_bit (forced_off img) led = false ∧
      delay_nibble (forced_off img) led = 0 ∧ current_control (forced_off img) led = 0 := by
  have h136 : ∀ i, i < 3 → Nat.testBit 136 i = false ∧ Nat.testBit 136 (4 + i) = false := by
    decide
  refine ⟨?_, ?_, ?_, ?_⟩
  · simp [enable_bit, forced_off, AN30259A_REG_LEDON, Nat.testBit_land, (h136 led hled).1]
  · simp [slope_bit, forced_off, AN30259A_REG_LEDON, Nat.testBit_land, (h136 led hled).2]
  · interval_cases led <;>
      simp [delay_nibble, forced_off, AN30259A_REG_LEDON, AN30259A_REG_LED1CNT2,
        AN30259A_REG_LED1CC, LED_R, LED_G, LED_B, Nat.shiftRight_eq_div_pow]
  · interval_cases led <;>
      simp [current_control, forced_off, AN30259A_REG_LEDON,
        AN30259A_REG_LED1CC, LED_R, LED_G, LED_B]

/-- Claim C7. Whenever `check_restrictions` returns blocked, whether through the
kill switch or through the window, the register image on return has the enable
bit and the slope bit of each of the three channels clear and each delay
nibble zero, whatever the image was before the call. -/
theorem check_restrictions_blocked_forces_off (env : Env) (s : State) (led : Nat)
    (hled : led < 3) (h : (check_restrictions env s).1 = false) :
    enable_bit (check_restrictions env s).2.shadow_reg led = false ∧
      slope_bit (check_restrictions env s).2.shadow_reg led = false ∧
      delay_nibble (check_restrictions env s).2.shadow_reg led = 0 := by
  rw [check_restrictions_blocked_shadow_reg env s h]
  exact ⟨(forced_off_bits _ led hled).1, (forced_off_bits _ led hled).2.1,
    (forced_off_bits _ led hled).2.2.1⟩

/-- Witness of C7: at 23 o'clock in the window (22, 6), with Red lit before. -/
theorem check_restrictions_blocked_forces_off_witness :
    enable_bit charging_evening.shadow_reg 0 = true ∧
      (check_restrictions (env_at 23) charging_evening).1 = false ∧
      enable_bit (check_restrictions (env_at 23) charging_evening).2.shadow_reg 0 = false ∧
      slope_bit (check_restrictions (env_at 23) charging_evening).2.shadow_reg 0 = false ∧
      delay_nibble (check_restrictions (env_at 23) charging_evening).2.shadow_reg 0 = 0 :=
  ⟨by decide, by decide,
    check_restrictions_blocked_forces_off (env_at 23) charging_evening 0 (by decide)
      (by decide)⟩

theorem start_led_pattern_of_blocked (env : Env) (mode : Int) (s : State)
    (hc : s.block_leds_check_allowed = true) (h : (check_restrictions env s).1 = false) :
    an30259a_start_led_pattern env mode s =
      { (check_restrictions env s).2 with block_leds_saved_mode := mode } := by
  simp [an30259a_start_led_pattern, hc, h]

/-- Claim C2, as amended. In a state where the window is active and currently
blocking (kill switch off), `an30259a_start_led_pattern p` records `p` as the
saved pattern and leaves the register image forced off: the prior image with the
enable and slope bits of the three channels cleared, the delay nibbles zeroed
and the current-control registers set to zero, every other bit as it was. The
flag `block_leds_check_allowed` is set, as it is in every reachable state
(`reachable_check_allowed`). -/
theorem start_led_pattern_blocked_saves (env : Env) (p : Int) (s : State)
    (hc : s.block_leds_check_allowed = true)
    (hk : s.led_always_disable = 0)
    (h1 : s.led_block_leds_time_start ≠ -1) (h2 : s.led_block_leds_time_stop ≠ -1)
    (hb : window_ret s.led_block_leds_time_start s.led_block_leds_time_stop
      (curhour env) = false) :
    (an30259a_start_led_pattern env p s).block_leds_saved_mode = p ∧
      (an30259a_start_led_pattern env p s).shadow_reg = forced_off s.shadow_reg := by
  have h : (check_restrictions env s).1 = false := by
    rw [check_restrictions_fst_window env s hk h1 h2, hb]
  rw [start_led_pattern_of_blocked env p s hc h]
  exact ⟨rfl, check_restrictions_blocked_shadow_reg env s h⟩

/-- Witness of C2 (amended): Missed-notification requested at 23 o'clock. -/
theorem start_led_pattern_blocked_saves_witness :
    (an30259a_start_led_pattern (env_at 23) MISSED_NOTI charging_evening).block_leds_saved_mode
        = MISSED_NOTI ∧
      (an30259a_start_led_pattern (env_at 23) MISSED_NOTI charging_evening).shadow_reg
        = forced_off charging_evening.shadow_reg :=
  start_led_pattern_blocked_saves (env_at 23) MISSED_NOTI charging_evening rfl rfl
    (by decide) (by decide) (by decide)

/-- Counterexample to C2 as stated: Charging is shown at 21 o'clock; a pattern
request at 23 o'clock, inside the window (22, 6), is saved but the call clears
the Red enable bit and the Red current in the register image. -/
theorem start_led_pattern_blocked_changes_image :
    charging_evening.block_leds_check_allowed = true ∧
      charging_evening.led_always_disable = 0 ∧
      (check_restrictions (env_at 23) charging_evening).1 = false ∧
      (an30259a_start_led_pattern (env_at 23) MISSED_NOTI charging_evening).block_leds_saved_mode
        = MISSED_NOTI ∧
      charging_evening.shadow_reg AN30259A_REG_LEDON = 1 ∧
      (an30259a_start_led_pattern (env_at 23) MISSED_NOTI charging_evening).shadow_reg
        AN30259A_REG_LEDON = 0 ∧
      charging_evening.shadow_reg AN30259A_REG_LED1CC = 0x28 ∧
      (an30259a_start_led_pattern (env_at 23) MISSED_NOTI charging_evening).shadow_reg
        AN30259A_REG_LED1CC = 0 := by
  decide

/-! ### Slope packing -/

theorem pack_nibbles (a b : Nat) (ha : a < 16) (hb : b < 16) :
    (((a % 256) <<< 4) ||| (b % 256)) % 256 = 16 * a + b := by
  have h : 2 ^ 4 * a + b = 2 ^ 4 * a ||| b := Nat.mul_add_lt_is_or (by omega) a
  rw [Nat.mod_eq_of_lt (by omega : a < 256), Nat.mod_eq_of_lt (by omega : b < 256),
    Nat.shiftLeft_eq, Nat.mul_comm a, ← h]
  omega

theorem unpack_pack (a b : Nat) (ha : a < 16) (hb : b < 16) :
    unpack_hi (16 * a + b) = a ∧ unpack_lo (16 * a + b) = b := by
  simp only [unpack_hi, unpack_lo, Nat.shiftRight_eq_div_pow]
  omega

theorem leds_set_slope_mode_img_cnt1 (shift : Nat) (img : Image)
    (led delay dutymax dutymid dutymin slptt1 slptt2 dt1 dt2 dt3 dt4 : Nat) :
    leds_set_slope_mode_img shift img led delay dutymax dutymid dutymin slptt1 slptt2
        dt1 dt2 dt3 dt4 (AN30259A_REG_LED1CNT1 + led * 4)
      = (((dutymax % 256) <<< 4) ||| (dutymid % 256)) % 256 := by
  simp only [leds_set_slope_mode_img, Image.set_apply, AN30259A_REG_LED1CNT1,
    AN30259A_REG_LED1CNT2, AN30259A_REG_LED1CNT3, AN30259A_REG_LED1CNT4,
    AN30259A_REG_LED1SLP]
  split_ifs <;> first | rfl | omega

theorem leds_set_slope_mode_img_cnt2 (shift : Nat) (img : Image)
    (led delay dutymax dutymid dutymin slptt1 slptt2 dt1 dt2 dt3 dt4 : Nat) :
    leds_set_slope_mode_img shift img led delay dutymax dutymid dutymin slptt1 slptt2
        dt1 dt2 dt3 dt4 (AN30259A_REG_LED1CNT2 + led * 4)
      = (((delay % 256) <<< 4) ||| (dutymin % 256)) % 256 := by
  simp only [leds_set_slope_mode_img, Image.set_apply, AN30259A_REG_LED1CNT1,
    AN30259A_REG_LED1CNT2, AN30259A_REG_LED1CNT3, AN30259A_REG_LED1CNT4,
    AN30259A_REG_LED1SLP]
  split_ifs <;> first | rfl | omega

/-- Claim C8. For every channel and every `dutymax`, `dutymid`, `dutymin`,
`delay` below 16, after `leds_set_slope_mode` the high and low nibbles of the
channel's `CNT1` are `dutymax` and `dutymid`, and those of its `CNT2` are
`delay` and `dutymin`. -/
theorem leds_set_slope_mode_roundtrip (s : State)
    (led delay dutymax dutymid dutymin slptt1 slptt2 dt1 dt2 dt3 dt4 : Nat)
    (hmax : dutymax < 16) (hmid : dutymid < 16) (hmin : dutymin < 16)
    (hdelay : delay < 16) :
    unpack_hi ((leds_set_slope_mode s led delay dutymax dutymid dutymin slptt1 slptt2
        dt1 dt2 dt3 dt4).shadow_reg (AN30259A_REG_LED1CNT1 + led * 4)) = dutymax ∧
    unpack_lo ((leds_set_slope_mode s led delay dutymax dutymid dutymin slptt1 slptt2
        dt1 dt2 dt3 dt4).shadow_reg (AN30259A_REG_LED1CNT1 + led * 4)) = dutymid ∧
    unpack_hi ((leds_set_slope_mode s led delay dutymax dutymid dutymin slptt1 slptt2
        dt1 dt2 dt3 dt4).shadow_reg (AN30259A_REG_LED1CNT2 + led * 4)) = delay ∧
    unpack_lo ((leds_set_slope_mode s led delay dutymax dutymid dutymin slptt1 slptt2
        dt1 dt2 dt3 dt4).shadow_reg (AN30259A_REG_LED1CNT2 + led * 4)) = dutymin := by
  simp only [leds_set_slope_mode, leds_set_slope_mode_img_cnt1, leds_set_slope_mode_img_cnt2,
    pack_nibbles _ _ hmax hmid, pack_nibbles _ _ hdelay hmin]
  exact ⟨(unpack_pack _ _ hmax hmid).1, (unpack_pack _ _ hmax hmid).2,
    (unpack_pack _ _ hdelay hmin).1, (unpack_pack _ _ hdelay hmin).2⟩

/-- Witness of C8: the Missed-notification recipe (delay 10, duty 15/15/0) on
Blue. -/
theorem leds_set_slope_mode_roundtrip_witness :
    unpack_hi ((leds_set_slope_mode state0 LED_B 10 15 15 0 1 10 0 0 0 0).shadow_reg
        (AN30259A_REG_LED1CNT1 + LED_B * 4)) = 15 ∧
    unpack_lo ((leds_set_slope_mode state0 LED_B 10 15 15 0 1 10 0 0 0 0).shadow_reg
        (AN30259A_REG_LED1CNT1 + LED_B * 4)) = 15 ∧
    unpack_hi ((leds_set_slope_mode state0 LED_B 10 15 15 0 1 10 0 0 0 0).shadow_reg
        (AN30259A_REG_LED1CNT2 + LED_B * 4)) = 10 ∧
    unpack_lo ((leds_set_slope_mode state0 LED_B 10 15 15 0 1 10 0 0 0 0).shadow_reg
        (AN30259A_REG_LED1CNT2 + LED_B * 4)) = 0 :=
  leds_set_slope_mode_roundtrip state0 LED_B 10 15 15 0 1 10 0 0 0 0
    (by decide) (by decide) (by decide) (by decide)

/-! ### Frame of the restriction guard -/

theorem check_restrictions_fst (env : Env) (s : State) :
    (check_restrictions env s).1 = restriction_ret (curhour env) s := by
  unfold check_restrictions restriction_ret
  split_ifs <;> rfl

theorem settings_of_rest {s s' : State} (h : s'.rest = s.rest) : s'.settings = s.settings := by
  have h2 : s'.rest.settings = s.rest.settings := congrArg State.settings h
  exact h2

theorem restriction_ret_congr (hour : Int) {s s' : State} (h : s'.settings = s.settings) :
    restriction_ret hour s' = restriction_ret hour s := by
  have h1 : s'.settings.led_always_disable = s.settings.led_always_disable :=
    congrArg State.led_always_disable h
  have h2 : s'.settings.led_block_leds_time_start = s.settings.led_block_leds_time_start :=
    congrArg State.led_block_leds_time_start h
  have h3 : s'.settings.led_block_leds_time_stop = s.settings.led_block_leds_time_stop :=
    congrArg State.led_block_leds_time_stop h
  replace h1 : s'.led_always_disable = s.led_always_disable := h1
  replace h2 : s'.led_block_leds_time_start = s.led_block_leds_time_start := h2
  replace h3 : s'.led_block_leds_time_stop = s.led_block_leds_time_stop := h3
  simp only [restriction_ret, h1, h2, h3]

@[simp] theorem settings_restore_mode (env : Env) (s : State) :
    (restore_mode env s).settings = s.settings := by
  unfold restore_mode
  split_ifs
  · have h := settings_of_rest (rest_start_led_pattern_body env s.block_leds_saved_mode
      { s with block_leds_check_allowed := false })
    exact h
  · rfl

@[simp] theorem settings_restore_blink (i : Nat) (s : State) :
    (restore_blink i s).settings = s.settings := by
  unfold restore_blink
  split_ifs
  · have h := settings_of_rest (rest_set_led_blink_body i
      (s.block_leds_saved_delay_on_time i) (s.block_leds_saved_delay_off_time i)
      (s.block_leds_saved_brightness i) { s with block_leds_check_allowed := false })
    exact h
  · rfl

@[simp] theorem settings_clear_saved (s : State) : (clear_saved s).settings = s.settings := rfl

@[simp] theorem settings_restore_saved (env : Env) (s : State) :
    (restore_saved env s).settings = s.settings := by
  simp [restore_saved]

@[simp] theorem settings_reset (env : Env) (s : State) :
    (an30259a_reset_register_work env s).settings = s.settings :=
  settings_of_rest (rest_reset env s)

@[simp] theorem settings_check_restrictions (env : Env) (s : State) :
    (check_restrictions env s).2.settings = s.settings := by
  unfold check_restrictions
  split_ifs
  · exact settings_reset env s
  · simp only
    show State.settings (ite _ _ _) = _
    split_ifs <;> simp
  · rfl

theorem check_restrictions_not_blocking (env : Env) (s : State) :
    (check_restrictions env s).2.block_leds_not_blocking = (check_restrictions env s).1 := by
  unfold check_restrictions
  split_ifs <;> rfl

theorem check_allowed_restore_mode (env : Env) (s : State)
    (h : s.block_leds_check_allowed = true) :
    (restore_mode env s).block_leds_check_allowed = true := by
  unfold restore_mode
  split_ifs
  · rfl
  · exact h

theorem check_allowed_restore_blink (i : Nat) (s : State)
    (h : s.block_leds_check_allowed = true) :
    (restore_blink i s).block_leds_check_allowed = true := by
  unfold restore_blink
  split_ifs
  · rfl
  · exact h

theorem check_allowed_restore_saved (env : Env) (s : State)
    (h : s.block_leds_check_allowed = true) :
    (restore_saved env s).block_leds_check_allowed = true := by
  unfold restore_saved clear_saved
  exact check_allowed_restore_blink 2 _ (check_allowed_restore_blink 1 _
    (check_allowed_restore_blink 0 _ (check_allowed_restore_mode env s h)))

theorem check_allowed_reset (env : Env) (s : State) :
    (an30259a_reset_register_work env s).block_leds_check_allowed =
      s.block_leds_check_allowed := by
  have h : (an30259a_reset_register_work env s).rest.block_leds_check_allowed =
      s.rest.block_leds_check_allowed :=
    congrArg State.block_leds_check_allowed (rest_reset env s)
  exact h

theorem check_allowed_check_restrictions (env : Env) (s : State)
    (h : s.block_leds_check_allowed = true) :
    (check_restrictions env s).2.block_leds_check_allowed = true := by
  unfold check_restrictions
  split_ifs
  · exact (check_allowed_reset env s).trans h
  · simp only
    split_ifs <;>
      first
      | exact h
      | exact (check_allowed_reset env s).trans h
      | exact check_allowed_restore_saved env _ h
      | exact check_allowed_restore_saved env _ ((check_allowed_reset env s).trans h)
  · exact h

theorem check_restrictions_settled (env : Env) (s : State)
    (h : (check_restrictions env s).1 = true) (hnb : s.block_leds_not_blocking = true) :
    (check_restrictions env s).2 = s := by
  unfold check_restrictions at h ⊢
  split_ifs at h ⊢ with h1 h2
  · simp only at h
    simp only [h, hnb]
    cases s
    simp_all
  · cases s
    simp_all

/-! ### Pattern Off -/

theorem forced_off_idem (img : Image) : forced_off (forced_off img) = forced_off img := by
  funext r
  simp only [forced_off]
  split_ifs
  · rw [Nat.mod_eq_of_lt, Nat.land_assoc]
    · rfl
    · exact Nat.lt_of_le_of_lt Nat.and_le_right (by norm_num)
  · rfl
  · exact Nat.mod_mod _ _
  · rfl

theorem start_led_pattern_body_off (env : Env) (s : State) :
    start_led_pattern_body env PATTERN_OFF s = an30259a_reset_register_work env s := by
  simp [start_led_pattern_body, PATTERN_OFF, POWERING, LED_OFF]

theorem not_blocking_reset (env : Env) (s : State) :
    (an30259a_reset_register_work env s).block_leds_not_blocking =
      s.block_leds_not_blocking := by
  have h : (an30259a_reset_register_work env s).rest.block_leds_not_blocking =
      s.rest.block_leds_not_blocking :=
    congrArg State.block_leds_not_blocking (rest_reset env s)
  exact h

theorem start_led_pattern_of_allowed (env : Env) (mode : Int) (s : State)
    (hc : s.block_leds_check_allowed = true) (h : (check_restrictions env s).1 = true) :
    an30259a_start_led_pattern env mode s =
      start_led_pattern_body env mode (check_restrictions env s).2 := by
  simp [an30259a_start_led_pattern, hc, h]

theorem start_led_pattern_of_not_check_allowed (env : Env) (mode : Int) (s : State)
    (hc : s.block_leds_check_allowed = false) :
    an30259a_start_led_pattern env mode s = start_led_pattern_body env mode s := by
  simp [an30259a_start_led_pattern, hc]

/-- Claim C10. For every state, blocked or not, and with the clock reading the
same hour in both calls, `an30259a_start_led_pattern(PATTERN_OFF)` invoked twice
in a row leaves the same register image as invoked once, whatever the transport
returns. -/
theorem start_led_pattern_off_idempotent (tm_hour tz_minuteswest : Int)
    (xfer1 xfer2 : List BusOp → BusOp → Int) (s : State) :
    (an30259a_start_led_pattern ⟨tm_hour, tz_minuteswest, xfer2⟩ PATTERN_OFF
        (an30259a_start_led_pattern ⟨tm_hour, tz_minuteswest, xfer1⟩ PATTERN_OFF
          s)).shadow_reg =
      (an30259a_start_led_pattern ⟨tm_hour, tz_minuteswest, xfer1⟩ PATTERN_OFF
        s).shadow_reg := by
  generalize he1 : (⟨tm_hour, tz_minuteswest, xfer1⟩ : Env) = e1
  generalize he2 : (⟨tm_hour, tz_minuteswest, xfer2⟩ : Env) = e2
  have hh : curhour e2 = curhour e1 := by subst he1 he2; rfl
  by_cases hc : s.block_leds_check_allowed = true
  · cases hr : (check_restrictions e1 s).1
    · -- blocked: the request is saved and the image is forced off
      have h1 : an30259a_start_led_pattern e1 PATTERN_OFF s =
          { (check_restrictions e1 s).2 with block_leds_saved_mode := PATTERN_OFF } :=
        start_led_pattern_of_blocked e1 _ s hc hr
      have hset : (an30259a_start_led_pattern e1 PATTERN_OFF s).settings = s.settings := by
        rw [h1]; exact settings_check_restrictions e1 s
      have hc1 : (an30259a_start_led_pattern e1 PATTERN_OFF s).block_leds_check_allowed
          = true := by
        rw [h1]; exact check_allowed_check_restrictions e1 s hc
      have hr2 : (check_restrictions e2 (an30259a_start_led_pattern e1 PATTERN_OFF s)).1
          = false := by
        rw [check_restrictions_fst, hh, restriction_ret_congr _ hset,
          ← check_restrictions_fst, hr]
      rw [start_led_pattern_of_blocked e2 _ _ hc1 hr2]
      show (check_restrictions e2 _).2.shadow_reg = _
      rw [check_restrictions_blocked_shadow_reg e2 _ hr2, h1]
      show forced_off (check_restrictions e1 s).2.shadow_reg = (check_restrictions e1 s).2.shadow_reg
      rw [check_restrictions_blocked_shadow_reg e1 s hr, forced_off_idem]
    · -- allowed: pending requests are replayed, then everything is switched off
      have h1 : an30259a_start_led_pattern e1 PATTERN_OFF s =
          an30259a_reset_register_work e1 (check_restrictions e1 s).2 := by
        rw [start_led_pattern_of_allowed e1 _ s hc hr, start_led_pattern_body_off]
      have hset : (an30259a_start_led_pattern e1 PATTERN_OFF s).settings = s.settings := by
        rw [h1, settings_reset]; exact settings_check_restrictions e1 s
      have hc1 : (an30259a_start_led_pattern e1 PATTERN_OFF s).block_leds_check_allowed
          = true := by
        rw [h1, check_allowed_reset]; exact check_allowed_check_restrictions e1 s hc
      have hnb : (an30259a_start_led_pattern e1 PATTERN_OFF s).block_leds_not_blocking
          = true := by
        rw [h1, not_blocking_reset, check_restrictions_not_blocking, hr]
      have hr2 : (check_restrictions e2 (an30259a_start_led_pattern e1 PATTERN_OFF s)).1
          = true := by
        rw [check_restrictions_fst, hh, restriction_ret_congr _ hset,
          ← check_restrictions_fst, hr]
      have h2 : an30259a_start_led_pattern e2 PATTERN_OFF
          (an30259a_start_led_pattern e1 PATTERN_OFF s) =
          an30259a_reset_register_work e2 (an30259a_start_led_pattern e1 PATTERN_OFF s) := by
        rw [start_led_pattern_of_allowed e2 _ _ hc1 hr2,
          check_restrictions_settled e2 _ hr2 hnb, start_led_pattern_body_off]
      rw [h2, reset_shadow_reg, h1, reset_shadow_reg, forced_off_idem]
  · -- restriction checking disabled: the body runs directly
    have hc0 : s.block_leds_check_allowed = false := by simpa using hc
    have h1 : an30259a_start_led_pattern e1 PATTERN_OFF s =
        an30259a_reset_register_work e1 s := by
      rw [start_led_pattern_of_not_check_allowed e1 _ s hc0, start_led_pattern_body_off]
    have h2 : an30259a_start_led_pattern e2 PATTERN_OFF (an30259a_reset_register_work e1 s) =
        an30259a_reset_register_work e2 (an30259a_reset_register_work e1 s) := by
      rw [start_led_pattern_of_not_check_allowed e2 _ _
        ((check_allowed_reset e1 s).trans hc0), start_led_pattern_body_off]
    rw [h1, h2, reset_shadow_reg, reset_shadow_reg, forced_off_idem]

/-! ### The engines do not read the flags of the guard -/

theorem leds_i2c_write_all_with_guard (env : Env) (s : State) (a b : Bool) :
    (leds_i2c_write_all env (s.with_guard a b)).2 =
      (leds_i2c_write_all env s).2.with_guard a b := by
  unfold leds_i2c_write_all
  simp only
  split_ifs <;> first | rfl | (exfalso; simp_all [State.with_guard])

theorem reset_with_guard (env : Env) (s : State) (a b : Bool) :
    an30259a_reset_register_work env (s.with_guard a b) =
      (an30259a_reset_register_work env s).with_guard a b := by
  have h := leds_i2c_write_all_with_guard env
    (leds_on (leds_on (leds_on s LED_R false false 0) LED_G false false 0)
      LED_B false false 0) a b
  exact h

theorem pattern_switch_with_guard (mode : Int) (s : State) (a b : Bool) :
    pattern_switch mode (s.with_guard a b) =
      (pattern_switch mode s).map (fun t => t.with_guard a b) := by
  unfold pattern_switch
  split_ifs <;> first | rfl | (exfalso; simp_all [State.with_guard])

theorem pattern_apply_with_guard (env : Env) (mode : Int) (s : State) (a b : Bool) :
    pattern_apply env mode (s.with_guard a b) =
      (pattern_apply env mode s).with_guard a b := by
  unfold pattern_apply
  have h := pattern_switch_with_guard mode
    { s with LED_DYNAMIC_CURRENT := pattern_dynamic_current s } a b
  have e : ({ s.with_guard a b with
      LED_DYNAMIC_CURRENT := pattern_dynamic_current (s.with_guard a b) } : State) =
      ({ s with LED_DYNAMIC_CURRENT := pattern_dynamic_current s } : State).with_guard a b :=
    rfl
  rw [e, h]
  cases pattern_switch mode { s with LED_DYNAMIC_CURRENT := pattern_dynamic_current s } with
  | none => rfl
  | some t => exact leds_i2c_write_all_with_guard env t a b

theorem start_led_pattern_body_with_guard (env : Env) (mode : Int) (s : State)
    (a b : Bool) :
    start_led_pattern_body env mode (s.with_guard a b) =
      (start_led_pattern_body env mode s).with_guard a b := by
  unfold start_led_pattern_body
  split_ifs
  · rfl
  · exact reset_with_guard env s a b
  · rw [reset_with_guard, pattern_apply_with_guard]

theorem leds_set_slope_mode_with_guard (s : State) (a b : Bool)
    (led x1 x2 x3 x4 x5 x6 x7 x8 x9 x10 : Nat) :
    leds_set_slope_mode (s.with_guard a b) led x1 x2 x3 x4 x5 x6 x7 x8 x9 x10 =
      (leds_set_slope_mode s led x1 x2 x3 x4 x5 x6 x7 x8 x9 x10).with_guard a b := rfl

theorem blink_slope_with_guard (led d1 d2 : Nat) (s : State) (a b : Bool) :
    blink_slope led d1 d2 (s.with_guard a b) = (blink_slope led d1 d2 s).with_guard a b := by
  unfold blink_slope
  have e1 : (s.with_guard a b).led_enable_fade = s.led_enable_fade := rfl
  have e2 : (s.with_guard a b).led_time_on = s.led_time_on := rfl
  have e3 : (s.with_guard a b).led_time_off = s.led_time_off := rfl
  have e4 : (s.with_guard a b).led_step_speed1 = s.led_step_speed1 := rfl
  have e5 : (s.with_guard a b).led_step_speed2 = s.led_step_speed2 := rfl
  have e6 : (s.with_guard a b).led_step_speed3 = s.led_step_speed3 := rfl
  have e7 : (s.with_guard a b).led_step_speed4 = s.led_step_speed4 := rfl
  rw [e1, e2, e3, e4, e5, e6, e7]
  split_ifs <;> exact leds_set_slope_mode_with_guard s a b _ _ _ _ _ _ _ _ _ _ _

theorem blink_apply_with_guard (led d1 d2 br : Nat) (s : State) (a b : Bool) :
    blink_apply led d1 d2 br (s.with_guard a b) =
      (blink_apply led d1 d2 br s).with_guard a b := by
  unfold blink_apply
  have e1 : blink_delay_off (s.with_guard a b) d2 = blink_delay_off s d2 := rfl
  have e2 : blink_delay_on (s.with_guard a b) d1 = blink_delay_on s d1 := rfl
  have e3 : blink_brightness br (s.with_guard a b) = blink_brightness br s := rfl
  rw [e1, e2, e3]
  split_ifs
  · rfl
  · rfl
  · exact blink_slope_with_guard led _ _ (leds_on s led true true (blink_brightness br s)) a b

theorem set_led_blink_body_with_guard (led d1 d2 br : Nat) (s : State) (a b : Bool) :
    set_led_blink_body led d1 d2 br (s.with_guard a b) =
      (set_led_blink_body led d1 d2 br s).with_guard a b := by
  unfold set_led_blink_body
  split_ifs
  · rfl
  · exact blink_apply_with_guard led _ _ _
      { s with LED_DYNAMIC_CURRENT := blink_dynamic_current led s } a b

theorem bus_set_led_blink_body (led d1 d2 br : Nat) (s : State) :
    (set_led_blink_body led d1 d2 br s).bus = s.bus := by
  unfold set_led_blink_body blink_apply blink_slope
  split_ifs <;> rfl

/-! ### Replay of the saved requests -/

theorem restore_mode_eq (env : Env) (s : State) (h : s.block_leds_saved_mode ≠ -1) :
    restore_mode env s =
      (start_led_pattern_body env s.block_leds_saved_mode s).with_guard true
        s.block_leds_not_blocking := by
  unfold restore_mode
  rw [if_pos h]
  have e := start_led_pattern_body_with_guard env s.block_leds_saved_mode s false
    s.block_leds_not_blocking
  show ({ start_led_pattern_body env s.block_leds_saved_mode
      (s.with_guard false s.block_leds_not_blocking) with
      block_leds_check_allowed := true } : State) = _
  rw [e]
  rfl

theorem restore_mode_empty (env : Env) (s : State) (h : s.block_leds_saved_mode = -1) :
    restore_mode env s = s := by
  unfold restore_mode
  rw [if_neg (by simpa using h)]

theorem restore_blink_empty (i : Nat) (s : State)
    (h : s.block_leds_saved_delay_on_time i = UINT_M1) : restore_blink i s = s := by
  unfold restore_blink
  rw [if_neg (by simpa using h)]

theorem bus_restore_blink (i : Nat) (s : State) : (restore_blink i s).bus = s.bus := by
  unfold restore_blink
  split_ifs
  · exact bus_set_led_blink_body _ _ _ _ _
  · rfl

theorem saved_on_of_rest {s s' : State} (h : s'.rest = s.rest) :
    s'.block_leds_saved_delay_on_time = s.block_leds_saved_delay_on_time := by
  have h2 : s'.rest.block_leds_saved_delay_on_time = s.rest.block_leds_saved_delay_on_time :=
    congrArg State.block_leds_saved_delay_on_time h
  exact h2

theorem check_restrictions_restore (env : Env) (s : State)
    (h1 : s.led_block_leds_time_start ≠ -1) (h2 : s.led_block_leds_time_stop ≠ -1)
    (hnb : s.block_leds_not_blocking = false)
    (hr : (check_restrictions env s).1 = true) :
    (check_restrictions env s).2 =
      { restore_saved env s with block_leds_not_blocking := true } := by
  unfold check_restrictions at hr ⊢
  split_ifs at hr ⊢ with hk hw
  · simp only at hr
    simp [hr, hnb]
  · exact absurd ⟨h1, h2⟩ hw

/-- Replay on the path where both window bounds are set. Whenever the previous
verdict was blocked and a pattern is saved, an evaluation of `check_restrictions`
that returns not-blocked while both bounds are set issues on the bus exactly the
transfers of the saved pattern applied with restriction checking disabled, and
empties the saved-pattern slot; it does so whether the clock left the window or
the kill switch was cleared. -/
theorem check_restrictions_replays_pattern (env : Env) (p : Int) (s : State)
    (h1 : s.led_block_leds_time_start ≠ -1) (h2 : s.led_block_leds_time_stop ≠ -1)
    (hnb : s.block_leds_not_blocking = false)
    (hp : s.block_leds_saved_mode = p) (hp1 : p ≠ -1)
    (hr : (check_restrictions env s).1 = true) :
    (check_restrictions env s).2.bus =
        (an30259a_start_led_pattern env p
          { s with block_leds_check_allowed := false }).bus ∧
      (check_restrictions env s).2.block_leds_saved_mode = -1 ∧
      (check_restrictions env s).2.block_leds_not_blocking = true := by
  subst hp
  rw [check_restrictions_restore env s h1 h2 hnb hr]
  refine ⟨?_, rfl, rfl⟩
  show (restore_blink 2 (restore_blink 1 (restore_blink 0 (restore_mode env s)))).bus = _
  rw [bus_restore_blink, bus_restore_blink, bus_restore_blink,
    restore_mode_eq env s hp1, start_led_pattern_of_not_check_allowed env _ _ rfl]
  have e := start_led_pattern_body_with_guard env s.block_leds_saved_mode s false
    s.block_leds_not_blocking
  show (start_led_pattern_body env _ s).bus =
    (start_led_pattern_body env _ (s.with_guard false s.block_leds_not_blocking)).bus
  rw [e]
  rfl

/-- Instance of the replay with both bounds set: Charging saved at 23 o'clock,
evaluated at 7. -/
theorem check_restrictions_replays_pattern_witness :
    (check_restrictions (env_at 7) charging_saved).2.bus =
        (an30259a_start_led_pattern (env_at 7) CHARGING
          { charging_saved with block_leds_check_allowed := false }).bus ∧
      (check_restrictions (env_at 7) charging_saved).2.block_leds_saved_mode = -1 ∧
      (check_restrictions (env_at 7) charging_saved).2.block_leds_not_blocking = true :=
  check_restrictions_replays_pattern (env_at 7) CHARGING charging_saved
    (by decide) (by decide) (by decide) (by decide) (by decide) (by decide)

set_option maxRecDepth 100000 in
/-- Claim C4, evaluated on the code. Charging is saved while the window (22, 6)
blocks, and the stop bound is then unset. The next evaluation returns not-blocked
through the unset bound and records that verdict, but it issues no transfer, leaves
Red disabled and keeps Charging in the slot, whereas the evaluation at 7 o'clock
with both bounds set replays Charging and empties the slot. The pattern left in the
slot is replayed later: after the Off pattern was applied and the stop bound set
again, the evaluation at 23 o'clock blocks and the one at 6 o'clock lights Red with
Charging and only then empties the slot. -/
theorem unset_bound_strands_saved_pattern :
    (charging_saved_unset.block_leds_not_blocking = false ∧
      charging_saved_unset.block_leds_saved_mode = CHARGING ∧
      charging_saved_unset.led_block_leds_time_stop = -1) ∧
    ((check_restrictions (env_at 23) charging_saved_unset).1 = true ∧
      (check_restrictions (env_at 23) charging_saved_unset).2.block_leds_not_blocking
        = true ∧
      (check_restrictions (env_at 23) charging_saved_unset).2.block_leds_saved_mode
        = CHARGING ∧
      (check_restrictions (env_at 23) charging_saved_unset).2.bus
        = charging_saved_unset.bus ∧
      enable_bit (check_restrictions (env_at 23) charging_saved_unset).2.shadow_reg LED_R
        = false) ∧
    ((check_restrictions (env_at 7) charging_saved).1 = true ∧
      (check_restrictions (env_at 7) charging_saved).2.block_leds_saved_mode = -1 ∧
      enable_bit (check_restrictions (env_at 7) charging_saved).2.shadow_reg LED_R
        = true) ∧
    (off_applied_window_back.block_leds_saved_mode = CHARGING ∧
      off_applied_window_back.is_work_active = true ∧
      enable_bit off_applied_window_back.shadow_reg LED_R = false ∧
      (check_restrictions (env_at 23) off_applied_window_back).1 = false ∧
      (check_restrictions (env_at 6) off_applied_night).1 = true ∧
      enable_bit (check_led_timer (env_at 6) off_applied_night).shadow_reg LED_R = true ∧
      (check_led_timer (env_at 6) off_applied_night).block_leds_saved_mode = -1) := by
  decide

theorem restore_saved_pattern_only (env : Env) (s : State)
    (hp1 : s.block_leds_saved_mode ≠ -1)
    (hb : ∀ i, i < 3 → s.block_leds_saved_delay_on_time i = UINT_M1) :
    restore_saved env s =
      clear_saved ((start_led_pattern_body env s.block_leds_saved_mode s).with_guard true
        s.block_leds_not_blocking) := by
  unfold restore_saved
  simp only
  rw [restore_mode_eq env s hp1]
  have hs : ((start_led_pattern_body env s.block_leds_saved_mode s).with_guard true
      s.block_leds_not_blocking).block_leds_saved_delay_on_time =
      s.block_leds_saved_delay_on_time := by
    have h := saved_on_of_rest (rest_start_led_pattern_body env s.block_leds_saved_mode s)
    exact h
  rw [restore_blink_empty 0 _ (by rw [hs]; exact hb 0 (by norm_num)),
    restore_blink_empty 1 _ (by rw [hs]; exact hb 1 (by norm_num)),
    restore_blink_empty 2 _ (by rw [hs]; exact hb 2 (by norm_num))]

/-- Claim C3, as amended. Start from a state in which a pattern `p` is saved, the
previous verdict was blocked and no channel has a saved blink. The first
evaluation of `check_restrictions` at an hour outside the (still configured)
window leaves the register image and the bus log exactly as a call of
`an30259a_start_led_pattern(p)` with nothing pending does, and empties the
saved-pattern slot; a second evaluation at an hour outside the window returns
not-blocked and changes nothing at all. The flag `block_leds_check_allowed` is
set, as it is in every reachable state (`reachable_check_allowed`). -/
theorem check_restrictions_replays_once (env env2 : Env) (p : Int) (s : State)
    (hc : s.block_leds_check_allowed = true)
    (hk : s.led_always_disable = 0)
    (h1 : s.led_block_leds_time_start ≠ -1) (h2 : s.led_block_leds_time_stop ≠ -1)
    (hnb : s.block_leds_not_blocking = false)
    (hp : s.block_leds_saved_mode = p) (hp1 : p ≠ -1)
    (hb : ∀ i, i < 3 → s.block_leds_saved_delay_on_time i = UINT_M1)
    (ho : window_ret s.led_block_leds_time_start s.led_block_leds_time_stop
      (curhour env) = true)
    (ho2 : window_ret s.led_block_leds_time_start s.led_block_leds_time_stop
      (curhour env2) = true) :
    (check_restrictions env s).1 = true ∧
      (check_restrictions env s).2.shadow_reg =
        (an30259a_start_led_pattern env p
          { s with block_leds_not_blocking := true }).shadow_reg ∧
      (check_restrictions env s).2.bus =
        (an30259a_start_led_pattern env p
          { s with block_leds_not_blocking := true }).bus ∧
      (check_restrictions env s).2.block_leds_saved_mode = -1 ∧
      check_restrictions env2 (check_restrictions env s).2 =
        (true, (check_restrictions env s).2) := by
  subst hp
  have hr : (check_restrictions env s).1 = true := by
    rw [check_restrictions_fst_window env s hk h1 h2, ho]
  -- the unblocked call: the check changes nothing, the body runs
  have hs' : ({ s with block_leds_not_blocking := true } : State) =
      s.with_guard s.block_leds_check_allowed true := rfl
  have hr' : (check_restrictions env (s.with_guard s.block_leds_check_allowed true)).1
      = true := by
    rw [check_restrictions_fst,
      @restriction_ret_congr _ s (s.with_guard s.block_leds_check_allowed true) rfl,
      ← check_restrictions_fst, hr]
  have hu : an30259a_start_led_pattern env s.block_leds_saved_mode
      { s with block_leds_not_blocking := true } =
      (start_led_pattern_body env s.block_leds_saved_mode s).with_guard
        s.block_leds_check_allowed true := by
    rw [hs', start_led_pattern_of_allowed env _
        (s.with_guard s.block_leds_check_allowed true) hc hr',
      check_restrictions_settled env _ hr' rfl, start_led_pattern_body_with_guard]
  -- the evaluation: the saved pattern is replayed and the slots are cleared
  have he : (check_restrictions env s).2 =
      { clear_saved ((start_led_pattern_body env s.block_leds_saved_mode s).with_guard true
          s.block_leds_not_blocking) with block_leds_not_blocking := true } := by
    rw [check_restrictions_restore env s h1 h2 hnb hr, restore_saved_pattern_only env s hp1 hb]
  refine ⟨hr, ?_, ?_, ?_, ?_⟩
  · rw [he, hu]; rfl
  · rw [he, hu]; rfl
  · rw [he]; rfl
  · have hr2 : (check_restrictions env2 (check_restrictions env s).2).1 = true := by
      rw [check_restrictions_fst, restriction_ret_congr _ (settings_check_restrictions env s)]
      simp only [restriction_ret, hk, h1, h2, ho2]
      simp
    have hnb2 : (check_restrictions env s).2.block_leds_not_blocking = true := by
      rw [check_restrictions_not_blocking, hr]
    exact Prod.ext hr2 (check_restrictions_settled env2 _ hr2 hnb2)

/-- Witness of C3 (amended): Charging saved at 23 o'clock, evaluated at 7 and 8. -/
theorem check_restrictions_replays_once_witness :
    (check_restrictions (env_at 7) charging_saved).1 = true ∧
      (check_restrictions (env_at 7) charging_saved).2.shadow_reg =
        (an30259a_start_led_pattern (env_at 7) CHARGING
          { charging_saved with block_leds_not_blocking := true }).shadow_reg ∧
      (check_restrictions (env_at 7) charging_saved).2.bus =
        (an30259a_start_led_pattern (env_at 7) CHARGING
          { charging_saved with block_leds_not_blocking := true }).bus ∧
      (check_restrictions (env_at 7) charging_saved).2.block_leds_saved_mode = -1 ∧
      check_restrictions (env_at 8) (check_restrictions (env_at 7) charging_saved).2 =
        (true, (check_restrictions (env_at 7) charging_saved).2) :=
  check_restrictions_replays_once (env_at 7) (env_at 8) CHARGING charging_saved
    (by decide) (by decide) (by decide) (by decide) (by decide) (by decide) (by decide)
    (by decide) (by decide) (by decide)

set_option maxRecDepth 100000 in
/-- Counterexample to C3 as stated: a green blink and then Charging are saved at
23 o'clock. The evaluation at 7 o'clock replays both, so the register image has
Green enabled in slope mode, which a call of `an30259a_start_led_pattern`
(Charging) with nothing pending does not produce. -/
theorem check_restrictions_replay_differs :
    charging_and_blink_saved.block_leds_saved_mode = CHARGING ∧
      charging_and_blink_saved.block_leds_not_blocking = false ∧
      (check_restrictions (env_at 23) charging_and_blink_saved).1 = false ∧
      (check_restrictions (env_at 7) charging_and_blink_saved).1 = true ∧
      (check_restrictions (env_at 7) charging_and_blink_saved).2.shadow_reg
        AN30259A_REG_LEDON = 0x23 ∧
      (an30259a_start_led_pattern (env_at 7) CHARGING
        { charging_and_blink_saved with block_leds_not_blocking := true }).shadow_reg
        AN30259A_REG_LEDON = 0x01 := by
  decide

/-! ### Saved blinks after the probe -/

/-- Claim C5, evaluated on the code. After the probe the saved-blink slot of every
channel holds the on-time 0, not the empty mark `-1`. With Red lit through the
`led_r` node and nothing suppressed since the probe, the first evaluation of
the restrictions that returns not-blocked with a configured window replays a
blink of brightness 0 for Red: it clears the Red enable bit and zeroes the Red
current in the register image. -/
theorem first_evaluation_replays_zero_blink :
    (∀ regs dt_default dt_lowpower i,
        (an30259a_probe regs dt_default dt_lowpower).block_leds_saved_delay_on_time i = 0 ∧
        (an30259a_probe regs dt_default dt_lowpower).block_leds_saved_delay_on_time i
          ≠ UINT_M1) ∧
      red_lit_night.block_leds_saved_delay_on_time LED_R = 0 ∧
      enable_bit red_lit_night.shadow_reg LED_R = true ∧
      current_control red_lit_night.shadow_reg LED_R = 255 ∧
      (check_restrictions (env_at 12) red_lit_night).1 = true ∧
      enable_bit (check_led_timer (env_at 12) red_lit_night).shadow_reg LED_R = false ∧
      current_control (check_led_timer (env_at 12) red_lit_night).shadow_reg LED_R = 0 := by
  have h0 : (0 : Nat) ≠ UINT_M1 := by decide
  refine ⟨fun _ _ _ _ => ⟨rfl, h0⟩, ?_⟩
  decide

/-! ### Slope arguments that do not fit their field -/

/-- Claim C9, evaluated on the code. With fade enabled, a red blink of 500 ms on
and 2000 ms off passes `dutymax = 30` to `leds_set_slope_mode`: `CNT1` of Red
holds `0xEF`, whose high nibble is 14. With the first step duration set to 20
(accepted by its setter) and the default shift 4, `CNT3` of Red holds `0x14`:
its low field reads 4 and the bits of `dt1` overlap those of `dt2`. -/
theorem fade_blink_overflows_fields :
    (store_an30259a_led_blink (env_at 12) 0x00FF0000 500 2000 fade_on).shadow_reg
        (AN30259A_REG_LED1CNT1 + LED_R * 4) = 0xEF ∧
      unpack_hi ((store_an30259a_led_blink (env_at 12) 0x00FF0000 500 2000
        fade_on).shadow_reg (AN30259A_REG_LED1CNT1 + LED_R * 4)) = 14 ∧
      fade_on_step20.led_step_speed1 = 20 ∧
      fade_on_step20.led_step_bit_shift = 4 ∧
      (store_an30259a_led_blink (env_at 12) 0x00FF0000 500 2000 fade_on_step20).shadow_reg
        (AN30259A_REG_LED1CNT3 + LED_R * 4) = 0x14 ∧
      unpack_lo ((store_an30259a_led_blink (env_at 12) 0x00FF0000 500 2000
        fade_on_step20).shadow_reg (AN30259A_REG_LED1CNT3 + LED_R * 4)) = 4 := by
  decide

/-! ### Invariant of the reachable states -/

theorem check_allowed_of_rest {s s' : State} (h : s'.rest = s.rest) :
    s'.block_leds_check_allowed = s.block_leds_check_allowed := by
  have h2 : s'.rest.block_leds_check_allowed = s.rest.block_leds_check_allowed :=
    congrArg State.block_leds_check_allowed h
  exact h2

theorem check_allowed_start_led_pattern (env : Env) (mode : Int) (s : State)
    (h : s.block_leds_check_allowed = true) :
    (an30259a_start_led_pattern env mode s).block_leds_check_allowed = true := by
  cases hr : (check_restrictions env s).1
  · rw [start_led_pattern_of_blocked env mode s h hr]
    exact check_allowed_check_restrictions env s h
  · rw [start_led_pattern_of_allowed env mode s h hr,
      check_allowed_of_rest (rest_start_led_pattern_body env mode _)]
    exact check_allowed_check_restrictions env s h

theorem set_led_blink_of_allowed (env : Env) (led d1 d2 br : Nat) (s : State)
    (hc : s.block_leds_check_allowed = true) (h : (check_restrictions env s).1 = true) :
    an30259a_set_led_blink env led d1 d2 br s =
      set_led_blink_body led (d1 % 4294967296) (d2 % 4294967296) (br % 256)
        (check_restrictions env s).2 := by
  simp [an30259a_set_led_blink, hc, h]

theorem set_led_blink_blocked (env : Env) (led d1 d2 br : Nat) (s : State)
    (hc : s.block_leds_check_allowed = true) (h : (check_restrictions env s).1 = false) :
    (an30259a_set_led_blink env led d1 d2 br s).shadow_reg = forced_off s.shadow_reg ∧
      (an30259a_set_led_blink env led d1 d2 br s).settings = s.settings ∧
      (an30259a_set_led_blink env led d1 d2 br s).block_leds_check_allowed = true := by
  have e := check_restrictions_blocked_shadow_reg env s h
  have e2 := settings_check_restrictions env s
  have e3 := check_allowed_check_restrictions env s hc
  simp only [an30259a_set_led_blink, hc, h, if_true, Bool.not_false]
  split_ifs
  · exact ⟨e, e2, e3⟩
  · exact ⟨e, e2, e3⟩

theorem check_allowed_set_led_blink (env : Env) (led d1 d2 br : Nat) (s : State)
    (h : s.block_leds_check_allowed = true) :
    (an30259a_set_led_blink env led d1 d2 br s).block_leds_check_allowed = true := by
  cases hr : (check_restrictions env s).1
  · exact (set_led_blink_blocked env led d1 d2 br s h hr).2.2
  · rw [set_led_blink_of_allowed env led d1 d2 br s h hr,
      check_allowed_of_rest (rest_set_led_blink_body _ _ _ _ _)]
    exact check_allowed_check_restrictions env s h

@[simp] theorem rest_store_led (env : Env) (led b : Nat) (s : State) :
    (store_led env led b s).rest = s.rest := by
  unfold store_led
  split_ifs <;> simp

@[simp] theorem rest_brightness_work (env : Env) (channel : Nat) (s : State) :
    (an30259a_led_brightness_work env channel s).rest = s.rest := by
  simp [an30259a_led_brightness_work]

theorem check_allowed_run (env : Env) (c : Command) (s : State)
    (h : s.block_leds_check_allowed = true) :
    (c.run env s).block_leds_check_allowed = true := by
  cases c <;> simp only [Command.run]
  case led_r b => exact (check_allowed_of_rest (rest_store_led env _ b s)).trans h
  case led_g b => exact (check_allowed_of_rest (rest_store_led env _ b s)).trans h
  case led_b b => exact (check_allowed_of_rest (rest_store_led env _ b s)).trans h
  case led_pattern mode => exact check_allowed_start_led_pattern env mode s h
  case led_blink b d1 d2 =>
    unfold store_an30259a_led_blink
    simp only
    rw [check_allowed_of_rest (rest_leds_i2c_write_all env _)]
    exact check_allowed_set_led_blink env _ _ _ _ _
      (check_allowed_set_led_blink env _ _ _ _ _
        (check_allowed_set_led_blink env _ _ _ _ _
          (check_allowed_start_led_pattern env _ s h)))
  case led_fade v => exact h
  case led_fade_charging v => exact h
  case led_intensity v => unfold store_an30259a_led_intensity; split_ifs <;> exact h
  case led_time_on v => unfold store_an30259a_led_time_on; split_ifs <;> exact h
  case led_time_off v => unfold store_an30259a_led_time_off; split_ifs <;> exact h
  case led_step_speed1 v => unfold store_an30259a_led_step_speed1; split_ifs <;> exact h
  case led_step_speed2 v => unfold store_an30259a_led_step_speed2; split_ifs <;> exact h
  case led_step_speed3 v => unfold store_an30259a_led_step_speed3; split_ifs <;> exact h
  case led_step_speed4 v => unfold store_an30259a_led_step_speed4; split_ifs <;> exact h
  case led_step_bit_shift v =>
    unfold store_an30259a_led_step_bit_shift; split_ifs <;> exact h
  case led_block_leds_time_start v =>
    unfold store_an30259a_led_block_leds_time_start update_work_active
    simp only
    split_ifs <;> exact h
  case led_block_leds_time_stop v =>
    unfold store_an30259a_led_block_leds_time_stop update_work_active
    simp only
    split_ifs <;> exact h
  case led_always_disable v =>
    unfold store_an30259a_led_always_disable; split_ifs <;> exact h
  case led_debug_enable v =>
    unfold store_an30259a_led_debug_enable; split_ifs <;> exact h
  case led_br_lev v => exact h
  case led_lowpower v => unfold store_an30259a_led_lowpower; split_ifs <;> exact h
  case set_brightness ch b => exact h
  case brightness_work ch =>
    exact (check_allowed_of_rest (rest_brightness_work env ch.val s)).trans h
  case timer => exact check_allowed_check_restrictions env s h

theorem reachable_check_allowed {s : State} (h : Reachable s) :
    s.block_leds_check_allowed = true := by
  induction h with
  | probe regs d l => rfl
  | step env c s _ ih => exact check_allowed_run env c s ih

/-! ### Kill switch -/

theorem check_restrictions_killed (env : Env) (s : State) (hk : s.led_always_disable ≠ 0) :
    (check_restrictions env s).1 = false := by
  rw [check_restrictions_fst]
  simp [restriction_ret, hk]

theorem always_disable_of_settings {s s' : State} (h : s'.settings = s.settings) :
    s'.led_always_disable = s.led_always_disable := by
  have h2 : s'.settings.led_always_disable = s.settings.led_always_disable :=
    congrArg State.led_always_disable h
  exact h2

theorem enable_bit_leds_on (img : Image) (led cc : Nat) (hled : led < 3) :
    enable_bit (leds_on_img img led true false cc) led = true := by
  have h : ∀ x : Nat, ∀ i, i < 3 →
      Nat.testBit (((x ||| (1 <<< i)) % 256 &&& compl32 (16 <<< i)) % 256) i = true := by
    intro x i hi
    have hm : ∀ y : Nat, (y % 256).testBit i = y.testBit i := fun y => by
      have h256 : (256 : Nat) = 2 ^ 8 := by norm_num
      rw [h256, Nat.testBit_mod_two_pow]
      simp [show i < 8 by omega]
    have hb : ∀ j, j < 3 → Nat.testBit (1 <<< j) j = true ∧
        Nat.testBit (compl32 (16 <<< j)) j = true := by decide
    rw [hm, Nat.testBit_land, hm, Nat.testBit_lor, (hb i hi).1, (hb i hi).2]
    simp
  have e : leds_on_img img led true false cc AN30259A_REG_LEDON =
      ((img 1 ||| (1 <<< led)) % 256 &&& compl32 (16 <<< led)) % 256 := by
    simp only [leds_on_img, Image.set_apply, AN30259A_REG_LEDON, AN30259A_REG_LED1CC, LED_ON,
      LED_SLOPE_MODE, if_true, Bool.false_eq_true, if_false]
    rw [if_neg (by omega)]
  unfold enable_bit
  rw [e]
  exact h _ led hled

/-- Claim C6, as amended. In every reachable state with the kill switch set, the
register image has the enable bits of the three channels clear after
`store_an30259a_led_pattern`, after `store_an30259a_led_blink` and after a
periodic evaluation `check_led_timer`. The brightness paths do not consult the
guard: `an30259a_led_brightness_work`, and the `led_r`, `led_g`, `led_b` stores
of a value from 1 to 255, set the enable bit of their channel. -/
theorem kill_switch_engines_off (env : Env) (s : State) (led : Nat)
    (hs : Reachable s) (hk : s.led_always_disable ≠ 0) (hled : led < 3) :
    (∀ mode, enable_bit (store_an30259a_led_pattern env mode s).shadow_reg led = false) ∧
      (∀ color on_ms off_ms,
        enable_bit (store_an30259a_led_blink env color on_ms off_ms s).shadow_reg led
          = false) ∧
      enable_bit (check_led_timer env s).shadow_reg led = false ∧
      enable_bit (an30259a_led_brightness_work env led s).shadow_reg led = true ∧
      (∀ b, 1 ≤ b → b ≤ 255 → enable_bit (store_led env led b s).shadow_reg led = true) := by
  have hc := reachable_check_allowed hs
  have hr := check_restrictions_killed env s hk
  refine ⟨?_, ?_, ?_, ?_, ?_⟩
  · intro mode
    unfold store_an30259a_led_pattern
    rw [start_led_pattern_of_blocked env mode s hc hr]
    show enable_bit (check_restrictions env s).2.shadow_reg led = false
    rw [check_restrictions_blocked_shadow_reg env s hr]
    exact (forced_off_bits _ led hled).1
  · intro color on_ms off_ms
    unfold store_an30259a_led_blink
    simp only [leds_i2c_write_all_shadow_reg]
    -- the Off pattern and the blinks of Red and Green are suppressed in turn
    have h0 : an30259a_start_led_pattern env (LED_OFF : Int) s =
        { (check_restrictions env s).2 with block_leds_saved_mode := (LED_OFF : Int) } :=
      start_led_pattern_of_blocked env _ s hc hr
    have c0 : (an30259a_start_led_pattern env (LED_OFF : Int) s).block_leds_check_allowed
        = true := check_allowed_start_led_pattern env _ s hc
    have k0 : (an30259a_start_led_pattern env (LED_OFF : Int) s).led_always_disable ≠ 0 := by
      rw [h0]
      show (check_restrictions env s).2.led_always_disable ≠ 0
      rw [always_disable_of_settings (settings_check_restrictions env s)]
      exact hk
    have b1 := set_led_blink_blocked env LED_R on_ms off_ms
      (((color % 4294967296) &&& LED_R_MASK) >>> LED_R_SHIFT % 256) _ c0
      (check_restrictions_killed env _ k0)
    have k1 := (always_disable_of_settings b1.2.1).trans_ne k0
    have b2 := set_led_blink_blocked env LED_G on_ms off_ms
      (((color % 4294967296) &&& LED_G_MASK) >>> LED_G_SHIFT % 256) _ b1.2.2
      (check_restrictions_killed env _ k1)
    have k2 := (always_disable_of_settings b2.2.1).trans_ne k1
    have b3 := set_led_blink_blocked env LED_B on_ms off_ms
      (((color % 4294967296) &&& LED_B_MASK) % 256) _ b2.2.2
      (check_restrictions_killed env _ k2)
    rw [b3.1]
    exact (forced_off_bits _ led hled).1
  · unfold check_led_timer
    rw [check_restrictions_blocked_shadow_reg env s hr]
    exact (forced_off_bits _ led hled).1
  · unfold an30259a_led_brightness_work
    simp only [leds_i2c_write_all_shadow_reg, leds_on]
    exact enable_bit_leds_on _ led _ hled
  · intro b hb1 hb2
    unfold store_led
    rw [if_neg (by omega), if_neg (by omega)]
    simp only [leds_i2c_write_all_shadow_reg, leds_on]
    exact enable_bit_leds_on _ led _ hled

/-- Witness of C6 (amended): the state reached by setting the kill switch right
after the probe, channel Red. -/
theorem kill_switch_engines_off_witness :
    (∀ mode,
        enable_bit (store_an30259a_led_pattern (env_at 12) mode killed).shadow_reg LED_R
          = false) ∧
      (∀ color on_ms off_ms,
        enable_bit (store_an30259a_led_blink (env_at 12) color on_ms off_ms
          killed).shadow_reg LED_R = false) ∧
      enable_bit (check_led_timer (env_at 12) killed).shadow_reg LED_R = false ∧
      enable_bit (an30259a_led_brightness_work (env_at 12) LED_R killed).shadow_reg LED_R
        = true ∧
      (∀ b, 1 ≤ b → b ≤ 255 →
        enable_bit (store_led (env_at 12) LED_R b killed).shadow_reg LED_R = true) :=
  kill_switch_engines_off (env_at 12) killed LED_R
    (Reachable.step (env_at 12) (Command.led_always_disable 1) state0
      (Reachable.probe (fun _ => 0) none none))
    (by decide) (by decide)

/-- Counterexample to C6 as stated: with the kill switch set, writing 255 to the
`led_r` node, or latching brightness 255 for Red and running the brightness
work, leaves the Red enable bit set in the register image and commits it. -/
theorem kill_switch_brightness_lights :
    killed.led_always_disable = 1 ∧
      enable_bit (Command.run (env_at 12) (Command.led_r 255) killed).shadow_reg LED_R
        = true ∧
      enable_bit (Command.run (env_at 12) (Command.brightness_work 0)
        (Command.run (env_at 12) (Command.set_brightness 0 255) killed)).shadow_reg LED_R
        = true ∧
      (Command.run (env_at 12) (Command.led_r 255) killed).bus.getLast? =
        some (BusOp.byte AN30259A_REG_LEDON 1) := by
  decide

/-! ### Bits of `LEDON` and registers of a channel under the encoders -/

theorem testBit_mod_256 (y i : Nat) (hi : i < 8) : (y % 256).testBit i = y.testBit i := by
  have h256 : (256 : Nat) = 2 ^ 8 := by norm_num
  rw [h256, Nat.testBit_mod_two_pow]
  simp [hi]

theorem mask_bits : ∀ led, led < 3 → ∀ i, i < 8 →
    (Nat.testBit (1 <<< led) i = decide (i = led)) ∧
    (Nat.testBit (16 <<< led) i = decide (i = 4 + led)) ∧
    (Nat.testBit (compl32 (1 <<< led)) i = !decide (i = led)) ∧
    (Nat.testBit (compl32 (16 <<< led)) i = !decide (i = 4 + led)) := by
  decide

theorem leds_on_img_ledon (img : Image) (led : Nat) (a b : Bool) (cc : Nat) :
    leds_on_img img led a b cc AN30259A_REG_LEDON =
      (if b then
        (((if a then (img 1 ||| (1 <<< led)) % 256
            else (img 1 &&& compl32 (1 <<< led)) % 256) ||| (16 <<< led)) % 256)
      else
        (((if a then (img 1 ||| (1 <<< led)) % 256
            else (img 1 &&& compl32 (1 <<< led)) % 256) &&& compl32 (16 <<< led)) % 256)) := by
  have e1 : ¬ (1 = 3 + led) := by omega
  have e2 : ¬ (1 = 10 + led * 4) := by omega
  cases a <;> cases b <;>
    simp only [leds_on_img, Image.set_apply, AN30259A_REG_LEDON, AN30259A_REG_LED1CC,
      AN30259A_REG_LED1CNT2, LED_ON, LED_SLOPE_MODE, e1, e2, if_true, if_false,
      Bool.false_eq_true]

theorem leds_on_img_ledon_testBit (img : Image) (led i : Nat) (a b : Bool) (cc : Nat)
    (hled : led < 3) (hi : i < 8) :
    (leds_on_img img led a b cc AN30259A_REG_LEDON).testBit i =
      if i = led then a else if i = 4 + led then b
      else (img AN30259A_REG_LEDON).testBit i := by
  obtain ⟨m1, m2, m3, m4⟩ := mask_bits led hled i hi
  rw [leds_on_img_ledon]
  cases a <;> cases b <;>
    simp only [if_true, if_false, Bool.false_eq_true, testBit_mod_256 _ _ hi, Nat.testBit_land,
      Nat.testBit_lor, m1, m2, m3, m4, AN30259A_REG_LEDON] <;>
    by_cases h1 : i = led <;> by_cases h2 : i = 4 + led <;> simp [h1, h2]

theorem leds_on_img_apply (img : Image) (led : Nat) (a b : Bool) (cc r : Nat)
    (hr : r ≠ 1) :
    leds_on_img img led a b cc r =
      if r = 3 + led then cc % 256
      else if r = 10 + led * 4 ∧ a = false then (img r &&& 4294967055) % 256
      else img r := by
  have hc : compl32 240 = 4294967055 := by decide
  cases a <;> cases b <;>
    simp only [leds_on_img, Image.set_apply, AN30259A_REG_LEDON, AN30259A_REG_LED1CC,
      AN30259A_REG_LED1CNT2, LED_ON, LED_SLOPE_MODE, AN30259A_MASK_DELAY, hc, hr, if_true,
      if_false, Bool.false_eq_true, and_true, and_false] <;>
    split_ifs <;> first | rfl | omega | simp_all

theorem leds_set_slope_mode_img_apply (shift : Nat) (img : Image)
    (led delay dutymax dutymid dutymin slptt1 slptt2 dt1 dt2 dt3 dt4 r : Nat) :
    leds_set_slope_mode_img shift img led delay dutymax dutymid dutymin slptt1 slptt2
        dt1 dt2 dt3 dt4 r =
      if r = 6 + led then (((slptt2 % 256) <<< 4) ||| (slptt1 % 256)) % 256
      else if r = 12 + led * 4 then (((dt4 % 256) <<< shift) ||| (dt3 % 256)) % 256
      else if r = 11 + led * 4 then (((dt2 % 256) <<< shift) ||| (dt1 % 256)) % 256
      else if r = 10 + led * 4 then (((delay % 256) <<< 4) ||| (dutymin % 256)) % 256
      else if r = 9 + led * 4 then (((dutymax % 256) <<< 4) ||| (dutymid % 256)) % 256
      else img r := by
  simp only [leds_set_slope_mode_img, Image.set_apply, AN30259A_REG_LED1CNT1,
    AN30259A_REG_LED1CNT2, AN30259A_REG_LED1CNT3, AN30259A_REG_LED1CNT4,
    AN30259A_REG_LED1SLP]

theorem enable_bit_leds_on_img (img : Image) (led c : Nat) (a b : Bool) (cc : Nat)
    (hled : led < 3) (hc : c < 3) :
    enable_bit (leds_on_img img led a b cc) c =
      if c = led then a else enable_bit img c := by
  unfold enable_bit
  rw [leds_on_img_ledon_testBit img led c a b cc hled (by omega)]
  split_ifs <;> first | rfl | omega

theorem slope_bit_leds_on_img (img : Image) (led c : Nat) (a b : Bool) (cc : Nat)
    (hled : led < 3) (hc : c < 3) :
    slope_bit (leds_on_img img led a b cc) c =
      if c = led then b else slope_bit img c := by
  unfold slope_bit
  rw [leds_on_img_ledon_testBit img led (4 + c) a b cc hled (by omega)]
  split_ifs <;> first | rfl | omega

theorem leds_set_slope_mode_img_ledon (shift : Nat) (img : Image)
    (led x1 x2 x3 x4 x5 x6 x7 x8 x9 x10 : Nat) :
    leds_set_slope_mode_img shift img led x1 x2 x3 x4 x5 x6 x7 x8 x9 x10
      AN30259A_REG_LEDON = img AN30259A_REG_LEDON := by
  rw [leds_set_slope_mode_img_apply]
  simp only [AN30259A_REG_LEDON]
  split_ifs <;> first | rfl | omega

theorem enable_bit_slope_img (shift : Nat) (img : Image)
    (led x1 x2 x3 x4 x5 x6 x7 x8 x9 x10 c : Nat) :
    enable_bit (leds_set_slope_mode_img shift img led x1 x2 x3 x4 x5 x6 x7 x8 x9 x10) c =
      enable_bit img c := by
  unfold enable_bit
  rw [leds_set_slope_mode_img_ledon]

theorem slope_bit_slope_img (shift : Nat) (img : Image)
    (led x1 x2 x3 x4 x5 x6 x7 x8 x9 x10 c : Nat) :
    slope_bit (leds_set_slope_mode_img shift img led x1 x2 x3 x4 x5 x6 x7 x8 x9 x10) c =
      slope_bit img c := by
  unfold slope_bit
  rw [leds_set_slope_mode_img_ledon]

theorem channel_view_leds_on_other (img : Image) (led c : Nat) (a b : Bool) (cc : Nat)
    (hled : led < 3) (hc : c < 3) (hne : c ≠ led) :
    channel_view (leds_on_img img led a b cc) c = channel_view img c := by
  simp only [channel_view, enable_bit_leds_on_img img led c a b cc hled hc,
    slope_bit_leds_on_img img led c a b cc hled hc, if_neg hne, AN30259A_REG_LED1CC,
    AN30259A_REG_LED1SLP, AN30259A_REG_LED1CNT1, AN30259A_REG_LED1CNT2,
    AN30259A_REG_LED1CNT3, AN30259A_REG_LED1CNT4]
  rw [leds_on_img_apply img led a b cc (3 + c) (by omega),
    leds_on_img_apply img led a b cc (6 + c) (by omega),
    leds_on_img_apply img led a b cc (9 + c * 4) (by omega),
    leds_on_img_apply img led a b cc (10 + c * 4) (by omega),
    leds_on_img_apply img led a b cc (11 + c * 4) (by omega),
    leds_on_img_apply img led a b cc (12 + c * 4) (by omega)]
  repeat rw [if_neg (by omega)]

theorem channel_view_slope_other (shift : Nat) (img : Image)
    (led x1 x2 x3 x4 x5 x6 x7 x8 x9 x10 c : Nat)
    (hled : led < 3) (hc : c < 3) (hne : c ≠ led) :
    channel_view (leds_set_slope_mode_img shift img led x1 x2 x3 x4 x5 x6 x7 x8 x9 x10) c =
      channel_view img c := by
  simp only [channel_view, enable_bit_slope_img, slope_bit_slope_img,
    leds_set_slope_mode_img_apply, AN30259A_REG_LED1CC,
    AN30259A_REG_LED1SLP, AN30259A_REG_LED1CNT1, AN30259A_REG_LED1CNT2,
    AN30259A_REG_LED1CNT3, AN30259A_REG_LED1CNT4]
  congr 1 <;> (repeat rw [if_neg (by omega)])

theorem channel_view_leds_on_self (img : Image) (led : Nat) (a b : Bool) (cc : Nat)
    (hled : led < 3) :
    channel_view (leds_on_img img led a b cc) led =
      { channel_view img led with
        enable := a
        slope := b
        cc := cc % 256
        cnt2 := if a = false then (img (10 + led * 4) &&& 4294967055) % 256
          else img (10 + led * 4) } := by
  simp only [channel_view, enable_bit_leds_on_img img led led a b cc hled hled,
    slope_bit_leds_on_img img led led a b cc hled hled, if_true, AN30259A_REG_LED1CC,
    AN30259A_REG_LED1SLP, AN30259A_REG_LED1CNT1, AN30259A_REG_LED1CNT2,
    AN30259A_REG_LED1CNT3, AN30259A_REG_LED1CNT4]
  rw [leds_on_img_apply img led a b cc (3 + led) (by omega),
    leds_on_img_apply img led a b cc (6 + led) (by omega),
    leds_on_img_apply img led a b cc (9 + led * 4) (by omega),
    leds_on_img_apply img led a b cc (10 + led * 4) (by omega),
    leds_on_img_apply img led a b cc (11 + led * 4) (by omega),
    leds_on_img_apply img led a b cc (12 + led * 4) (by omega)]
  cases a <;> (congr 1 <;> (split_ifs <;> first | rfl | omega | simp_all))

theorem channel_view_slope_self (shift : Nat) (img : Image)
    (led delay dutymax dutymid dutymin slptt1 slptt2 dt1 dt2 dt3 dt4 : Nat) :
    channel_view (leds_set_slope_mode_img shift img led delay dutymax dutymid dutymin
        slptt1 slptt2 dt1 dt2 dt3 dt4) led =
      { channel_view img led with
        slp := (((slptt2 % 256) <<< 4) ||| (slptt1 % 256)) % 256
        cnt1 := (((dutymax % 256) <<< 4) ||| (dutymid % 256)) % 256
        cnt2 := (((delay % 256) <<< 4) ||| (dutymin % 256)) % 256
        cnt3 := (((dt2 % 256) <<< shift) ||| (dt1 % 256)) % 256
        cnt4 := (((dt4 % 256) <<< shift) ||| (dt3 % 256)) % 256 } := by
  simp only [channel_view, enable_bit_slope_img, slope_bit_slope_img,
    leds_set_slope_mode_img_apply, AN30259A_REG_LED1CC,
    AN30259A_REG_LED1SLP, AN30259A_REG_LED1CNT1, AN30259A_REG_LED1CNT2,
    AN30259A_REG_LED1CNT3, AN30259A_REG_LED1CNT4]
  congr 1 <;> (split_ifs <;> first | rfl | omega)

/-! ### The blink body on the register image -/

theorem blink_body_view_other (led d1 d2 b c : Nat) (s : State)
    (hled : led < 3) (hc : c < 3) (hne : c ≠ led) :
    channel_view (set_led_blink_body led d1 d2 b s).shadow_reg c =
      channel_view s.shadow_reg c := by
  unfold set_led_blink_body blink_apply blink_slope
  split_ifs <;>
    simp only [leds_on, leds_set_slope_mode, channel_view_leds_on_other _ led c _ _ _ hled hc hne,
      channel_view_slope_other _ _ led _ _ _ _ _ _ _ _ _ _ c hled hc hne]

theorem blink_body_off (led d1 d2 b : Nat) (s : State) (hled : led < 3)
    (hb : b % 256 = 0) :
    enable_bit (set_led_blink_body led d1 d2 b s).shadow_reg led = false ∧
      slope_bit (set_led_blink_body led d1 d2 b s).shadow_reg led = false := by
  unfold set_led_blink_body
  rw [if_pos (by simpa [LED_OFF] using hb)]
  simp only [leds_on, enable_bit_leds_on_img _ led led _ _ _ hled hled,
    slope_bit_leds_on_img _ led led _ _ _ hled hled, if_true, and_self]

/-! ### Channel power and channel brightness -/

theorem delay_nibble_of_mask (x : Nat) : (((x &&& 4294967055) % 256) >>> 4) % 16 = 0 := by
  rw [delay_mask, Nat.shiftRight_eq_div_pow]
  omega

theorem leds_on_facts (s : State) (led : Nat) (on_ slopemode : Bool) (ledcc : Nat)
    (hled : led < 3) :
    enable_bit (leds_on s led on_ slopemode ledcc).shadow_reg led = on_ ∧
      slope_bit (leds_on s led on_ slopemode ledcc).shadow_reg led = slopemode ∧
      current_control (leds_on s led on_ slopemode ledcc).shadow_reg led = ledcc % 256 ∧
      (on_ = false → delay_nibble (leds_on s led on_ slopemode ledcc).shadow_reg led = 0) ∧
      (on_ = true →
        (leds_on s led on_ slopemode ledcc).shadow_reg (AN30259A_REG_LED1CNT2 + led * 4) =
          s.shadow_reg (AN30259A_REG_LED1CNT2 + led * 4)) := by
  have hv := channel_view_leds_on_self s.shadow_reg led on_ slopemode ledcc hled
  have h1 := congrArg ChannelView.enable hv
  have h2 := congrArg ChannelView.slope hv
  have h3 := congrArg ChannelView.cc hv
  have h4 := congrArg ChannelView.cnt2 hv
  simp only [channel_view, AN30259A_REG_LED1CNT2] at h1 h2 h3 h4
  refine ⟨h1, h2, h3, ?_, ?_⟩
  · intro ha
    simp only [delay_nibble, leds_on, AN30259A_REG_LED1CNT2]
    rw [h4, if_pos ha]
    exact delay_nibble_of_mask _
  · intro ha
    simp only [leds_on, AN30259A_REG_LED1CNT2]
    rw [h4, if_neg (by simp [ha])]

theorem store_led_shadow_reg (env : Env) (led b : Nat) (s : State) :
    (store_led env led b s).shadow_reg =
      if b > 255 then s.shadow_reg
      else if b = 0 then (leds_on s led false false 0).shadow_reg
      else (leds_on s led true false b).shadow_reg := by
  unfold store_led
  split_ifs <;> simp

theorem brightness_work_shadow_reg (env : Env) (c : Nat) (s : State) :
    (an30259a_led_brightness_work env c s).shadow_reg =
      (leds_on s c true false (s.brightness c)).shadow_reg := by
  simp [an30259a_led_brightness_work]

/-- Claim C16, as amended. For every channel, image, slope flag and current value,
`leds_on` leaves the enable bit equal to `on`, the slope bit equal to
`slopemode` and the current-control register equal to `ledcc` (as a byte), for
`on` false as well as true; with `on` false it also zeroes the delay nibble,
with `on` true it leaves `CNT2` as it was. -/
theorem leds_on_effect (s : State) (led : Nat) (on_ slopemode : Bool) (ledcc : Nat)
    (hled : led < 3) :
    enable_bit (leds_on s led on_ slopemode ledcc).shadow_reg led = on_ ∧
      slope_bit (leds_on s led on_ slopemode ledcc).shadow_reg led = slopemode ∧
      current_control (leds_on s led on_ slopemode ledcc).shadow_reg led = ledcc % 256 ∧
      (on_ = false → delay_nibble (leds_on s led on_ slopemode ledcc).shadow_reg led = 0) ∧
      (on_ = true →
        (leds_on s led on_ slopemode ledcc).shadow_reg (AN30259A_REG_LED1CNT2 + led * 4) =
          s.shadow_reg (AN30259A_REG_LED1CNT2 + led * 4)) :=
  leds_on_facts s led on_ slopemode ledcc hled

/-- Witness of C16 (amended): Red switched on in slope mode with current 0x28. -/
theorem leds_on_effect_witness :
    enable_bit (leds_on state0 LED_R true true 0x28).shadow_reg LED_R = true ∧
      slope_bit (leds_on state0 LED_R true true 0x28).shadow_reg LED_R = true ∧
      current_control (leds_on state0 LED_R true true 0x28).shadow_reg LED_R = 0x28 % 256 ∧
      (true = false →
        delay_nibble (leds_on state0 LED_R true true 0x28).shadow_reg LED_R = 0) ∧
      (true = true →
        (leds_on state0 LED_R true true 0x28).shadow_reg (AN30259A_REG_LED1CNT2 + LED_R * 4) =
          state0.shadow_reg (AN30259A_REG_LED1CNT2 + LED_R * 4)) :=
  leds_on_effect state0 LED_R true true 0x28 (by decide)

/-- Counterexample to C16 as stated: with Red lit at current 0x28, `leds_on` with
`on` false and current 0 overwrites the Red current-control register with 0;
with `on` false and `slopemode` true it sets the Red slope bit. -/
theorem leds_on_off_writes_current :
    current_control charging_evening.shadow_reg LED_R = 0x28 ∧
      current_control (leds_on charging_evening LED_R false false 0).shadow_reg LED_R = 0 ∧
      slope_bit (leds_on charging_evening LED_R false true 0).shadow_reg LED_R = true := by
  decide

/-- Claim C14, evaluated on the code. For every state and every channel,
`an30259a_set_brightness` with value 0 followed by `an30259a_led_brightness_work`
leaves the enable bit of the channel set (with current 0), while the sibling
stores `store_led_r`, `store_led_g`, `store_led_b` of the value 0 clear it. -/
theorem brightness_work_zero_keeps_enable (env : Env) (s : State) (c : Fin 3) :
    enable_bit (an30259a_led_brightness_work env c.val
        (an30259a_set_brightness c.val 0 s)).shadow_reg c.val = true ∧
      current_control (an30259a_led_brightness_work env c.val
        (an30259a_set_brightness c.val 0 s)).shadow_reg c.val = 0 ∧
      enable_bit (store_led env c.val 0 s).shadow_reg c.val = false := by
  have h := leds_on_facts (an30259a_set_brightness c.val 0 s) c.val true false
    ((an30259a_set_brightness c.val 0 s).brightness c.val) c.isLt
  have h0 := leds_on_facts s c.val false false 0 c.isLt
  refine ⟨?_, ?_, ?_⟩
  · rw [brightness_work_shadow_reg]
    exact h.1
  · rw [brightness_work_shadow_reg, h.2.2.1]
    simp [an30259a_set_brightness]
  · rw [store_led_shadow_reg, if_neg (by omega), if_pos rfl]
    exact h0.1

/-- Claim C15, as amended. For every channel and every value `v`, the brightness
work after `an30259a_set_brightness(v)` writes `v` itself, as a byte, into the
current-control register of the channel, and so do the `led_r`, `led_g`, `led_b`
stores for `v` from 1 to 255: no calibrated current and no intensity enters. -/
theorem brightness_work_writes_raw (env : Env) (s : State) (c v : Nat) (hc : c < 3) :
    current_control (an30259a_led_brightness_work env c
        (an30259a_set_brightness c v s)).shadow_reg c = v % 256 ∧
      (1 ≤ v → v ≤ 255 → current_control (store_led env c v s).shadow_reg c = v) := by
  have h := leds_on_facts (an30259a_set_brightness c v s) c true false
    ((an30259a_set_brightness c v s).brightness c) hc
  refine ⟨?_, ?_⟩
  · rw [brightness_work_shadow_reg, h.2.2.1]
    simp [an30259a_set_brightness]
  · intro h1 h2
    have h0 := leds_on_facts s c true false v hc
    rw [store_led_shadow_reg, if_neg (by omega), if_neg (by omega), h0.2.2.1]
    omega

/-- Witness of C15 (amended): value 255 on Red after the probe. -/
theorem brightness_work_writes_raw_witness :
    current_control (an30259a_led_brightness_work (env_at 12) LED_R
        (an30259a_set_brightness LED_R 255 state0)).shadow_reg LED_R = 255 % 256 ∧
      (1 ≤ 255 → 255 ≤ 255 →
        current_control (store_led (env_at 12) LED_R 255 state0).shadow_reg LED_R = 255) :=
  brightness_work_writes_raw (env_at 12) state0 LED_R 255 (by decide)

/-- Counterexample to C15 as stated: after the probe the Red calibrated current
is 0x28 and the intensity is 0; brightness 255 set on Red, through the
brightness work or through the `led_r` node, leaves 255 in the Red
current-control register. -/
theorem brightness_255_not_calibrated :
    state0.LED_R_CURRENT = 0x28 ∧ state0.led_intensity = 0 ∧
      current_control (an30259a_led_brightness_work (env_at 12) LED_R
        (an30259a_set_brightness LED_R 255 state0)).shadow_reg LED_R = 255 ∧
      current_control (store_led (env_at 12) LED_R 255 state0).shadow_reg LED_R = 255 := by
  decide

/-! ### Patterns, once the restriction check has passed -/

theorem settings_fields {s s' : State} (h : s'.settings = s.settings) :
    s'.LED_LOWPOWER_MODE = s.LED_LOWPOWER_MODE ∧
    s'.LED_R_CURRENT = s.LED_R_CURRENT ∧
    s'.LED_G_CURRENT = s.LED_G_CURRENT ∧
    s'.LED_B_CURRENT = s.LED_B_CURRENT ∧
    s'.led_default_cur = s.led_default_cur ∧
    s'.led_lowpower_cur = s.led_lowpower_cur ∧
    s'.led_enable_fade = s.led_enable_fade ∧
    s'.led_enable_fade_charging = s.led_enable_fade_charging ∧
    s'.led_intensity = s.led_intensity ∧
    s'.led_time_on = s.led_time_on ∧
    s'.led_time_off = s.led_time_off := by
  have e1 : s'.settings.LED_LOWPOWER_MODE = s.settings.LED_LOWPOWER_MODE :=
    congrArg State.LED_LOWPOWER_MODE h
  have e2 : s'.settings.LED_R_CURRENT = s.settings.LED_R_CURRENT :=
    congrArg State.LED_R_CURRENT h
  have e3 : s'.settings.LED_G_CURRENT = s.settings.LED_G_CURRENT :=
    congrArg State.LED_G_CURRENT h
  have e4 : s'.settings.LED_B_CURRENT = s.settings.LED_B_CURRENT :=
    congrArg State.LED_B_CURRENT h
  have e5 : s'.settings.led_default_cur = s.settings.led_default_cur :=
    congrArg State.led_default_cur h
  have e6 : s'.settings.led_lowpower_cur = s.settings.led_lowpower_cur :=
    congrArg State.led_lowpower_cur h
  have e7 : s'.settings.led_enable_fade = s.settings.led_enable_fade :=
    congrArg State.led_enable_fade h
  have e8 : s'.settings.led_enable_fade_charging = s.settings.led_enable_fade_charging :=
    congrArg State.led_enable_fade_charging h
  have e9 : s'.settings.led_intensity = s.settings.led_intensity :=
    congrArg State.led_intensity h
  have e10 : s'.settings.led_time_on = s.settings.led_time_on :=
    congrArg State.led_time_on h
  have e11 : s'.settings.led_time_off = s.settings.led_time_off :=
    congrArg State.led_time_off h
  exact ⟨e1, e2, e3, e4, e5, e6, e7, e8, e9, e10, e11⟩

theorem pattern_dynamic_current_congr {s s' : State} (h : s'.settings = s.settings) :
    pattern_dynamic_current s' = pattern_dynamic_current s := by
  obtain ⟨e1, _, _, _, e5, e6, e7, _⟩ := settings_fields h
  simp only [pattern_dynamic_current, e1, e5, e6, e7]

theorem dyn_leds_i2c_write_all (env : Env) (s : State) :
    (leds_i2c_write_all env s).2.LED_DYNAMIC_CURRENT = s.LED_DYNAMIC_CURRENT := by
  rw [leds_i2c_write_all_eq]

theorem pattern_switch_dyn (mode : Int) (s t : State) (h : pattern_switch mode s = some t) :
    t.LED_DYNAMIC_CURRENT = s.LED_DYNAMIC_CURRENT := by
  unfold pattern_switch pattern_fade_slope at h
  split_ifs at h <;> (cases h; rfl)

theorem pattern_apply_dyn (env : Env) (mode : Int) (s : State) :
    (pattern_apply env mode s).LED_DYNAMIC_CURRENT = pattern_dynamic_current s := by
  unfold pattern_apply
  cases h : pattern_switch mode { s with LED_DYNAMIC_CURRENT := pattern_dynamic_current s } with
  | none => rfl
  | some t =>
    simp only
    rw [dyn_leds_i2c_write_all, pattern_switch_dyn mode _ t h]

theorem start_led_pattern_allowed_apply (env : Env) (mode : Int) (s : State)
    (hc : s.block_leds_check_allowed = true) (hr : (check_restrictions env s).1 = true)
    (hm : mode ≤ 6) (hm0 : mode ≠ 0) :
    an30259a_start_led_pattern env mode s =
      pattern_apply env mode
        (an30259a_reset_register_work env (check_restrictions env s).2) := by
  rw [start_led_pattern_of_allowed env mode s hc hr]
  unfold start_led_pattern_body
  rw [if_neg (by simp only [POWERING]; omega), if_neg (by simpa [LED_OFF] using hm0)]

theorem pattern_dynamic_current_reset_check (env : Env) (s : State) :
    pattern_dynamic_current
        (an30259a_reset_register_work env (check_restrictions env s).2) =
      pattern_dynamic_current s :=
  pattern_dynamic_current_congr
    ((settings_reset env _).trans (settings_check_restrictions env s))

/-- Claim C20, as amended. For a pattern of the catalog other than Off that is not
blocked, the dynamic-current scalar is the value chosen by the source in this
order: the low-power current when low-power mode is 1, else 1 when fade is
enabled, else the default current. So with fade enabled the scalar is 1 exactly
when low-power mode is not active; with low-power mode active it is the
low-power current, fade enabled or not. -/
theorem pattern_scalar_with_fade (env : Env) (mode : Int) (s : State)
    (hc : s.block_leds_check_allowed = true) (hr : (check_restrictions env s).1 = true)
    (hm1 : 1 ≤ mode) (hm6 : mode ≤ 6) (hf : s.led_enable_fade ≠ 0) :
    (s.LED_LOWPOWER_MODE ≠ 1 →
      (an30259a_start_led_pattern env mode s).LED_DYNAMIC_CURRENT = 1) ∧
    (s.LED_LOWPOWER_MODE = 1 →
      (an30259a_start_led_pattern env mode s).LED_DYNAMIC_CURRENT =
        s.led_lowpower_cur % 256) := by
  rw [start_led_pattern_allowed_apply env mode s hc hr hm6 (by omega), pattern_apply_dyn,
    pattern_dynamic_current_reset_check]
  constructor
  · intro hl
    simp [pattern_dynamic_current, hl, hf]
  · intro hl
    simp [pattern_dynamic_current, hl]

/-- Witness of C20 (amended): Missed-notification with fade enabled, without and
with low-power mode. -/
theorem pattern_scalar_with_fade_witness :
    (an30259a_start_led_pattern (env_at 12) MISSED_NOTI fade_on).LED_DYNAMIC_CURRENT = 1 ∧
      (an30259a_start_led_pattern (env_at 12) MISSED_NOTI fade_lowpower).LED_DYNAMIC_CURRENT
        = fade_lowpower.led_lowpower_cur % 256 :=
  ⟨(pattern_scalar_with_fade (env_at 12) MISSED_NOTI fade_on (by decide) (by decide)
      (by decide) (by decide) (by decide)).1 (by decide),
    (pattern_scalar_with_fade (env_at 12) MISSED_NOTI fade_lowpower (by decide) (by decide)
      (by decide) (by decide) (by decide)).2 (by decide)⟩

/-- Counterexample to C20 as stated: with fade enabled and low-power mode active
(low-power current 5), the Missed-notification pattern, not blocked, leaves the
dynamic-current scalar at 5. -/
theorem pattern_scalar_lowpower_wins :
    fade_lowpower.led_enable_fade = 1 ∧ fade_lowpower.LED_LOWPOWER_MODE = 1 ∧
      (check_restrictions (env_at 12) fade_lowpower).1 = true ∧
      (an30259a_start_led_pattern (env_at 12) MISSED_NOTI fade_lowpower).LED_DYNAMIC_CURRENT
        = 5 := by
  decide

theorem pattern_apply_fully_charged (env : Env) (s : State) :
    (pattern_apply env FULLY_CHARGED s).shadow_reg =
      leds_on_img s.shadow_reg LED_G true false
        (if s.led_intensity = 0 then s.LED_G_CURRENT % 256
          else (s.led_intensity / pattern_dynamic_current s) % 256) := by
  have h : pattern_switch FULLY_CHARGED
      { s with LED_DYNAMIC_CURRENT := pattern_dynamic_current s } =
      some (leds_on { s with LED_DYNAMIC_CURRENT := pattern_dynamic_current s } LED_G true
        false (pattern_brightness { s with LED_DYNAMIC_CURRENT := pattern_dynamic_current s }
          s.LED_G_CURRENT)) := by
    unfold pattern_switch
    rw [if_neg (by decide), if_neg (by decide), if_neg (by decide), if_neg (by decide),
      if_pos rfl]
  unfold pattern_apply
  rw [h]
  simp only [leds_i2c_write_all_shadow_reg, leds_on, pattern_brightness]

theorem fully_charged_image (env : Env) (s : State)
    (hc : s.block_leds_check_allowed = true) (hr : (check_restrictions env s).1 = true) :
    (an30259a_start_led_pattern env FULLY_CHARGED s).shadow_reg =
      leds_on_img (forced_off (check_restrictions env s).2.shadow_reg) LED_G true false
        (if s.led_intensity = 0 then s.LED_G_CURRENT % 256
          else (s.led_intensity / pattern_dynamic_current s) % 256) := by
  have hset : (an30259a_reset_register_work env (check_restrictions env s).2).settings =
      s.settings := (settings_reset env _).trans (settings_check_restrictions env s)
  obtain ⟨_, _, e3, _, _, _, _, _, e9, _, _⟩ := settings_fields hset
  rw [start_led_pattern_allowed_apply env FULLY_CHARGED s hc hr (by decide) (by decide),
    pattern_apply_fully_charged, reset_shadow_reg, e3, e9,
    pattern_dynamic_current_reset_check]

/-- Claim C11. When not blocked and with intensity 0, for every prior register
image and every Green calibration current `g`, the Fully-charged pattern leaves
the Green enable bit set, the Red and Blue enable bits clear, no slope bit set,
and Green's current-control register equal to `g` as a byte, that is to `g`
itself for `g` up to 255. Fade plays no part. -/
theorem fully_charged_lights_green (env : Env) (s : State)
    (hc : s.block_leds_check_allowed = true) (hr : (check_restrictions env s).1 = true)
    (hi : s.led_intensity = 0) :
    enable_bit (an30259a_start_led_pattern env FULLY_CHARGED s).shadow_reg LED_G = true ∧
      current_control (an30259a_start_led_pattern env FULLY_CHARGED s).shadow_reg LED_G
        = s.LED_G_CURRENT % 256 ∧
      (s.LED_G_CURRENT < 256 →
        current_control (an30259a_start_led_pattern env FULLY_CHARGED s).shadow_reg LED_G
          = s.LED_G_CURRENT) ∧
      enable_bit (an30259a_start_led_pattern env FULLY_CHARGED s).shadow_reg LED_R = false ∧
      enable_bit (an30259a_start_led_pattern env FULLY_CHARGED s).shadow_reg LED_B = false ∧
      (∀ c, c < 3 →
        slope_bit (an30259a_start_led_pattern env FULLY_CHARGED s).shadow_reg c = false) := by
  rw [fully_charged_image env s hc hr, if_pos hi]
  have hv := channel_view_leds_on_self (forced_off (check_restrictions env s).2.shadow_reg)
    LED_G true false (s.LED_G_CURRENT % 256) (by decide)
  have hcc : current_control (leds_on_img (forced_off (check_restrictions env s).2.shadow_reg)
      LED_G true false (s.LED_G_CURRENT % 256)) LED_G = s.LED_G_CURRENT % 256 := by
    have h3 := congrArg ChannelView.cc hv
    simp only [channel_view] at h3
    simp only [current_control, h3, Nat.mod_mod]
  refine ⟨?_, hcc, ?_, ?_, ?_, ?_⟩
  · rw [enable_bit_leds_on_img _ LED_G LED_G _ _ _ (by decide) (by decide), if_pos rfl]
  · intro hg
    rw [hcc, Nat.mod_eq_of_lt hg]
  · rw [enable_bit_leds_on_img _ LED_G LED_R _ _ _ (by decide) (by decide),
      if_neg (by decide)]
    exact (forced_off_bits _ LED_R (by decide)).1
  · rw [enable_bit_leds_on_img _ LED_G LED_B _ _ _ (by decide) (by decide),
      if_neg (by decide)]
    exact (forced_off_bits _ LED_B (by decide)).1
  · intro c hc3
    rw [slope_bit_leds_on_img _ LED_G c _ _ _ (by decide) hc3]
    split_ifs
    · rfl
    · exact (forced_off_bits _ c hc3).2.1

/-- Witness of C11: calibration R = G = B = 0x28 after the probe, Charging shown
before; Green's current-control register reads 0x28. -/
theorem fully_charged_lights_green_witness :
    charging_evening.LED_G_CURRENT = 0x28 ∧
      enable_bit (an30259a_start_led_pattern (env_at 12) FULLY_CHARGED
        charging_evening).shadow_reg LED_G = true ∧
      current_control (an30259a_start_led_pattern (env_at 12) FULLY_CHARGED
        charging_evening).shadow_reg LED_G = 0x28 ∧
      enable_bit (an30259a_start_led_pattern (env_at 12) FULLY_CHARGED
        charging_evening).shadow_reg LED_R = false ∧
      enable_bit (an30259a_start_led_pattern (env_at 12) FULLY_CHARGED
        charging_evening).shadow_reg LED_B = false ∧
      (∀ c, c < 3 → slope_bit (an30259a_start_led_pattern (env_at 12) FULLY_CHARGED
        charging_evening).shadow_reg c = false) :=
  have h := fully_charged_lights_green (env_at 12) charging_evening (by decide) (by decide)
    (by decide)
  ⟨by decide, h.1, h.2.2.1 (by decide), h.2.2.2.1, h.2.2.2.2.1, h.2.2.2.2.2⟩

/-! ### Pattern ids outside the catalog -/

theorem check_restrictions_quiet (env : Env) (s : State)
    (hr : (check_restrictions env s).1 = true)
    (hst : s.block_leds_not_blocking = true ∨ s.led_block_leds_time_start = -1 ∨
      s.led_block_leds_time_stop = -1) :
    (check_restrictions env s).2 = { s with block_leds_not_blocking := true } := by
  rcases hst with h | h
  · rw [check_restrictions_settled env s hr h]
    cases s
    simp_all
  · unfold check_restrictions at hr ⊢
    split_ifs at hr ⊢ with hk hw
    · exact absurd hw (by rcases h with h | h <;> simp [h])
    · rfl

/-- Claim C17, as amended. For every pattern id above the catalog (`id > 6`) and
every state in which the restriction check reports not-blocked and no replay is
pending (the previous verdict was not-blocked, or a window bound is unset),
`an30259a_start_led_pattern(id)` leaves the register image, the saved pattern,
the saved blinks and the bus log unchanged. -/
theorem start_led_pattern_above_catalog (env : Env) (id : Int) (s : State)
    (hc : s.block_leds_check_allowed = true) (hr : (check_restrictions env s).1 = true)
    (hid : id > 6)
    (hst : s.block_leds_not_blocking = true ∨ s.led_block_leds_time_start = -1 ∨
      s.led_block_leds_time_stop = -1) :
    (an30259a_start_led_pattern env id s).shadow_reg = s.shadow_reg ∧
      (an30259a_start_led_pattern env id s).bus = s.bus ∧
      (an30259a_start_led_pattern env id s).block_leds_saved_mode = s.block_leds_saved_mode ∧
      (an30259a_start_led_pattern env id s).block_leds_saved_delay_on_time =
        s.block_leds_saved_delay_on_time ∧
      (an30259a_start_led_pattern env id s).block_leds_saved_delay_off_time =
        s.block_leds_saved_delay_off_time ∧
      (an30259a_start_led_pattern env id s).block_leds_saved_brightness =
        s.block_leds_saved_brightness := by
  have e : an30259a_start_led_pattern env id s =
      { s with block_leds_not_blocking := true } := by
    rw [start_led_pattern_of_allowed env id s hc hr, check_restrictions_quiet env s hr hst]
    unfold start_led_pattern_body
    rw [if_pos (by simpa [POWERING] using hid)]
  rw [e]
  exact ⟨rfl, rfl, rfl, rfl, rfl, rfl⟩

/-- Witness of C17 (amended): id 7 at 21 o'clock, outside the window, with
Charging shown and nothing pending. -/
theorem start_led_pattern_above_catalog_witness :
    (an30259a_start_led_pattern (env_at 21) 7 charging_evening).shadow_reg =
        charging_evening.shadow_reg ∧
      (an30259a_start_led_pattern (env_at 21) 7 charging_evening).bus =
        charging_evening.bus ∧
      (an30259a_start_led_pattern (env_at 21) 7 charging_evening).block_leds_saved_mode =
        charging_evening.block_leds_saved_mode ∧
      (an30259a_start_led_pattern (env_at 21) 7 charging_evening).block_leds_saved_delay_on_time
        = charging_evening.block_leds_saved_delay_on_time ∧
      (an30259a_start_led_pattern (env_at 21) 7 charging_evening).block_leds_saved_delay_off_time
        = charging_evening.block_leds_saved_delay_off_time ∧
      (an30259a_start_led_pattern (env_at 21) 7 charging_evening).block_leds_saved_brightness
        = charging_evening.block_leds_saved_brightness :=
  start_led_pattern_above_catalog (env_at 21) 7 charging_evening (by decide) (by decide)
    (by decide) (Or.inl (by decide))

set_option maxRecDepth 100000 in
/-- Counterexample to C17 as stated. Blocked (23 o'clock in the window (22, 6)),
with Charging shown: id 7 clears the Red enable bit and issues two bus
transfers. Blocked, with Charging saved: id 7 replaces the saved pattern. Not
blocked (21 o'clock), with Charging shown: id -5 clears the Red enable bit and
issues two bus transfers. -/
theorem start_led_pattern_unknown_not_noop :
    (check_restrictions (env_at 23) charging_evening).1 = false ∧
      charging_evening.shadow_reg AN30259A_REG_LEDON = 1 ∧
      (an30259a_start_led_pattern (env_at 23) 7 charging_evening).shadow_reg
        AN30259A_REG_LEDON = 0 ∧
      (an30259a_start_led_pattern (env_at 23) 7 charging_evening).bus.length =
        charging_evening.bus.length + 2 ∧
      charging_saved.block_leds_saved_mode = CHARGING ∧
      (an30259a_start_led_pattern (env_at 23) 7 charging_saved).block_leds_saved_mode = 7 ∧
      (check_restrictions (env_at 21) charging_evening).1 = true ∧
      (an30259a_start_led_pattern (env_at 21) (-5) charging_evening).shadow_reg
        AN30259A_REG_LEDON = 0 ∧
      (an30259a_start_led_pattern (env_at 21) (-5) charging_evening).bus.length =
        charging_evening.bus.length + 2 := by
  decide

/-! ### Saving a blink while blocked -/

theorem saved_of_rest {s s' : State} (h : s'.rest = s.rest) :
    s'.block_leds_saved_mode = s.block_leds_saved_mode ∧
      s'.block_leds_saved_delay_on_time = s.block_leds_saved_delay_on_time ∧
      s'.block_leds_saved_delay_off_time = s.block_leds_saved_delay_off_time ∧
      s'.block_leds_saved_brightness = s.block_leds_saved_brightness := by
  have e1 : s'.rest.block_leds_saved_mode = s.rest.block_leds_saved_mode :=
    congrArg State.block_leds_saved_mode h
  have e2 : s'.rest.block_leds_saved_delay_on_time = s.rest.block_leds_saved_delay_on_time :=
    congrArg State.block_leds_saved_delay_on_time h
  have e3 : s'.rest.block_leds_saved_delay_off_time =
      s.rest.block_leds_saved_delay_off_time :=
    congrArg State.block_leds_saved_delay_off_time h
  have e4 : s'.rest.block_leds_saved_brightness = s.rest.block_leds_saved_brightness :=
    congrArg State.block_leds_saved_brightness h
  exact ⟨e1, e2, e3, e4⟩

theorem saved_check_restrictions_blocked (env : Env) (s : State)
    (h : (check_restrictions env s).1 = false) :
    (check_restrictions env s).2.block_leds_saved_mode = s.block_leds_saved_mode ∧
      (check_restrictions env s).2.block_leds_saved_delay_on_time =
        s.block_leds_saved_delay_on_time ∧
      (check_restrictions env s).2.block_leds_saved_delay_off_time =
        s.block_leds_saved_delay_off_time ∧
      (check_restrictions env s).2.block_leds_saved_brightness =
        s.block_leds_saved_brightness := by
  rw [check_restrictions_blocked env s h]
  have hh := saved_of_rest (rest_reset env s)
  exact hh

theorem set_led_blink_body_mod (led d1 d2 b : Nat) (s : State) :
    set_led_blink_body led (d1 % 4294967296) (d2 % 4294967296) (b % 256) s =
      set_led_blink_body led d1 d2 b s := by
  unfold set_led_blink_body
  simp only [Nat.mod_mod]

theorem set_led_blink_of_not_check_allowed (env : Env) (led d1 d2 b : Nat) (s : State)
    (hc : s.block_leds_check_allowed = false) :
    an30259a_set_led_blink env led d1 d2 b s = set_led_blink_body led d1 d2 b s := by
  simp only [an30259a_set_led_blink, hc, Bool.false_eq_true, if_false]
  exact set_led_blink_body_mod led d1 d2 b s

/-- Claim C18, as amended. While the restriction check reports blocked,
`an30259a_set_led_blink(c, on, off, b)` with `b` non-zero stores exactly
`(on, off, b)` in the saved arrays of channel `c`, and with `b` zero stores the
empty mark `-1` there; the saved pattern and the slots of the other channels are
unchanged. Whenever the slot of `c` holds that triple and `on` is not
`0xFFFFFFFF`, the replay of channel `c` is the call of `an30259a_set_led_blink`
with exactly `(on, off, b)` and restriction checking disabled. -/
theorem set_led_blink_blocked_saves (env : Env) (c on_ms off_ms b : Nat) (s : State)
    (hc : s.block_leds_check_allowed = true) (hr : (check_restrictions env s).1 = false)
    (hon : on_ms < 4294967296) (hoff : off_ms < 4294967296) (hb : b < 256) :
    (b ≠ 0 →
      (an30259a_set_led_blink env c on_ms off_ms b s).block_leds_saved_delay_on_time c
          = on_ms ∧
        (an30259a_set_led_blink env c on_ms off_ms b s).block_leds_saved_delay_off_time c
          = off_ms ∧
        (an30259a_set_led_blink env c on_ms off_ms b s).block_leds_saved_brightness c = b) ∧
    (b = 0 →
      (an30259a_set_led_blink env c on_ms off_ms b s).block_leds_saved_delay_on_time c
          = UINT_M1) ∧
    (an30259a_set_led_blink env c on_ms off_ms b s).block_leds_saved_mode
      = s.block_leds_saved_mode ∧
    (∀ c', c' ≠ c →
      (an30259a_set_led_blink env c on_ms off_ms b s).block_leds_saved_delay_on_time c'
          = s.block_leds_saved_delay_on_time c' ∧
        (an30259a_set_led_blink env c on_ms off_ms b s).block_leds_saved_delay_off_time c'
          = s.block_leds_saved_delay_off_time c' ∧
        (an30259a_set_led_blink env c on_ms off_ms b s).block_leds_saved_brightness c'
          = s.block_leds_saved_brightness c') ∧
    (∀ (env2 : Env) (t : State), on_ms ≠ UINT_M1 →
      t.block_leds_saved_delay_on_time c = on_ms →
      t.block_leds_saved_delay_off_time c = off_ms →
      t.block_leds_saved_brightness c = b →
      restore_blink c t =
        { an30259a_set_led_blink env2 c on_ms off_ms b
            { t with block_leds_check_allowed := false } with
          block_leds_check_allowed := true }) := by
  obtain ⟨e1, e2, e3, e4⟩ := saved_check_restrictions_blocked env s hr
  have m1 : on_ms % 4294967296 = on_ms := Nat.mod_eq_of_lt hon
  have m2 : off_ms % 4294967296 = off_ms := Nat.mod_eq_of_lt hoff
  have m3 : b % 256 = b := Nat.mod_eq_of_lt hb
  refine ⟨?_, ?_, ?_, ?_, ?_⟩
  · intro hb0
    simp only [an30259a_set_led_blink, hc, hr, m1, m2, m3, LED_OFF, hb0, if_true, if_false,
      Bool.not_false, Function.update_same, and_self]
  · intro hb0
    simp only [an30259a_set_led_blink, hc, hr, m1, m2, m3, LED_OFF, hb0, if_true,
      Bool.not_false, Function.update_same]
  · simp only [an30259a_set_led_blink, hc, hr, if_true, Bool.not_false]
    split_ifs <;> exact e1
  · intro c' hne
    simp only [an30259a_set_led_blink, hc, hr, if_true, Bool.not_false]
    split_ifs <;>
      simp only [Function.update_noteq hne, e2, e3, e4, and_self]
  · intro env2 t hne h1 h2 h3
    have e : restore_blink c t =
        { set_led_blink_body c (t.block_leds_saved_delay_on_time c)
            (t.block_leds_saved_delay_off_time c) (t.block_leds_saved_brightness c)
            { t with block_leds_check_allowed := false } with
          block_leds_check_allowed := true } := by
      unfold restore_blink
      rw [if_pos (by rw [h1]; exact hne)]
    rw [e, h1, h2, h3, set_led_blink_of_not_check_allowed env2 c on_ms off_ms b _ rfl]

/-- Witness of C18 (amended): a red blink (500, 2000, 255) requested at 23 o'clock
in the window (22, 6). -/
theorem set_led_blink_blocked_saves_witness :
    (red_blink_saved.block_leds_saved_delay_on_time LED_R = 500 ∧
        red_blink_saved.block_leds_saved_delay_off_time LED_R = 2000 ∧
        red_blink_saved.block_leds_saved_brightness LED_R = 255) ∧
      red_blink_saved.block_leds_saved_mode = night_settled.block_leds_saved_mode ∧
      restore_blink LED_R red_blink_saved =
        { an30259a_set_led_blink (env_at 7) LED_R 500 2000 255
            { red_blink_saved with block_leds_check_allowed := false } with
          block_leds_check_allowed := true } :=
  have h := set_led_blink_blocked_saves (env_at 23) LED_R 500 2000 255 night_settled
    (by decide) (by decide) (by decide) (by decide) (by decide)
  ⟨h.1 (by decide), h.2.2.1,
    h.2.2.2.2 (env_at 7) red_blink_saved (by decide) (by decide) (by decide) (by decide)⟩

set_option maxRecDepth 100000 in
/-- Counterexample to C18 as stated: a red blink with on-time `0xFFFFFFFF` and
brightness 255 is requested while blocked. Its on-time equals the empty mark,
so the evaluation at 7 o'clock replays nothing and Red stays disabled, while
the same request with on-time 500 is replayed and enables Red. -/
theorem blink_on_minus_one_not_replayed :
    (check_restrictions (env_at 23) night_settled).1 = false ∧
      red_blink_minus_one.block_leds_saved_delay_on_time LED_R = UINT_M1 ∧
      red_blink_minus_one.block_leds_saved_brightness LED_R = 255 ∧
      (check_restrictions (env_at 7) red_blink_minus_one).1 = true ∧
      enable_bit (check_restrictions (env_at 7) red_blink_minus_one).2.shadow_reg LED_R
        = false ∧
      enable_bit (check_restrictions (env_at 7) red_blink_saved).2.shadow_reg LED_R
        = true := by
  decide

/-! ### Time overrides in the reachable states -/

theorem settings_start_led_pattern (env : Env) (mode : Int) (s : State)
    (hc : s.block_leds_check_allowed = true) :
    (an30259a_start_led_pattern env mode s).settings = s.settings := by
  cases hr : (check_restrictions env s).1
  · rw [start_led_pattern_of_blocked env mode s hc hr]
    exact settings_check_restrictions env s
  · rw [start_led_pattern_of_allowed env mode s hc hr]
    exact (settings_of_rest (rest_start_led_pattern_body env mode _)).trans
      (settings_check_restrictions env s)

theorem settings_set_led_blink (env : Env) (led d1 d2 b : Nat) (s : State)
    (hc : s.block_leds_check_allowed = true) :
    (an30259a_set_led_blink env led d1 d2 b s).settings = s.settings := by
  cases hr : (check_restrictions env s).1
  · exact (set_led_blink_blocked env led d1 d2 b s hc hr).2.1
  · rw [set_led_blink_of_allowed env led d1 d2 b s hc hr]
    exact (settings_of_rest (rest_set_led_blink_body _ _ _ _ _)).trans
      (settings_check_restrictions env s)

theorem settings_store_led_blink (env : Env) (color d1 d2 : Nat) (s : State)
    (hc : s.block_leds_check_allowed = true) :
    (store_an30259a_led_blink env color d1 d2 s).settings = s.settings := by
  unfold store_an30259a_led_blink
  simp only
  have c0 := check_allowed_start_led_pattern env (LED_OFF : Int) s hc
  have c1 := check_allowed_set_led_blink env LED_R d1 d2
    (((color % 4294967296) &&& LED_R_MASK) >>> LED_R_SHIFT % 256) _ c0
  have c2 := check_allowed_set_led_blink env LED_G d1 d2
    (((color % 4294967296) &&& LED_G_MASK) >>> LED_G_SHIFT % 256) _ c1
  exact (settings_of_rest (rest_leds_i2c_write_all env _)).trans
    ((settings_set_led_blink env LED_B d1 d2 _ _ c2).trans
      ((settings_set_led_blink env LED_G d1 d2 _ _ c1).trans
        ((settings_set_led_blink env LED_R d1 d2 _ _ c0).trans
          (settings_start_led_pattern env _ s hc))))

theorem time_bounds_of_settings {s s' : State} (h : s'.settings = s.settings)
    (hb : s.led_time_on ≤ 7500 ∧ s.led_time_off ≤ 7500) :
    s'.led_time_on ≤ 7500 ∧ s'.led_time_off ≤ 7500 := by
  obtain ⟨_, _, _, _, _, _, _, _, _, e10, e11⟩ := settings_fields h
  rw [e10, e11]
  exact hb

theorem time_bounds_run (env : Env) (c : Command) (s : State)
    (hc : s.block_leds_check_allowed = true)
    (hb : s.led_time_on ≤ 7500 ∧ s.led_time_off ≤ 7500) :
    (c.run env s).led_time_on ≤ 7500 ∧ (c.run env s).led_time_off ≤ 7500 := by
  cases c <;> simp only [Command.run]
  case led_r b => exact time_bounds_of_settings (settings_of_rest (rest_store_led env _ b s)) hb
  case led_g b => exact time_bounds_of_settings (settings_of_rest (rest_store_led env _ b s)) hb
  case led_b b => exact time_bounds_of_settings (settings_of_rest (rest_store_led env _ b s)) hb
  case led_pattern mode =>
    exact time_bounds_of_settings (settings_start_led_pattern env mode s hc) hb
  case led_blink b d1 d2 =>
    exact time_bounds_of_settings (settings_store_led_blink env b d1 d2 s hc) hb
  case led_fade v => exact hb
  case led_fade_charging v => exact hb
  case led_intensity v => unfold store_an30259a_led_intensity; split_ifs <;> exact hb
  case led_time_on v =>
    unfold store_an30259a_led_time_on
    split_ifs with h
    · exact ⟨by simpa [SLPTT_MAX_VALUE] using h.2, hb.2⟩
    · exact hb
  case led_time_off v =>
    unfold store_an30259a_led_time_off
    split_ifs with h
    · exact ⟨hb.1, by simpa [SLPTT_MAX_VALUE] using h.2⟩
    · exact hb
  case led_step_speed1 v => unfold store_an30259a_led_step_speed1; split_ifs <;> exact hb
  case led_step_speed2 v => unfold store_an30259a_led_step_speed2; split_ifs <;> exact hb
  case led_step_speed3 v => unfold store_an30259a_led_step_speed3; split_ifs <;> exact hb
  case led_step_speed4 v => unfold store_an30259a_led_step_speed4; split_ifs <;> exact hb
  case led_step_bit_shift v =>
    unfold store_an30259a_led_step_bit_shift; split_ifs <;> exact hb
  case led_block_leds_time_start v =>
    unfold store_an30259a_led_block_leds_time_start update_work_active
    simp only
    split_ifs <;> exact hb
  case led_block_leds_time_stop v =>
    unfold store_an30259a_led_block_leds_time_stop update_work_active
    simp only
    split_ifs <;> exact hb
  case led_always_disable v =>
    unfold store_an30259a_led_always_disable; split_ifs <;> exact hb
  case led_debug_enable v =>
    unfold store_an30259a_led_debug_enable; split_ifs <;> exact hb
  case led_br_lev v => exact hb
  case led_lowpower v => unfold store_an30259a_led_lowpower; split_ifs <;> exact hb
  case set_brightness ch b => exact hb
  case brightness_work ch =>
    exact time_bounds_of_settings (settings_of_rest (rest_brightness_work env ch.val s)) hb
  case timer => exact time_bounds_of_settings (settings_check_restrictions env s) hb

theorem reachable_time_bounds {s : State} (h : Reachable s) :
    s.led_time_on ≤ 7500 ∧ s.led_time_off ≤ 7500 := by
  induction h with
  | probe regs d l => exact ⟨Nat.zero_le _, Nat.zero_le _⟩
  | step env c s hs ih => exact time_bounds_run env c s (reachable_check_allowed hs) ih

/-! ### The blink body in slope mode -/

theorem blink_delay_off_congr {s s' : State} (h : s'.settings = s.settings) (d : Nat) :
    blink_delay_off s' d = blink_delay_off s d := by
  obtain ⟨_, _, _, _, _, _, _, e8, _, _, e11⟩ := settings_fields h
  simp only [blink_delay_off, e8, e11]

theorem blink_delay_on_congr {s s' : State} (h : s'.settings = s.settings) (d : Nat) :
    blink_delay_on s' d = blink_delay_on s d := by
  obtain ⟨_, _, _, _, _, _, _, e8, _, e10, _⟩ := settings_fields h
  simp only [blink_delay_on, e8, e10]

theorem blink_body_slope_img (led d1 d2 b : Nat) (s : State) (hb : b % 256 ≠ 0)
    (hoff : blink_delay_off s (d2 % 4294967296) ≠ 0) :
    (set_led_blink_body led d1 d2 b s).shadow_reg =
      leds_set_slope_mode_img s.led_step_bit_shift
        (leds_on_img s.shadow_reg led true true
          (blink_brightness (b % 256)
            { s with LED_DYNAMIC_CURRENT := blink_dynamic_current led s }))
        led 0 (if s.led_enable_fade = 1 then 30 else 15) 15 0
        (to_units (if s.led_time_on ≠ 0 then s.led_time_on
          else blink_delay_on s (d1 % 4294967296)))
        (to_units (if s.led_time_off ≠ 0 then s.led_time_off
          else blink_delay_off s (d2 % 4294967296)))
        (if s.led_enable_fade = 1 then s.led_step_speed1 else 0)
        (if s.led_enable_fade = 1 then s.led_step_speed2 else 0)
        (if s.led_enable_fade = 1 then s.led_step_speed3 else 0)
        (if s.led_enable_fade = 1 then s.led_step_speed4 else 0) := by
  have e1 : blink_delay_off { s with LED_DYNAMIC_CURRENT := blink_dynamic_current led s }
      (d2 % 4294967296) = blink_delay_off s (d2 % 4294967296) := rfl
  have e2 : blink_delay_on { s with LED_DYNAMIC_CURRENT := blink_dynamic_current led s }
      (d1 % 4294967296) = blink_delay_on s (d1 % 4294967296) := rfl
  unfold set_led_blink_body
  rw [if_neg (by simpa [LED_OFF] using hb)]
  unfold blink_apply
  rw [e1, e2, if_neg (by simpa [LED_OFF] using hoff)]
  unfold blink_slope
  by_cases hf : s.led_enable_fade = 1
  · have hf' : (leds_on { s with LED_DYNAMIC_CURRENT := blink_dynamic_current led s } led
        true true (blink_brightness (b % 256)
          { s with LED_DYNAMIC_CURRENT := blink_dynamic_current led s })).led_enable_fade
        = 1 := hf
    rw [if_pos hf']
    simp only [if_pos hf]
    rfl
  · have hf' : ¬ (leds_on { s with LED_DYNAMIC_CURRENT := blink_dynamic_current led s } led
        true true (blink_brightness (b % 256)
          { s with LED_DYNAMIC_CURRENT := blink_dynamic_current led s })).led_enable_fade
        = 1 := hf
    rw [if_neg hf']
    simp only [if_neg hf]
    rfl

theorem to_units_final (override d : Nat) (ho : override ≤ 7500) (hd : d < 4294967296) :
    to_units (if override ≠ 0 then override
        else (if d > SLPTT_MAX_VALUE then SLPTT_MAX_VALUE else d)) =
      spec_to_units (effective_ms override d) ∧
    spec_to_units (effective_ms override d) ≤ 15 := by
  simp only [to_units, spec_to_units, effective_ms, SLPTT_MAX_VALUE, AN30259A_TIME_UNIT]
  split_ifs <;> omega

theorem blink_delay_on_zero_override (s : State) (d : Nat) (h : s.led_time_on = 0) :
    blink_delay_on s d = if d > SLPTT_MAX_VALUE then SLPTT_MAX_VALUE else d := by
  simp [blink_delay_on, h]

theorem blink_delay_off_zero_override (s : State) (d : Nat) (h : s.led_time_off = 0) :
    blink_delay_off s d = if d > SLPTT_MAX_VALUE then SLPTT_MAX_VALUE else d := by
  simp [blink_delay_off, h]

theorem blink_units_on (s : State) (d : Nat) (ho : s.led_time_on ≤ 7500)
    (hd : d < 4294967296) :
    to_units (if s.led_time_on ≠ 0 then s.led_time_on else blink_delay_on s d) =
      spec_to_units (effective_ms s.led_time_on d) ∧
    spec_to_units (effective_ms s.led_time_on d) ≤ 15 := by
  by_cases h : s.led_time_on = 0
  · rw [blink_delay_on_zero_override s d h]
    exact to_units_final _ d ho hd
  · have := to_units_final s.led_time_on d ho hd
    rw [if_pos h] at this ⊢
    exact this

theorem blink_units_off (s : State) (d : Nat) (ho : s.led_time_off ≤ 7500)
    (hd : d < 4294967296) :
    to_units (if s.led_time_off ≠ 0 then s.led_time_off else blink_delay_off s d) =
      spec_to_units (effective_ms s.led_time_off d) ∧
    spec_to_units (effective_ms s.led_time_off d) ≤ 15 := by
  by_cases h : s.led_time_off = 0
  · rw [blink_delay_off_zero_override s d h]
    exact to_units_final _ d ho hd
  · have := to_units_final s.led_time_off d ho hd
    rw [if_pos h] at this ⊢
    exact this

theorem blink_body_slope_slp (led d1 d2 b : Nat) (s : State) (hb : b % 256 ≠ 0)
    (hoff : blink_delay_off s (d2 % 4294967296) ≠ 0)
    (h1 : s.led_time_on ≤ 7500) (h2 : s.led_time_off ≤ 7500) :
    (set_led_blink_body led d1 d2 b s).shadow_reg (AN30259A_REG_LED1SLP + led) =
      16 * spec_to_units (effective_ms s.led_time_off (d2 % 4294967296)) +
        spec_to_units (effective_ms s.led_time_on (d1 % 4294967296)) := by
  have hv := congrArg ChannelView.slp (channel_view_slope_self s.led_step_bit_shift
    (leds_on_img s.shadow_reg led true true
      (blink_brightness (b % 256)
        { s with LED_DYNAMIC_CURRENT := blink_dynamic_current led s }))
    led 0 (if s.led_enable_fade = 1 then 30 else 15) 15 0
    (to_units (if s.led_time_on ≠ 0 then s.led_time_on
      else blink_delay_on s (d1 % 4294967296)))
    (to_units (if s.led_time_off ≠ 0 then s.led_time_off
      else blink_delay_off s (d2 % 4294967296)))
    (if s.led_enable_fade = 1 then s.led_step_speed1 else 0)
    (if s.led_enable_fade = 1 then s.led_step_speed2 else 0)
    (if s.led_enable_fade = 1 then s.led_step_speed3 else 0)
    (if s.led_enable_fade = 1 then s.led_step_speed4 else 0))
  simp only [channel_view] at hv
  obtain ⟨u1, l1⟩ := blink_units_on s (d1 % 4294967296) h1 (Nat.mod_lt _ (by norm_num))
  obtain ⟨u2, l2⟩ := blink_units_off s (d2 % 4294967296) h2 (Nat.mod_lt _ (by norm_num))
  rw [blink_body_slope_img led d1 d2 b s hb hoff, hv, u1, u2]
  exact pack_nibbles _ _ (by omega) (by omega)

theorem set_led_blink_allowed_body (env : Env) (led d1 d2 b : Nat) (s : State)
    (hc : s.block_leds_check_allowed = true) (hr : (check_restrictions env s).1 = true) :
    an30259a_set_led_blink env led d1 d2 b s =
      set_led_blink_body led d1 d2 b (check_restrictions env s).2 := by
  rw [set_led_blink_of_allowed env led d1 d2 b s hc hr, set_led_blink_body_mod]

theorem set_led_blink_allowed_slp (env : Env) (led on_ms off_ms b : Nat) (s : State)
    (hc : s.block_leds_check_allowed = true) (hr : (check_restrictions env s).1 = true)
    (h1 : s.led_time_on ≤ 7500) (h2 : s.led_time_off ≤ 7500)
    (hon : on_ms < 4294967296) (hoff : off_ms < 4294967296)
    (hb : b % 256 ≠ 0) (hslope : blink_delay_off s off_ms ≠ 0) :
    (an30259a_set_led_blink env led on_ms off_ms b s).shadow_reg
        (AN30259A_REG_LED1SLP + led) =
      16 * spec_to_units (effective_ms s.led_time_off off_ms) +
        spec_to_units (effective_ms s.led_time_on on_ms) := by
  have hset := settings_check_restrictions env s
  obtain ⟨_, _, _, _, _, _, _, _, _, e10, e11⟩ := settings_fields hset
  have m1 : on_ms % 4294967296 = on_ms := Nat.mod_eq_of_lt hon
  have m2 : off_ms % 4294967296 = off_ms := Nat.mod_eq_of_lt hoff
  rw [set_led_blink_allowed_body env led on_ms off_ms b s hc hr,
    blink_body_slope_slp led on_ms off_ms b _ hb
      (by rw [m2, blink_delay_off_congr hset]; exact hslope)
      (by rw [e10]; exact h1) (by rw [e11]; exact h2), m1, m2, e10, e11]

theorem spec_to_units_le (ms : Nat) : spec_to_units ms ≤ 15 := by
  simp only [spec_to_units]
  omega

/-- Claim C13. For every reachable state and every 32-bit `on_ms` and `off_ms`, an
applied `an30259a_set_led_blink` that programs slope mode (non-zero brightness,
non-zero clamped off-time, check not blocked) writes into the sleep-timing
register of the channel the two nibbles `min(15, ceil(ms / 500))` of the
durations in effect, the override when it is non-zero and the caller's value
otherwise: neither exceeds 15, and `on_ms = 999999` without override gives 15. -/
theorem blink_total_time_units (env : Env) (led on_ms off_ms b : Nat) (s : State)
    (hs : Reachable s) (hr : (check_restrictions env s).1 = true)
    (hon : on_ms < 4294967296) (hoff : off_ms < 4294967296)
    (hb : b % 256 ≠ 0) (hslope : blink_delay_off s off_ms ≠ 0) :
    unpack_lo ((an30259a_set_led_blink env led on_ms off_ms b s).shadow_reg
        (AN30259A_REG_LED1SLP + led)) = spec_to_units (effective_ms s.led_time_on on_ms) ∧
      unpack_hi ((an30259a_set_led_blink env led on_ms off_ms b s).shadow_reg
        (AN30259A_REG_LED1SLP + led)) = spec_to_units (effective_ms s.led_time_off off_ms) ∧
      spec_to_units (effective_ms s.led_time_on on_ms) ≤ 15 ∧
      spec_to_units (effective_ms s.led_time_off off_ms) ≤ 15 ∧
      (s.led_time_on = 0 → on_ms = 999999 →
        unpack_lo ((an30259a_set_led_blink env led on_ms off_ms b s).shadow_reg
          (AN30259A_REG_LED1SLP + led)) = 15) := by
  have hc := reachable_check_allowed hs
  obtain ⟨h1, h2⟩ := reachable_time_bounds hs
  have l1 := spec_to_units_le (effective_ms s.led_time_on on_ms)
  have l2 := spec_to_units_le (effective_ms s.led_time_off off_ms)
  rw [set_led_blink_allowed_slp env led on_ms off_ms b s hc hr h1 h2 hon hoff hb hslope]
  have hu := unpack_pack _ _ (Nat.lt_succ_of_le l2) (Nat.lt_succ_of_le l1)
  refine ⟨hu.2, hu.1, l1, l2, ?_⟩
  intro h0 h9
  rw [hu.2, h0, h9]
  decide

/-- Witness of C13: a red blink with `on_ms = 999999` right after the probe. -/
theorem blink_total_time_units_witness :
    unpack_lo ((an30259a_set_led_blink (env_at 12) LED_R 999999 2000 255 state0).shadow_reg
        (AN30259A_REG_LED1SLP + LED_R)) = 15 ∧
      unpack_hi ((an30259a_set_led_blink (env_at 12) LED_R 999999 2000 255 state0).shadow_reg
        (AN30259A_REG_LED1SLP + LED_R)) = 4 :=
  have h := blink_total_time_units (env_at 12) LED_R 999999 2000 255 state0
    (Reachable.probe (fun _ => 0) none none) (by decide) (by decide) (by decide) (by decide)
    (by decide)
  ⟨h.2.2.2.2 (by decide) rfl, h.2.1.trans (by decide)⟩

/-! ### Custom blink -/

theorem not_blocking_of_rest {s s' : State} (h : s'.rest = s.rest) :
    s'.block_leds_not_blocking = s.block_leds_not_blocking := by
  have e : s'.rest.block_leds_not_blocking = s.rest.block_leds_not_blocking :=
    congrArg State.block_leds_not_blocking h
  exact e

theorem check_restrictions_fst_congr (env : Env) {s s' : State}
    (h : s'.settings = s.settings) :
    (check_restrictions env s').1 = (check_restrictions env s).1 := by
  rw [check_restrictions_fst, check_restrictions_fst, restriction_ret_congr _ h]

theorem set_led_blink_settled (env : Env) (led d1 d2 b : Nat) (s : State)
    (hc : s.block_leds_check_allowed = true) (hnb : s.block_leds_not_blocking = true)
    (hr : (check_restrictions env s).1 = true) :
    an30259a_set_led_blink env led d1 d2 b s = set_led_blink_body led d1 d2 b s := by
  rw [set_led_blink_allowed_body env led d1 d2 b s hc hr,
    check_restrictions_settled env s hr hnb]

theorem blink_body_settled (env : Env) (led d1 d2 b : Nat) (s : State)
    (hc : s.block_leds_check_allowed = true) (hnb : s.block_leds_not_blocking = true)
    (hr : (check_restrictions env s).1 = true) :
    (set_led_blink_body led d1 d2 b s).block_leds_check_allowed = true ∧
      (set_led_blink_body led d1 d2 b s).block_leds_not_blocking = true ∧
      (check_restrictions env (set_led_blink_body led d1 d2 b s)).1 = true ∧
      (set_led_blink_body led d1 d2 b s).settings = s.settings := by
  have h := rest_set_led_blink_body led d1 d2 b s
  exact ⟨(check_allowed_of_rest h).trans hc, (not_blocking_of_rest h).trans hnb,
    (check_restrictions_fst_congr env (settings_of_rest h)).trans hr, settings_of_rest h⟩

theorem start_led_pattern_settled (env : Env) (mode : Int) (s : State)
    (hc : s.block_leds_check_allowed = true) (hr : (check_restrictions env s).1 = true) :
    (an30259a_start_led_pattern env mode s).block_leds_check_allowed = true ∧
      (an30259a_start_led_pattern env mode s).block_leds_not_blocking = true ∧
      (check_restrictions env (an30259a_start_led_pattern env mode s)).1 = true ∧
      (an30259a_start_led_pattern env mode s).settings = s.settings := by
  have hs := settings_start_led_pattern env mode s hc
  refine ⟨check_allowed_start_led_pattern env mode s hc, ?_,
    (check_restrictions_fst_congr env hs).trans hr, hs⟩
  rw [start_led_pattern_of_allowed env mode s hc hr,
    not_blocking_of_rest (rest_start_led_pattern_body env mode _),
    check_restrictions_not_blocking, hr]

theorem blink_body_plain_slope (led d1 d2 b : Nat) (s : State) (hled : led < 3)
    (hb : b % 256 ≠ 0) (hf : s.led_enable_fade ≠ 1)
    (h1 : s.led_time_on = 0) (h2 : s.led_time_off = 0)
    (hd1 : d1 < 4294967296) (hd2 : d2 < 4294967296) (hpos : 0 < d2) :
    (channel_view (set_led_blink_body led d1 d2 b s).shadow_reg led).enable = true ∧
      (channel_view (set_led_blink_body led d1 d2 b s).shadow_reg led).slope = true ∧
      unpack_lo (channel_view (set_led_blink_body led d1 d2 b s).shadow_reg led).slp =
        spec_to_units d1 ∧
      unpack_hi (channel_view (set_led_blink_body led d1 d2 b s).shadow_reg led).slp =
        spec_to_units d2 ∧
      (channel_view (set_led_blink_body led d1 d2 b s).shadow_reg led).cnt1 = 255 ∧
      (channel_view (set_led_blink_body led d1 d2 b s).shadow_reg led).cnt2 = 0 ∧
      (channel_view (set_led_blink_body led d1 d2 b s).shadow_reg led).cnt3 = 0 ∧
      (channel_view (set_led_blink_body led d1 d2 b s).shadow_reg led).cnt4 = 0 := by
  have m1 : d1 % 4294967296 = d1 := Nat.mod_eq_of_lt hd1
  have m2 : d2 % 4294967296 = d2 := Nat.mod_eq_of_lt hd2
  have hoff : blink_delay_off s (d2 % 4294967296) ≠ 0 := by
    rw [m2, blink_delay_off_zero_override s d2 h2]
    simp only [SLPTT_MAX_VALUE]
    split_ifs <;> omega
  have hslp := blink_body_slope_slp led d1 d2 b s hb hoff (by omega) (by omega)
  have e1 : effective_ms s.led_time_on d1 = d1 := by simp [effective_ms, h1]
  have e2 : effective_ms s.led_time_off d2 = d2 := by simp [effective_ms, h2]
  rw [m1, m2, e1, e2] at hslp
  have hu := unpack_pack _ _ (Nat.lt_succ_of_le (spec_to_units_le d2))
    (Nat.lt_succ_of_le (spec_to_units_le d1))
  have hs : (channel_view (set_led_blink_body led d1 d2 b s).shadow_reg led).slp =
      16 * spec_to_units d2 + spec_to_units d1 := hslp
  refine ⟨?_, ?_, ?_, ?_, ?_, ?_, ?_, ?_⟩
  · rw [blink_body_slope_img led d1 d2 b s hb hoff, channel_view_slope_self,
      channel_view_leds_on_self _ _ _ _ _ hled]
  · rw [blink_body_slope_img led d1 d2 b s hb hoff, channel_view_slope_self,
      channel_view_leds_on_self _ _ _ _ _ hled]
  · rw [hs]; exact hu.2
  · rw [hs]; exact hu.1
  · rw [blink_body_slope_img led d1 d2 b s hb hoff, channel_view_slope_self,
      channel_view_leds_on_self _ _ _ _ _ hled]; simp only [if_neg hf]; rfl
  · rw [blink_body_slope_img led d1 d2 b s hb hoff, channel_view_slope_self,
      channel_view_leds_on_self _ _ _ _ _ hled]; rfl
  · rw [blink_body_slope_img led d1 d2 b s hb hoff, channel_view_slope_self,
      channel_view_leds_on_self _ _ _ _ _ hled]; simp only [if_neg hf, Nat.zero_mod, Nat.zero_shiftLeft, Nat.or_self]
  · rw [blink_body_slope_img led d1 d2 b s hb hoff, channel_view_slope_self,
      channel_view_leds_on_self _ _ _ _ _ hled]; simp only [if_neg hf, Nat.zero_mod, Nat.zero_shiftLeft, Nat.or_self]

theorem blink_color_byte_mod (color led : Nat) :
    blink_color_byte color led % 256 = blink_color_byte color led := by
  unfold blink_color_byte
  split_ifs <;> exact Nat.mod_mod _ _

theorem store_led_blink_shadow_reg (env : Env) (color d1 d2 : Nat) (s : State) :
    (store_an30259a_led_blink env color d1 d2 s).shadow_reg =
      (an30259a_set_led_blink env LED_B d1 d2 (blink_color_byte color LED_B)
        (an30259a_set_led_blink env LED_G d1 d2 (blink_color_byte color LED_G)
          (an30259a_set_led_blink env LED_R d1 d2 (blink_color_byte color LED_R)
            (an30259a_start_led_pattern env (LED_OFF : Int) s)))).shadow_reg := by
  unfold store_an30259a_led_blink
  simp only [leds_i2c_write_all_shadow_reg]
  rfl

theorem store_led_blink_bodies (env : Env) (color d1 d2 : Nat) (s : State)
    (hc : s.block_leds_check_allowed = true) (hr : (check_restrictions env s).1 = true) :
    (store_an30259a_led_blink env color d1 d2 s).shadow_reg =
      (set_led_blink_body LED_B d1 d2 (blink_color_byte color LED_B)
        (set_led_blink_body LED_G d1 d2 (blink_color_byte color LED_G)
          (set_led_blink_body LED_R d1 d2 (blink_color_byte color LED_R)
            (an30259a_start_led_pattern env (LED_OFF : Int) s)))).shadow_reg := by
  obtain ⟨a0, b0, c0, _⟩ := start_led_pattern_settled env (LED_OFF : Int) s hc hr
  obtain ⟨a1, b1, c1, _⟩ := blink_body_settled env LED_R d1 d2
    (blink_color_byte color LED_R) _ a0 b0 c0
  obtain ⟨a2, b2, c2, _⟩ := blink_body_settled env LED_G d1 d2
    (blink_color_byte color LED_G) _ a1 b1 c1
  rw [store_led_blink_shadow_reg, set_led_blink_settled env LED_R d1 d2 _ _ a0 b0 c0,
    set_led_blink_settled env LED_G d1 d2 _ _ a1 b1 c1,
    set_led_blink_settled env LED_B d1 d2 _ _ a2 b2 c2]

theorem store_led_blink_view (env : Env) (color d1 d2 c : Nat) (s : State)
    (hc : s.block_leds_check_allowed = true) (hr : (check_restrictions env s).1 = true)
    (hled : c < 3) :
    ∃ t : State, t.settings = s.settings ∧
      channel_view (store_an30259a_led_blink env color d1 d2 s).shadow_reg c =
        channel_view (set_led_blink_body c d1 d2 (blink_color_byte color c) t).shadow_reg c := by
  have h0 := settings_start_led_pattern env (LED_OFF : Int) s hc
  rw [store_led_blink_bodies env color d1 d2 s hc hr]
  have hc3 : c = LED_R ∨ c = LED_G ∨ c = LED_B := by
    simp only [LED_R, LED_G, LED_B]
    omega
  rcases hc3 with h | h | h
  · subst h
    refine ⟨an30259a_start_led_pattern env (LED_OFF : Int) s, h0, ?_⟩
    rw [blink_body_view_other LED_B d1 d2 _ LED_R _ (by decide) (by decide) (by decide),
      blink_body_view_other LED_G d1 d2 _ LED_R _ (by decide) (by decide) (by decide)]
  · subst h
    refine ⟨set_led_blink_body LED_R d1 d2 (blink_color_byte color LED_R)
      (an30259a_start_led_pattern env (LED_OFF : Int) s),
      (settings_of_rest (rest_set_led_blink_body _ _ _ _ _)).trans h0, ?_⟩
    rw [blink_body_view_other LED_B d1 d2 _ LED_G _ (by decide) (by decide) (by decide)]
  · subst h
    exact ⟨set_led_blink_body LED_G d1 d2 (blink_color_byte color LED_G)
      (set_led_blink_body LED_R d1 d2 (blink_color_byte color LED_R)
        (an30259a_start_led_pattern env (LED_OFF : Int) s)),
      (settings_of_rest (rest_set_led_blink_body _ _ _ _ _)).trans
        ((settings_of_rest (rest_set_led_blink_body _ _ _ _ _)).trans h0), rfl⟩

/-- Claim C12. In a reachable state that is not blocked, with fade not enabled and
both time overrides zero, `store_an30259a_led_blink` with 32-bit `on_ms` and
`off_ms`, `off_ms > 0`, leaves every channel whose colour byte is non-zero enabled in
slope mode with the sleep nibbles `to_units(on_ms)` (low) and `to_units(off_ms)`
(high), duty byte `0xFF` (max 15, mid 15), delay and minimum duty 0 and both step
bytes 0, and leaves every channel whose colour byte is zero with its enable bit
clear. The fade-during-charging flag and the intensity play no part. -/
theorem store_led_blink_plain (env : Env) (color on_ms off_ms c : Nat) (s : State)
    (hs : Reachable s) (hr : (check_restrictions env s).1 = true)
    (hf : s.led_enable_fade ≠ 1) (h1 : s.led_time_on = 0) (h2 : s.led_time_off = 0)
    (hon : on_ms < 4294967296) (hoff : off_ms < 4294967296) (hpos : 0 < off_ms)
    (hled : c < 3) :
    (blink_color_byte color c ≠ 0 →
      (channel_view (store_an30259a_led_blink env color on_ms off_ms s).shadow_reg c).enable
          = true ∧
        (channel_view (store_an30259a_led_blink env color on_ms off_ms s).shadow_reg c).slope
          = true ∧
        unpack_lo
          (channel_view (store_an30259a_led_blink env color on_ms off_ms s).shadow_reg c).slp
          = spec_to_units on_ms ∧
        unpack_hi
          (channel_view (store_an30259a_led_blink env color on_ms off_ms s).shadow_reg c).slp
          = spec_to_units off_ms ∧
        (channel_view (store_an30259a_led_blink env color on_ms off_ms s).shadow_reg c).cnt1
          = 255 ∧
        (channel_view (store_an30259a_led_blink env color on_ms off_ms s).shadow_reg c).cnt2
          = 0 ∧
        (channel_view (store_an30259a_led_blink env color on_ms off_ms s).shadow_reg c).cnt3
          = 0 ∧
        (channel_view (store_an30259a_led_blink env color on_ms off_ms s).shadow_reg c).cnt4
          = 0) ∧
      (blink_color_byte color c = 0 →
        (channel_view (store_an30259a_led_blink env color on_ms off_ms s).shadow_reg c).enable
          = false) := by
  obtain ⟨t, ht, hv⟩ := store_led_blink_view env color on_ms off_ms c s
    (reachable_check_allowed hs) hr hled
  obtain ⟨_, _, _, _, _, _, e7, _, _, e10, e11⟩ := settings_fields ht
  rw [hv]
  constructor
  · intro hb
    exact blink_body_plain_slope c on_ms off_ms _ t hled
      (by rw [blink_color_byte_mod]; exact hb) (by rw [e7]; exact hf)
      (by rw [e10]; exact h1) (by rw [e11]; exact h2) hon hoff hpos
  · intro hb
    exact (blink_body_off c on_ms off_ms _ t hled (by rw [blink_color_byte_mod]; exact hb)).1

set_option maxRecDepth 100000 in
/-- Witness of C12: colour `0x00FF0000`, 500 ms on, 2000 ms off, right after the
probe: Red is in slope mode with the nibbles (1, 4), Green and Blue are off. -/
theorem store_led_blink_plain_witness :
    (channel_view (store_an30259a_led_blink (env_at 12) 0x00FF0000 500 2000
        state0).shadow_reg LED_R).enable = true ∧
      (channel_view (store_an30259a_led_blink (env_at 12) 0x00FF0000 500 2000
        state0).shadow_reg LED_R).slope = true ∧
      unpack_lo (channel_view (store_an30259a_led_blink (env_at 12) 0x00FF0000 500 2000
        state0).shadow_reg LED_R).slp = 1 ∧
      unpack_hi (channel_view (store_an30259a_led_blink (env_at 12) 0x00FF0000 500 2000
        state0).shadow_reg LED_R).slp = 4 ∧
      (channel_view (store_an30259a_led_blink (env_at 12) 0x00FF0000 500 2000
        state0).shadow_reg LED_G).enable = false ∧
      (channel_view (store_an30259a_led_blink (env_at 12) 0x00FF0000 500 2000
        state0).shadow_reg LED_B).enable = false :=
  have hR := (store_led_blink_plain (env_at 12) 0x00FF0000 500 2000 LED_R state0
    (Reachable.probe (fun _ => 0) none none) (by decide) (by decide) (by decide) (by decide)
    (by decide) (by decide) (by decide) (by decide)).1 (by decide)
  have hG := (store_led_blink_plain (env_at 12) 0x00FF0000 500 2000 LED_G state0
    (Reachable.probe (fun _ => 0) none none) (by decide) (by decide) (by decide) (by decide)
    (by decide) (by decide) (by decide) (by decide)).2 (by decide)
  have hB := (store_led_blink_plain (env_at 12) 0x00FF0000 500 2000 LED_B state0
    (Reachable.probe (fun _ => 0) none none) (by decide) (by decide) (by decide) (by decide)
    (by decide) (by decide) (by decide) (by decide)).2 (by decide)
  ⟨hR.1, hR.2.1, hR.2.2.1.trans (by decide), hR.2.2.2.1.trans (by decide), hG, hB⟩

/-! ### Time overrides and the choice between solid and slope -/

theorem blink_delay_off_ne_zero (s : State) (d : Nat) (ho : s.led_time_off ≠ 0)
    (h : s.led_enable_fade_charging = 1 ∨ d ≠ 0) : blink_delay_off s d ≠ 0 := by
  simp only [blink_delay_off, SLPTT_MAX_VALUE]
  rcases h with h | h <;> split_ifs <;> omega

theorem blink_delay_off_zero (s : State) (h : s.led_enable_fade_charging ≠ 1) :
    blink_delay_off s 0 = 0 := by
  simp [blink_delay_off, h]

theorem blink_body_slope_bits (led d1 d2 b : Nat) (s : State) (hled : led < 3)
    (hb : b % 256 ≠ 0) (hoff : blink_delay_off s (d2 % 4294967296) ≠ 0) :
    enable_bit (set_led_blink_body led d1 d2 b s).shadow_reg led = true ∧
      slope_bit (set_led_blink_body led d1 d2 b s).shadow_reg led = true := by
  rw [blink_body_slope_img led d1 d2 b s hb hoff, enable_bit_slope_img, slope_bit_slope_img,
    enable_bit_leds_on_img _ led led _ _ _ hled hled,
    slope_bit_leds_on_img _ led led _ _ _ hled hled]
  simp

theorem blink_body_solid_bits (led d1 d2 b : Nat) (s : State) (hled : led < 3)
    (hb : b % 256 ≠ 0) (hoff : blink_delay_off s (d2 % 4294967296) = 0) :
    slope_bit (set_led_blink_body led d1 d2 b s).shadow_reg led = false := by
  have hoff2 : blink_delay_off { s with LED_DYNAMIC_CURRENT := blink_dynamic_current led s }
      (d2 % 4294967296) = LED_OFF := hoff
  unfold set_led_blink_body
  rw [if_neg (by simpa [LED_OFF] using hb)]
  unfold blink_apply
  rw [if_pos hoff2]
  split_ifs <;>
    simp only [leds_on, slope_bit_leds_on_img _ led led _ _ _ hled hled, if_true]

/-- Claim C19, as the code has it. In an applied `an30259a_set_led_blink` with
non-zero brightness on a reachable state whose off-time override is non-zero: when
fade during charging is on (flag 1) or the caller's `off_ms` is non-zero, the
channel is enabled in slope mode, the off nibble is that of the override and the on
nibble that of the on-time in effect; when the flag is not 1 and the caller passes
`off_ms = 0`, the choice is made on the caller's value and the channel is left
solid, with its slope bit clear. -/
theorem blink_override_decision (env : Env) (led on_ms off_ms b : Nat) (s : State)
    (hs : Reachable s) (hr : (check_restrictions env s).1 = true) (hled : led < 3)
    (hon : on_ms < 4294967296) (hoff : off_ms < 4294967296)
    (hb : b % 256 ≠ 0) (ho : s.led_time_off ≠ 0) :
    ((s.led_enable_fade_charging = 1 ∨ off_ms ≠ 0) →
      enable_bit (an30259a_set_led_blink env led on_ms off_ms b s).shadow_reg led = true ∧
      slope_bit (an30259a_set_led_blink env led on_ms off_ms b s).shadow_reg led = true ∧
      unpack_hi ((an30259a_set_led_blink env led on_ms off_ms b s).shadow_reg
        (AN30259A_REG_LED1SLP + led)) = spec_to_units s.led_time_off ∧
      unpack_lo ((an30259a_set_led_blink env led on_ms off_ms b s).shadow_reg
        (AN30259A_REG_LED1SLP + led)) = spec_to_units (effective_ms s.led_time_on on_ms)) ∧
    (s.led_enable_fade_charging ≠ 1 → off_ms = 0 →
      slope_bit (an30259a_set_led_blink env led on_ms off_ms b s).shadow_reg led = false) := by
  have hc := reachable_check_allowed hs
  obtain ⟨h1, h2⟩ := reachable_time_bounds hs
  have hset := settings_check_restrictions env s
  have m2 : off_ms % 4294967296 = off_ms := Nat.mod_eq_of_lt hoff
  constructor
  · intro h
    have hne := blink_delay_off_ne_zero s off_ms ho h
    have hslp := set_led_blink_allowed_slp env led on_ms off_ms b s hc hr h1 h2 hon hoff hb hne
    have e : effective_ms s.led_time_off off_ms = s.led_time_off := by
      simp [effective_ms, ho]
    have hu := unpack_pack _ _
      (Nat.lt_succ_of_le (spec_to_units_le (effective_ms s.led_time_off off_ms)))
      (Nat.lt_succ_of_le (spec_to_units_le (effective_ms s.led_time_on on_ms)))
    rw [hslp, hu.1, hu.2, e, set_led_blink_allowed_body env led on_ms off_ms b s hc hr]
    have hbits := blink_body_slope_bits led on_ms off_ms b (check_restrictions env s).2 hled hb
      (by rw [m2, blink_delay_off_congr hset]; exact hne)
    exact ⟨hbits.1, hbits.2, rfl, rfl⟩
  · intro hfc h0
    rw [set_led_blink_allowed_body env led on_ms off_ms b s hc hr]
    exact blink_body_solid_bits led on_ms off_ms b _ hled hb
      (by rw [h0, blink_delay_off_congr hset]; exact blink_delay_off_zero s hfc)

set_option maxRecDepth 100000 in
/-- Witness of C19: with the off-time override at 2000 ms and fade during charging
off, a red blink of 500 ms on and 500 ms off is in slope mode with the off nibble 4;
the same call with `off_ms = 0` leaves the slope bit clear. -/
theorem blink_override_decision_witness :
    (slope_bit (an30259a_set_led_blink (env_at 12) LED_R 500 500 255
        time_off_set).shadow_reg LED_R = true ∧
      unpack_hi ((an30259a_set_led_blink (env_at 12) LED_R 500 500 255
        time_off_set).shadow_reg (AN30259A_REG_LED1SLP + LED_R)) = 4) ∧
    slope_bit (an30259a_set_led_blink (env_at 12) LED_R 500 0 255
        time_off_set).shadow_reg LED_R = false :=
  have hst : Reachable time_off_set :=
    Reachable.step (env_at 12) (Command.led_time_off 2000) state0
      (Reachable.probe (fun _ => 0) none none)
  have h1 := (blink_override_decision (env_at 12) LED_R 500 500 255 time_off_set hst
    (by decide) (by decide) (by decide) (by decide) (by decide) (by decide)).1
    (Or.inr (by decide))
  have h2 := (blink_override_decision (env_at 12) LED_R 500 0 255 time_off_set hst
    (by decide) (by decide) (by decide) (by decide) (by decide) (by decide)).2
    (by decide) rfl
  ⟨⟨h1.2.1, h1.2.2.1.trans (by decide)⟩, h2⟩

set_option maxRecDepth 100000 in
/-- Counterexample to C19: the off-time override is 2000 ms, the blink is applied
with non-zero brightness and `off_ms = 0`, and the channel is lit solid: the slope
bit is clear and the sleep-timing register still holds 0. -/
theorem blink_off_override_not_applied :
    time_off_set.led_time_off = 2000 ∧
      (check_restrictions (env_at 12) time_off_set).1 = true ∧
      enable_bit (an30259a_set_led_blink (env_at 12) LED_R 500 0 255
        time_off_set).shadow_reg LED_R = true ∧
      slope_bit (an30259a_set_led_blink (env_at 12) LED_R 500 0 255
        time_off_set).shadow_reg LED_R = false ∧
      (an30259a_set_led_blink (env_at 12) LED_R 500 0 255
        time_off_set).shadow_reg (AN30259A_REG_LED1SLP + LED_R) = 0 := by
  decide

/-! ### Setters of the step bit-shift and of the intensity -/

/-- Claim C22, as amended. `store_an30259a_led_step_bit_shift` stores every value
from 1 to 15, the shifts 8 to 15 included, and leaves the whole state unchanged for
0 and for every value above 15. -/
theorem step_bit_shift_accepts_1_to_15 (val : Nat) (s : State) :
    (1 ≤ val → val ≤ 15 →
      store_an30259a_led_step_bit_shift val s = { s with led_step_bit_shift := val }) ∧
    (val = 0 ∨ 15 < val → store_an30259a_led_step_bit_shift val s = s) := by
  unfold store_an30259a_led_step_bit_shift
  constructor
  · intro h1 h2
    rw [if_pos ⟨h1, h2⟩, Nat.mod_eq_of_lt (by omega)]
  · intro h
    rw [if_neg (by omega)]

/-- Witness of C22 (amended): the shift 8 is stored, the shift 16 is not. -/
theorem step_bit_shift_accepts_1_to_15_witness :
    store_an30259a_led_step_bit_shift 8 state0 = { state0 with led_step_bit_shift := 8 } ∧
      store_an30259a_led_step_bit_shift 16 state0 = state0 :=
  ⟨(step_bit_shift_accepts_1_to_15 8 state0).1 (by decide) (by decide),
    (step_bit_shift_accepts_1_to_15 16 state0).2 (Or.inr (by decide))⟩

set_option maxRecDepth 100000 in
/-- Counterexample to C22 as stated: after the probe the shift is 4; the setter
called with 8 stores 8. With fade enabled and every step duration at 1, a red blink
then packs `1 << 8 | 1` into Red's `CNT3`, which holds `0x01`: the second step
duration is shifted out of the byte. With the shift at 4 the byte is `0x11`. -/
theorem step_bit_shift_8_accepted :
    state0.led_step_bit_shift = 4 ∧
      (store_an30259a_led_step_bit_shift 8 state0).led_step_bit_shift = 8 ∧
      (store_an30259a_led_blink (env_at 12) 0x00FF0000 500 2000 fade_on_shift8).shadow_reg
        (AN30259A_REG_LED1CNT3 + LED_R * 4) = 0x01 ∧
      (store_an30259a_led_blink (env_at 12) 0x00FF0000 500 2000 fade_on).shadow_reg
        (AN30259A_REG_LED1CNT3 + LED_R * 4) = 0x11 := by
  decide

/-- Claim C24, as amended. `store_an30259a_led_intensity` stores every value from 1
to 255 and leaves the whole state unchanged for 0, for every negative value and for
every value above 255. -/
theorem intensity_accepts_1_to_255 (v : Int) (s : State) :
    (1 ≤ v → v ≤ 255 →
      store_an30259a_led_intensity v s = { s with led_intensity := v.toNat }) ∧
    (v ≤ 0 ∨ 255 < v → store_an30259a_led_intensity v s = s) := by
  unfold store_an30259a_led_intensity
  constructor
  · intro h1 h2
    rw [if_pos ⟨by omega, h2⟩, Nat.mod_eq_of_lt (by omega)]
  · intro h
    rw [if_neg (by omega)]

/-- Witness of C24 (amended): 100 is stored after the probe; 0 and 256 leave the
intensity 100 in place. -/
theorem intensity_accepts_1_to_255_witness :
    store_an30259a_led_intensity 100 state0 = { state0 with led_intensity := 100 } ∧
      store_an30259a_led_intensity 0 intensity_100 = intensity_100 ∧
      store_an30259a_led_intensity 256 intensity_100 = intensity_100 :=
  ⟨(intensity_accepts_1_to_255 100 state0).1 (by decide) (by decide),
    (intensity_accepts_1_to_255 0 intensity_100).2 (Or.inl (by decide)),
    (intensity_accepts_1_to_255 256 intensity_100).2 (Or.inr (by decide))⟩

/-- Counterexample to C24 as stated: with the intensity at 100, the setter called
with 0 leaves the intensity at 100. -/
theorem intensity_zero_rejected :
    intensity_100.led_intensity = 100 ∧
      (store_an30259a_led_intensity 0 intensity_100).led_intensity = 100 := by
  decide

/-! ### The full commit as a trace of transfers -/

theorem config_block_length (img : Image) : (config_block img).length = 19 := by
  simp [config_block, AN30259A_REG_MAX, AN30259A_REG_SEL]

theorem config_block_getD (img : Image) (i : Nat) (hi : i < 19) :
    (config_block img).getD i 0 = img (2 + i) := by
  simp [config_block, AN30259A_REG_MAX, AN30259A_REG_SEL, List.getD_eq_getElem?_getD, hi]

/-- Claim C25. `leds_i2c_write_all` never changes the register image. It appends to
the log of transfers one block write with command `0x82` (register `0x02` with the
auto-increment flag) carrying the 19 bytes `shadow_reg[0x02 .. 0x14]`; when that
transfer fails it appends nothing more and returns its code; when it succeeds it
appends one byte write of `shadow_reg[0x01]` to register `0x01` and returns the code
of that transfer when it failed and 0 otherwise. The result is 0 exactly when both
transfers succeed. -/
theorem leds_i2c_write_all_trace (env : Env) (s : State) :
    (leds_i2c_write_all env s).2.shadow_reg = s.shadow_reg ∧
    (config_block s.shadow_reg).length = 19 ∧
    (∀ i, i < 19 → (config_block s.shadow_reg).getD i 0 = s.shadow_reg (0x02 + i)) ∧
    (env.xfer s.bus (BusOp.block 0x82 (config_block s.shadow_reg)) < 0 →
      (leds_i2c_write_all env s).2.bus =
          s.bus ++ [BusOp.block 0x82 (config_block s.shadow_reg)] ∧
        (leds_i2c_write_all env s).1 =
          env.xfer s.bus (BusOp.block 0x82 (config_block s.shadow_reg))) ∧
    (0 ≤ env.xfer s.bus (BusOp.block 0x82 (config_block s.shadow_reg)) →
      (leds_i2c_write_all env s).2.bus =
          s.bus ++ [BusOp.block 0x82 (config_block s.shadow_reg),
            BusOp.byte 0x01 (s.shadow_reg 0x01)] ∧
        (leds_i2c_write_all env s).1 =
          (if env.xfer (s.bus ++ [BusOp.block 0x82 (config_block s.shadow_reg)])
              (BusOp.byte 0x01 (s.shadow_reg 0x01)) < 0 then
            env.xfer (s.bus ++ [BusOp.block 0x82 (config_block s.shadow_reg)])
              (BusOp.byte 0x01 (s.shadow_reg 0x01))
          else 0)) ∧
    ((leds_i2c_write_all env s).1 = 0 ↔
      0 ≤ env.xfer s.bus (BusOp.block 0x82 (config_block s.shadow_reg)) ∧
        0 ≤ env.xfer (s.bus ++ [BusOp.block 0x82 (config_block s.shadow_reg)])
          (BusOp.byte 0x01 (s.shadow_reg 0x01))) := by
  have hcmd : AN30259A_REG_SEL ||| AN30259A_CTN_RW_FLG = 0x82 := by decide
  refine ⟨leds_i2c_write_all_shadow_reg env s, config_block_length _,
    fun i hi => config_block_getD _ i hi, ?_, ?_, ?_⟩
  · intro h
    simp only [leds_i2c_write_all, hcmd, h, if_true, and_self]
  · intro h
    have h' : ¬ env.xfer s.bus (BusOp.block 0x82 (config_block s.shadow_reg)) < 0 := by omega
    simp only [leds_i2c_write_all, hcmd, h', if_false, AN30259A_REG_LEDON, List.append_assoc,
      List.singleton_append]
    split_ifs <;> exact ⟨rfl, rfl⟩
  · simp only [leds_i2c_write_all, hcmd, AN30259A_REG_LEDON]
    split_ifs with h1 h2
    · constructor
      · intro h; simp only at h; omega
      · intro h; omega
    · constructor
      · intro h; simp only at h; omega
      · intro h; omega
    · constructor
      · intro _; omega
      · intro _; rfl

/-- Witness of C25: the commit after the probe, over a transport that succeeds and
over one that fails with `-5`. -/
theorem leds_i2c_write_all_trace_witness :
    ((leds_i2c_write_all (env_at 12) state0).2.bus =
        state0.bus ++ [BusOp.block 0x82 (config_block state0.shadow_reg),
          BusOp.byte 0x01 (state0.shadow_reg 0x01)] ∧
      (leds_i2c_write_all (env_at 12) state0).1 = 0) ∧
    ((leds_i2c_write_all env_fail state0).2.bus =
        state0.bus ++ [BusOp.block 0x82 (config_block state0.shadow_reg)] ∧
      (leds_i2c_write_all env_fail state0).1 = -5) :=
  ⟨⟨((leds_i2c_write_all_trace (env_at 12) state0).2.2.2.2.1 (by decide)).1,
      (leds_i2c_write_all_trace (env_at 12) state0).2.2.2.2.2.2 ⟨by decide, by decide⟩⟩,
    (leds_i2c_write_all_trace env_fail state0).2.2.2.1 (by decide)⟩

/-! ### Window setters and the timer flag -/

theorem window_fields {s s' : State} (h : s'.settings = s.settings) :
    s'.is_work_active = s.is_work_active ∧
      s'.led_block_leds_time_start = s.led_block_leds_time_start ∧
      s'.led_block_leds_time_stop = s.led_block_leds_time_stop := by
  have h1 : s'.settings.is_work_active = s.settings.is_work_active :=
    congrArg State.is_work_active h
  have h2 : s'.settings.led_block_leds_time_start = s.settings.led_block_leds_time_start :=
    congrArg State.led_block_leds_time_start h
  have h3 : s'.settings.led_block_leds_time_stop = s.settings.led_block_leds_time_stop :=
    congrArg State.led_block_leds_time_stop h
  exact ⟨h1, h2, h3⟩

theorem work_active_of_settings {s s' : State} (h : s'.settings = s.settings)
    (hb : s.is_work_active = true ↔
      (s.led_block_leds_time_start ≠ -1 ∧ s.led_block_leds_time_stop ≠ -1)) :
    s'.is_work_active = true ↔
      (s'.led_block_leds_time_start ≠ -1 ∧ s'.led_block_leds_time_stop ≠ -1) := by
  obtain ⟨e1, e2, e3⟩ := window_fields h
  rw [e1, e2, e3]
  exact hb

theorem update_work_active_iff (s : State) :
    (update_work_active s).is_work_active = true ↔
      ((update_work_active s).led_block_leds_time_start ≠ -1 ∧
        (update_work_active s).led_block_leds_time_stop ≠ -1) := by
  unfold update_work_active
  split_ifs with h1 h2
  · simp only [true_iff]
    exact h1.2
  · simp only [Bool.false_eq_true, false_iff]
    rcases h2 with h2 | h2 <;> simp [h2]
  · cases ha : s.is_work_active <;> simp_all

theorem work_active_run (env : Env) (c : Command) (s : State)
    (hc : s.block_leds_check_allowed = true)
    (hb : s.is_work_active = true ↔
      (s.led_block_leds_time_start ≠ -1 ∧ s.led_block_leds_time_stop ≠ -1)) :
    (c.run env s).is_work_active = true ↔
      ((c.run env s).led_block_leds_time_start ≠ -1 ∧
        (c.run env s).led_block_leds_time_stop ≠ -1) := by
  cases c <;> simp only [Command.run]
  case led_r b => exact work_active_of_settings (settings_of_rest (rest_store_led env _ b s)) hb
  case led_g b => exact work_active_of_settings (settings_of_rest (rest_store_led env _ b s)) hb
  case led_b b => exact work_active_of_settings (settings_of_rest (rest_store_led env _ b s)) hb
  case led_pattern mode =>
    exact work_active_of_settings (settings_start_led_pattern env mode s hc) hb
  case led_blink b d1 d2 =>
    exact work_active_of_settings (settings_store_led_blink env b d1 d2 s hc) hb
  case led_fade v => exact hb
  case led_fade_charging v => exact hb
  case led_intensity v => unfold store_an30259a_led_intensity; split_ifs <;> exact hb
  case led_time_on v => unfold store_an30259a_led_time_on; split_ifs <;> exact hb
  case led_time_off v => unfold store_an30259a_led_time_off; split_ifs <;> exact hb
  case led_step_speed1 v => unfold store_an30259a_led_step_speed1; split_ifs <;> exact hb
  case led_step_speed2 v => unfold store_an30259a_led_step_speed2; split_ifs <;> exact hb
  case led_step_speed3 v => unfold store_an30259a_led_step_speed3; split_ifs <;> exact hb
  case led_step_speed4 v => unfold store_an30259a_led_step_speed4; split_ifs <;> exact hb
  case led_step_bit_shift v =>
    unfold store_an30259a_led_step_bit_shift; split_ifs <;> exact hb
  case led_block_leds_time_start v => exact update_work_active_iff _
  case led_block_leds_time_stop v => exact update_work_active_iff _
  case led_always_disable v =>
    unfold store_an30259a_led_always_disable; split_ifs <;> exact hb
  case led_debug_enable v =>
    unfold store_an30259a_led_debug_enable; split_ifs <;> exact hb
  case led_br_lev v => exact hb
  case led_lowpower v => unfold store_an30259a_led_lowpower; split_ifs <;> exact hb
  case set_brightness ch b => exact hb
  case brightness_work ch =>
    exact work_active_of_settings (settings_of_rest (rest_brightness_work env ch.val s)) hb
  case timer => exact work_active_of_settings (settings_check_restrictions env s) hb

theorem reachable_work_active {s : State} (h : Reachable s) :
    s.is_work_active = true ↔
      (s.led_block_leds_time_start ≠ -1 ∧ s.led_block_leds_time_stop ≠ -1) := by
  induction h with
  | probe regs d l =>
    show false = true ↔ ((-1 : Int) ≠ -1 ∧ (-1 : Int) ≠ -1)
    simp
  | step env c s hs ih => exact work_active_run env c s (reachable_check_allowed hs) ih

theorem update_work_active_fixed (s : State)
    (hb : s.is_work_active = true ↔
      (s.led_block_leds_time_start ≠ -1 ∧ s.led_block_leds_time_stop ≠ -1)) :
    update_work_active s = s := by
  unfold update_work_active
  split_ifs with h1 h2
  · have := hb.2 h1.2
    simp_all
  · have hf : s.is_work_active = false := by
      cases ha : s.is_work_active
      · rfl
      · have := hb.1 ha
        rcases h2 with h2 | h2
        · exact absurd h2 this.1
        · exact absurd h2 this.2
    cases s
    simp_all
  · rfl

theorem to_int_hour (h : Int) (h1 : -1 ≤ h) (h2 : h ≤ 23) :
    to_int (h % 4294967296).toNat = h ∧
      ((h % 4294967296).toNat = UINT_M1 ∨ (h % 4294967296).toNat ≤ 23) := by
  have hc : h = -1 ∨ 0 ≤ h := by omega
  rcases hc with hc | hc
  · subst hc
    decide
  · have e : h % 4294967296 = h := Int.emod_eq_of_lt hc (by omega)
    rw [e]
    have e2 : (h.toNat : Int) = h := Int.toNat_of_nonneg hc
    have e3 : h.toNat ≤ 23 := by omega
    refine ⟨?_, Or.inr e3⟩
    unfold to_int
    rw [Nat.mod_eq_of_lt (by omega), if_pos (by omega)]
    exact e2

theorem hour_rejected (h : Int) (hlo : -2147483648 ≤ h) (hhi : h < 2147483648)
    (hout : h < -1 ∨ 23 < h) :
    ¬ ((h % 4294967296).toNat = UINT_M1 ∨ (h % 4294967296).toNat ≤ 23) := by
  have hnn : 0 ≤ h % 4294967296 := Int.emod_nonneg _ (by norm_num)
  have e2 : ((h % 4294967296).toNat : Int) = h % 4294967296 := Int.toNat_of_nonneg hnn
  simp only [UINT_M1]
  omega

/-- Claim C23. In every reachable state, for a parsed hour `h` (an `int` read into
the `unsigned int` of the setter): when `h` lies outside `[-1, 23]`, the setter of
the start bound and the setter of the stop bound leave the whole state unchanged,
the window, the saved requests, the register image and the timer flag included;
when `h` lies in `[-1, 23]`, the setter stores exactly `h` in its bound and leaves
the other bound and the register image unchanged. -/
theorem window_setters_in_range (s : State) (hs : Reachable s) (h : Int)
    (hlo : -2147483648 ≤ h) (hhi : h < 2147483648) :
    ((h < -1 ∨ 23 < h) →
      store_an30259a_led_block_leds_time_start (h % 4294967296).toNat s = s ∧
        store_an30259a_led_block_leds_time_stop (h % 4294967296).toNat s = s) ∧
    ((-1 ≤ h ∧ h ≤ 23) →
      (store_an30259a_led_block_leds_time_start
          (h % 4294967296).toNat s).led_block_leds_time_start = h ∧
        (store_an30259a_led_block_leds_time_start
          (h % 4294967296).toNat s).led_block_leds_time_stop = s.led_block_leds_time_stop ∧
        (store_an30259a_led_block_leds_time_start (h % 4294967296).toNat s).shadow_reg =
          s.shadow_reg ∧
        (store_an30259a_led_block_leds_time_stop
          (h % 4294967296).toNat s).led_block_leds_time_stop = h ∧
        (store_an30259a_led_block_leds_time_stop
          (h % 4294967296).toNat s).led_block_leds_time_start = s.led_block_leds_time_start ∧
        (store_an30259a_led_block_leds_time_stop (h % 4294967296).toNat s).shadow_reg =
          s.shadow_reg) := by
  have hinv := reachable_work_active hs
  constructor
  · intro hout
    have hrej := hour_rejected h hlo hhi hout
    unfold store_an30259a_led_block_leds_time_start store_an30259a_led_block_leds_time_stop
    simp only [if_neg hrej]
    exact ⟨update_work_active_fixed s hinv, update_work_active_fixed s hinv⟩
  · intro hin
    obtain ⟨e, hacc⟩ := to_int_hour h hin.1 hin.2
    unfold store_an30259a_led_block_leds_time_start store_an30259a_led_block_leds_time_stop
    simp only [if_pos hacc, e]
    unfold update_work_active
    refine ⟨?_, ?_, ?_, ?_, ?_, ?_⟩ <;> split_ifs <;> rfl

/-- Witness of C23: after the probe, the hour 24 and the hour -2 leave the state as
it is; the hour 22 is stored in the start bound. -/
theorem window_setters_in_range_witness :
    (store_an30259a_led_block_leds_time_start ((24 : Int) % 4294967296).toNat state0
        = state0 ∧
      store_an30259a_led_block_leds_time_stop ((-2 : Int) % 4294967296).toNat state0
        = state0) ∧
    (store_an30259a_led_block_leds_time_start
      ((22 : Int) % 4294967296).toNat state0).led_block_leds_time_start = 22 :=
  ⟨⟨((window_setters_in_range state0 (Reachable.probe (fun _ => 0) none none) 24
        (by decide) (by decide)).1 (Or.inr (by decide))).1,
      ((window_setters_in_range state0 (Reachable.probe (fun _ => 0) none none) (-2)
        (by decide) (by decide)).1 (Or.inl (by decide))).2⟩,
    ((window_setters_in_range state0 (Reachable.probe (fun _ => 0) none none) 22
        (by decide) (by decide)).2 ⟨by decide, by decide⟩).1⟩

/-! ### Intensity in the reachable states -/

theorem intensity_run (env : Env) (c : Command) (s : State)
    (hc : s.block_leds_check_allowed = true) (hb : s.led_intensity < 256) :
    (c.run env s).led_intensity < 256 := by
  have key : ∀ t : State, t.settings = s.settings → t.led_intensity < 256 := by
    intro t ht
    obtain ⟨_, _, _, _, _, _, _, _, e9, _, _⟩ := settings_fields ht
    rw [e9]
    exact hb
  cases c <;> simp only [Command.run]
  case led_r b => exact key _ (settings_of_rest (rest_store_led env _ b s))
  case led_g b => exact key _ (settings_of_rest (rest_store_led env _ b s))
  case led_b b => exact key _ (settings_of_rest (rest_store_led env _ b s))
  case led_pattern mode => exact key _ (settings_start_led_pattern env mode s hc)
  case led_blink b d1 d2 => exact key _ (settings_store_led_blink env b d1 d2 s hc)
  case led_fade v => exact hb
  case led_fade_charging v => exact hb
  case led_intensity v =>
    unfold store_an30259a_led_intensity
    split_ifs
    · exact Nat.mod_lt _ (by norm_num)
    · exact hb
  case led_time_on v => unfold store_an30259a_led_time_on; split_ifs <;> exact hb
  case led_time_off v => unfold store_an30259a_led_time_off; split_ifs <;> exact hb
  case led_step_speed1 v => unfold store_an30259a_led_step_speed1; split_ifs <;> exact hb
  case led_step_speed2 v => unfold store_an30259a_led_step_speed2; split_ifs <;> exact hb
  case led_step_speed3 v => unfold store_an30259a_led_step_speed3; split_ifs <;> exact hb
  case led_step_speed4 v => unfold store_an30259a_led_step_speed4; split_ifs <;> exact hb
  case led_step_bit_shift v =>
    unfold store_an30259a_led_step_bit_shift; split_ifs <;> exact hb
  case led_block_leds_time_start v =>
    unfold store_an30259a_led_block_leds_time_start update_work_active
    simp only
    split_ifs <;> exact hb
  case led_block_leds_time_stop v =>
    unfold store_an30259a_led_block_leds_time_stop update_work_active
    simp only
    split_ifs <;> exact hb
  case led_always_disable v =>
    unfold store_an30259a_led_always_disable; split_ifs <;> exact hb
  case led_debug_enable v =>
    unfold store_an30259a_led_debug_enable; split_ifs <;> exact hb
  case led_br_lev v => exact hb
  case led_lowpower v => unfold store_an30259a_led_lowpower; split_ifs <;> exact hb
  case set_brightness ch b => exact hb
  case brightness_work ch =>
    exact key _ (settings_of_rest (rest_brightness_work env ch.val s))
  case timer => exact key _ (settings_check_restrictions env s)

theorem reachable_intensity_lt {s : State} (h : Reachable s) : s.led_intensity < 256 := by
  induction h with
  | probe regs d l => exact (by decide : (0 : Nat) < 256)
  | step env c s hs ih => exact intensity_run env c s (reachable_check_allowed hs) ih

/-! ### Current written by a blink -/

theorem blink_brightness_lt (b : Nat) (s : State) (hb : b < 256) :
    blink_brightness b s < 256 := by
  simp only [blink_brightness, LED_MAX_CURRENT]
  split_ifs <;> omega

theorem blink_body_solid_img (led d1 d2 b : Nat) (s : State)
    (hb : b % 256 ≠ 0) (hoff : blink_delay_off s (d2 % 4294967296) = 0) :
    (set_led_blink_body led d1 d2 b s).shadow_reg =
      if blink_brightness (b % 256)
          { s with LED_DYNAMIC_CURRENT := blink_dynamic_current led s } = 0 then
        leds_on_img (leds_on_img s.shadow_reg led true false 0) led false false 0
      else
        leds_on_img s.shadow_reg led true false
          (blink_brightness (b % 256)
            { s with LED_DYNAMIC_CURRENT := blink_dynamic_current led s }) := by
  have hoff2 : blink_delay_off { s with LED_DYNAMIC_CURRENT := blink_dynamic_current led s }
      (d2 % 4294967296) = LED_OFF := hoff
  unfold set_led_blink_body
  rw [if_neg (by simpa [LED_OFF] using hb)]
  unfold blink_apply
  rw [if_pos hoff2]
  simp only [LED_OFF]
  split_ifs with h
  · simp only [leds_on, h]
  · rfl

theorem blink_body_cc (led d1 d2 b : Nat) (s : State) (hled : led < 3) (hb : b % 256 ≠ 0) :
    current_control (set_led_blink_body led d1 d2 b s).shadow_reg led =
      blink_brightness (b % 256)
        { s with LED_DYNAMIC_CURRENT := blink_dynamic_current led s } := by
  have hlt := blink_brightness_lt (b % 256)
    { s with LED_DYNAMIC_CURRENT := blink_dynamic_current led s } (Nat.mod_lt _ (by norm_num))
  by_cases hoff : blink_delay_off s (d2 % 4294967296) = 0
  · rw [blink_body_solid_img led d1 d2 b s hb hoff]
    split_ifs with h
    · have h3 := congrArg ChannelView.cc
        (channel_view_leds_on_self (leds_on_img s.shadow_reg led true false 0) led
          false false 0 hled)
      simp only [channel_view] at h3
      simp only [current_control, h3, h]
    · have h3 := congrArg ChannelView.cc
        (channel_view_leds_on_self s.shadow_reg led true false
          (blink_brightness (b % 256)
            { s with LED_DYNAMIC_CURRENT := blink_dynamic_current led s }) hled)
      simp only [channel_view] at h3
      simp only [current_control, h3]
      exact Nat.mod_eq_of_lt hlt
  · rw [blink_body_slope_img led d1 d2 b s hb hoff]
    have h3 := congrArg ChannelView.cc
      (channel_view_slope_self s.led_step_bit_shift
        (leds_on_img s.shadow_reg led true true
          (blink_brightness (b % 256)
            { s with LED_DYNAMIC_CURRENT := blink_dynamic_current led s }))
        led 0 (if s.led_enable_fade = 1 then 30 else 15) 15 0
        (to_units (if s.led_time_on ≠ 0 then s.led_time_on
          else blink_delay_on s (d1 % 4294967296)))
        (to_units (if s.led_time_off ≠ 0 then s.led_time_off
          else blink_delay_off s (d2 % 4294967296)))
        (if s.led_enable_fade = 1 then s.led_step_speed1 else 0)
        (if s.led_enable_fade = 1 then s.led_step_speed2 else 0)
        (if s.led_enable_fade = 1 then s.led_step_speed3 else 0)
        (if s.led_enable_fade = 1 then s.led_step_speed4 else 0))
    have h4 := congrArg ChannelView.cc
      (channel_view_leds_on_self s.shadow_reg led true true
        (blink_brightness (b % 256)
          { s with LED_DYNAMIC_CURRENT := blink_dynamic_current led s }) hled)
    simp only [channel_view] at h3 h4
    simp only [current_control, h3, h4]
    exact Nat.mod_eq_of_lt hlt

theorem blink_dynamic_current_calibrated (led : Nat) (s : State) (hled : led < 3) :
    blink_dynamic_current led s = calibrated_current s led % 256 := by
  have hc3 : led = LED_R ∨ led = LED_G ∨ led = LED_B := by
    simp only [LED_R, LED_G, LED_B]
    omega
  rcases hc3 with h | h | h <;> subst h <;> rfl

theorem scaled_le (b m : Nat) (hm : m ≤ 255) : b * m / 255 ≤ b := by
  apply Nat.div_le_of_le_mul
  rw [Nat.mul_comm 255 b]
  exact Nat.mul_le_mul_left b hm

theorem blink_brightness_scaled (led b : Nat) (s : State) (hled : led < 3)
    (hb : b ≤ 255) (hi : s.led_intensity < 256) :
    blink_brightness b { s with LED_DYNAMIC_CURRENT := blink_dynamic_current led s } =
      b * spec_blink_multiplier s led / 255 ∧
    b * spec_blink_multiplier s led / 255 ≤ b := by
  have hm : spec_blink_multiplier s led ≤ 255 := by
    unfold spec_blink_multiplier
    split_ifs <;> omega
  have hle := scaled_le b _ hm
  refine ⟨?_, hle⟩
  have hcal := blink_dynamic_current_calibrated led s hled
  have hclamp : (if b > 255 then 255 else b) = b := if_neg (by omega)
  have hmod : b * spec_blink_multiplier s led / 255 % 256 =
      b * spec_blink_multiplier s led / 255 := Nat.mod_eq_of_lt (by omega)
  simp only [blink_brightness, LED_MAX_CURRENT, hclamp, hcal]
  by_cases h : s.led_intensity = 0 ∨ s.led_intensity = 40
  · rw [if_pos h]
    have e : spec_blink_multiplier s led = calibrated_current s led % 256 := by
      unfold spec_blink_multiplier
      rw [if_pos h]
    rw [← e]
    exact hmod
  · rw [if_neg h, if_pos (by omega)]
    have e : spec_blink_multiplier s led = s.led_intensity := by
      unfold spec_blink_multiplier
      rw [if_neg h]
    rw [← e]
    exact hmod

theorem spec_blink_multiplier_congr {s s' : State} (h : s'.settings = s.settings)
    (led : Nat) : spec_blink_multiplier s' led = spec_blink_multiplier s led := by
  obtain ⟨_, e2, e3, e4, _, _, _, _, e9, _, _⟩ := settings_fields h
  simp only [spec_blink_multiplier, calibrated_current, e2, e3, e4, e9]

/-- Claim C21. For every reachable state that is not blocked, every channel and
every brightness `b` from 1 to 255, the current-control register of the channel
after `an30259a_set_led_blink` holds `floor(b * m / 255)`, where `m` is the
calibrated current of the channel (as the byte the code keeps of it) when the
intensity is 0 or 40 and the intensity otherwise; the value is at most 255 and at
most `b`. -/
theorem blink_current_scaled (env : Env) (led on_ms off_ms b : Nat) (s : State)
    (hs : Reachable s) (hr : (check_restrictions env s).1 = true) (hled : led < 3)
    (hb1 : 1 ≤ b) (hb2 : b ≤ 255) :
    current_control (an30259a_set_led_blink env led on_ms off_ms b s).shadow_reg led =
        b * spec_blink_multiplier s led / 255 ∧
      b * spec_blink_multiplier s led / 255 ≤ 255 ∧
      b * spec_blink_multiplier s led / 255 ≤ b := by
  have hc := reachable_check_allowed hs
  have hset := settings_check_restrictions env s
  obtain ⟨_, _, _, _, _, _, _, _, e9, _, _⟩ := settings_fields hset
  have hmod : b % 256 = b := Nat.mod_eq_of_lt (by omega)
  have hsc := blink_brightness_scaled led b (check_restrictions env s).2 hled hb2
    (by rw [e9]; exact reachable_intensity_lt hs)
  rw [spec_blink_multiplier_congr hset] at hsc
  rw [set_led_blink_allowed_body env led on_ms off_ms b s hc hr,
    blink_body_cc led on_ms off_ms b _ hled (by omega), hmod]
  exact ⟨hsc.1, by omega, hsc.2⟩

/-- Witness of C21: after the probe (calibrated current 0x28, intensity 0) a red
blink of brightness 255 writes 40; with the intensity at 100 a red blink of
brightness 128 writes 50. -/
theorem blink_current_scaled_witness :
    current_control (an30259a_set_led_blink (env_at 12) LED_R 500 2000 255
        state0).shadow_reg LED_R = 40 ∧
      current_control (an30259a_set_led_blink (env_at 12) LED_R 500 2000 128
        intensity_100).shadow_reg LED_R = 50 :=
  ⟨(blink_current_scaled (env_at 12) LED_R 500 2000 255 state0
      (Reachable.probe (fun _ => 0) none none) (by decide) (by decide) (by decide)
      (by decide)).1.trans (by decide),
    (blink_current_scaled (env_at 12) LED_R 500 2000 128 intensity_100
      (Reachable.step (env_at 12) (Command.led_intensity 100) state0
        (Reachable.probe (fun _ => 0) none none)) (by decide) (by decide) (by decide)
      (by decide)).1.trans (by decide)⟩

/-! ### A blink whose off-time is zero -/

theorem channel_view_solid_on (img : Image) (led cc : Nat) (hled : led < 3)
    (hcc : cc < 256) :
    channel_view (leds_on_img img led true false cc) led =
      { channel_view img led with enable := true, slope := false, cc := cc } := by
  rw [channel_view_leds_on_self img led true false cc hled, Nat.mod_eq_of_lt hcc]
  rfl

theorem channel_view_on_then_off (img : Image) (led : Nat) (hled : led < 3) :
    channel_view (leds_on_img (leds_on_img img led true false 0) led false false 0) led =
      { channel_view img led with
        enable := false
        slope := false
        cc := 0
        cnt2 := (channel_view img led).cnt2 % 16 } := by
  have hin : leds_on_img img led true false 0 (10 + led * 4) = img (10 + led * 4) := by
    rw [leds_on_img_apply img led true false 0 (10 + led * 4) (by omega),
      if_neg (by omega), if_neg (by simp)]
  rw [channel_view_leds_on_self _ led false false 0 hled,
    channel_view_leds_on_self img led true false 0 hled, hin, delay_mask]
  rfl

theorem blink_body_solid_view (led d1 d2 b : Nat) (s : State) (hled : led < 3)
    (hb : b % 256 ≠ 0) (hoff : blink_delay_off s (d2 % 4294967296) = 0) :
    channel_view (set_led_blink_body led d1 d2 b s).shadow_reg led =
      if blink_brightness (b % 256)
          { s with LED_DYNAMIC_CURRENT := blink_dynamic_current led s } = 0 then
        { channel_view s.shadow_reg led with
          enable := false
          slope := false
          cc := 0
          cnt2 := (channel_view s.shadow_reg led).cnt2 % 16 }
      else
        { channel_view s.shadow_reg led with
          enable := true
          slope := false
          cc := blink_brightness (b % 256)
            { s with LED_DYNAMIC_CURRENT := blink_dynamic_current led s } } := by
  rw [blink_body_solid_img led d1 d2 b s hb hoff]
  split_ifs with h
  · exact channel_view_on_then_off s.shadow_reg led hled
  · exact channel_view_solid_on s.shadow_reg led _ hled
      (blink_brightness_lt _ _ (Nat.mod_lt _ (by norm_num)))

/-- Claim C30, as amended. In a reachable state that is not blocked and has no
replay pending, `an30259a_set_led_blink` with brightness `b` from 1 to 255 and
off-time 0 after the override and the clamp leaves the channel as follows. When
the scaled brightness `floor(b * m / 255)` is non-zero: enable bit set, slope bit
clear, current-control equal to the scaled brightness, and the sleep-timing
register and the four control bytes as they were. When it is zero: enable and
slope bits clear, current-control 0, the delay nibble of `CNT2` zeroed (its low
nibble kept), and the sleep-timing register and the other three control bytes as
they were. -/
theorem blink_zero_off_time (env : Env) (led on_ms off_ms b : Nat) (s : State)
    (hs : Reachable s) (hr : (check_restrictions env s).1 = true)
    (hst : s.block_leds_not_blocking = true ∨ s.led_block_leds_time_start = -1 ∨
      s.led_block_leds_time_stop = -1)
    (hled : led < 3) (hb1 : 1 ≤ b) (hb2 : b ≤ 255) (hoff32 : off_ms < 4294967296)
    (hoff : blink_delay_off s off_ms = 0) :
    (b * spec_blink_multiplier s led / 255 ≠ 0 →
      channel_view (an30259a_set_led_blink env led on_ms off_ms b s).shadow_reg led =
        { channel_view s.shadow_reg led with
          enable := true
          slope := false
          cc := b * spec_blink_multiplier s led / 255 }) ∧
    (b * spec_blink_multiplier s led / 255 = 0 →
      channel_view (an30259a_set_led_blink env led on_ms off_ms b s).shadow_reg led =
        { channel_view s.shadow_reg led with
          enable := false
          slope := false
          cc := 0
          cnt2 := (channel_view s.shadow_reg led).cnt2 % 16 }) := by
  have hc := reachable_check_allowed hs
  have hmod : b % 256 = b := Nat.mod_eq_of_lt (by omega)
  have m2 : off_ms % 4294967296 = off_ms := Nat.mod_eq_of_lt hoff32
  have hsc := (blink_brightness_scaled led b s hled hb2 (reachable_intensity_lt hs)).1
  have hv := blink_body_solid_view led on_ms off_ms b
    { s with block_leds_not_blocking := true } hled (by omega)
    (by rw [m2]; exact hoff)
  rw [hmod] at hv
  have hsc2 : blink_brightness b
      { ({ s with block_leds_not_blocking := true } : State) with
        LED_DYNAMIC_CURRENT :=
          blink_dynamic_current led { s with block_leds_not_blocking := true } } =
      b * spec_blink_multiplier s led / 255 := hsc
  rw [hsc2] at hv
  rw [set_led_blink_allowed_body env led on_ms off_ms b s hc hr,
    check_restrictions_quiet env s hr hst, hv]
  constructor
  · intro h
    rw [if_neg h]
  · intro h
    rw [if_pos h]

/-- Witness of C30 (amended): after the probe (calibrated current 0x28) a red blink
with off-time 0 and brightness 255 leaves Red solid at current 40; with brightness 1
the scaled brightness is 0 and Red is left disabled. -/
theorem blink_zero_off_time_witness :
    channel_view (an30259a_set_led_blink (env_at 12) LED_R 500 0 255 state0).shadow_reg
        LED_R =
      { channel_view state0.shadow_reg LED_R with
        enable := true
        slope := false
        cc := 255 * spec_blink_multiplier state0 LED_R / 255 } ∧
    channel_view (an30259a_set_led_blink (env_at 12) LED_R 500 0 1 state0).shadow_reg
        LED_R =
      { channel_view state0.shadow_reg LED_R with
        enable := false
        slope := false
        cc := 0
        cnt2 := (channel_view state0.shadow_reg LED_R).cnt2 % 16 } :=
  ⟨(blink_zero_off_time (env_at 12) LED_R 500 0 255 state0
      (Reachable.probe (fun _ => 0) none none) (by decide) (Or.inr (Or.inl (by decide)))
      (by decide) (by decide) (by decide) (by decide) (by decide)).1 (by decide),
    (blink_zero_off_time (env_at 12) LED_R 500 0 1 state0
      (Reachable.probe (fun _ => 0) none none) (by decide) (Or.inr (Or.inl (by decide)))
      (by decide) (by decide) (by decide) (by decide) (by decide)).2 (by decide)⟩

set_option maxRecDepth 100000 in
/-- Counterexample to C30 as stated: the Missed-notification pattern is shown, so
Blue's `CNT2` holds `0xA0` (delay 10). A blue blink with brightness 1 and off-time 0
is applied; the scaled brightness `1 * 40 / 255` is 0, Blue is switched off, and
Blue's `CNT2` now holds `0x00`: a slope register of the channel was rewritten. -/
theorem blink_off_rewrites_delay :
    (check_restrictions (env_at 12) missed_noti_shown).1 = true ∧
      missed_noti_shown.shadow_reg (AN30259A_REG_LED1CNT2 + LED_B * 4) = 0xA0 ∧
      enable_bit (an30259a_set_led_blink (env_at 12) LED_B 500 0 1
        missed_noti_shown).shadow_reg LED_B = false ∧
      (an30259a_set_led_blink (env_at 12) LED_B 500 0 1 missed_noti_shown).shadow_reg
        (AN30259A_REG_LED1CNT2 + LED_B * 4) = 0x00 := by
  decide

/-! ### Register image of the catalog patterns -/

theorem pattern_apply_some (env : Env) (mode : Int) (s t : State)
    (h : pattern_switch mode { s with LED_DYNAMIC_CURRENT := pattern_dynamic_current s } =
      some t) :
    (pattern_apply env mode s).shadow_reg = t.shadow_reg := by
  unfold pattern_apply
  rw [h]
  simp only [leds_i2c_write_all_shadow_reg]

theorem pattern_brightness_congr {s s' : State} (h : s'.settings = s.settings)
    (hd : s'.LED_DYNAMIC_CURRENT = s.LED_DYNAMIC_CURRENT) (cur : Nat) :
    pattern_brightness s' cur = pattern_brightness s cur := by
  obtain ⟨_, _, _, _, _, _, _, _, e9, _, _⟩ := settings_fields h
  simp only [pattern_brightness, e9, hd]

theorem pattern_brightness_lt (s : State) (cur : Nat) : pattern_brightness s cur < 256 := by
  unfold pattern_brightness
  split_ifs <;> exact Nat.mod_lt _ (by norm_num)

theorem step_fields {s s' : State} (h : s'.settings = s.settings) :
    s'.led_step_bit_shift = s.led_step_bit_shift ∧
      s'.led_step_speed1 = s.led_step_speed1 ∧ s'.led_step_speed2 = s.led_step_speed2 ∧
      s'.led_step_speed3 = s.led_step_speed3 ∧ s'.led_step_speed4 = s.led_step_speed4 := by
  have e0 : s'.settings.led_step_bit_shift = s.settings.led_step_bit_shift :=
    congrArg State.led_step_bit_shift h
  have e1 : s'.settings.led_step_speed1 = s.settings.led_step_speed1 :=
    congrArg State.led_step_speed1 h
  have e2 : s'.settings.led_step_speed2 = s.settings.led_step_speed2 :=
    congrArg State.led_step_speed2 h
  have e3 : s'.settings.led_step_speed3 = s.settings.led_step_speed3 :=
    congrArg State.led_step_speed3 h
  have e4 : s'.settings.led_step_speed4 = s.settings.led_step_speed4 :=
    congrArg State.led_step_speed4 h
  exact ⟨e0, e1, e2, e3, e4⟩

theorem pattern_context (env : Env) (s : State) :
    (an30259a_reset_register_work env (check_restrictions env s).2).settings = s.settings ∧
      (an30259a_reset_register_work env (check_restrictions env s).2).shadow_reg =
        forced_off (check_restrictions env s).2.shadow_reg ∧
      (∀ cur, pattern_brightness
          { an30259a_reset_register_work env (check_restrictions env s).2 with
            LED_DYNAMIC_CURRENT := pattern_dynamic_current
              (an30259a_reset_register_work env (check_restrictions env s).2) } cur =
        pattern_brightness { s with LED_DYNAMIC_CURRENT := pattern_dynamic_current s } cur) := by
  have hset : (an30259a_reset_register_work env (check_restrictions env s).2).settings =
      s.settings := (settings_reset env _).trans (settings_check_restrictions env s)
  refine ⟨hset, reset_shadow_reg env _, ?_⟩
  intro cur
  exact @pattern_brightness_congr
    { s with LED_DYNAMIC_CURRENT := pattern_dynamic_current s }
    { an30259a_reset_register_work env (check_restrictions env s).2 with
      LED_DYNAMIC_CURRENT := pattern_dynamic_current
        (an30259a_reset_register_work env (check_restrictions env s).2) }
    hset (pattern_dynamic_current_reset_check env s) cur

theorem charging_err_image (env : Env) (s : State)
    (hc : s.block_leds_check_allowed = true) (hr : (check_restrictions env s).1 = true) :
    (an30259a_start_led_pattern env CHARGING_ERR s).shadow_reg =
      leds_set_slope_mode_img s.led_step_bit_shift
        (leds_on_img (forced_off (check_restrictions env s).2.shadow_reg) LED_R true true
          (pattern_brightness { s with LED_DYNAMIC_CURRENT := pattern_dynamic_current s }
            s.LED_R_CURRENT))
        LED_R 1 15 15 0 1 1 0 0 0 0 := by
  obtain ⟨hset, himg, hbr⟩ := pattern_context env s
  obtain ⟨_, e2, _, _, _, _, _, _, _, _, _⟩ := settings_fields hset
  obtain ⟨e0, _⟩ := step_fields hset
  rw [start_led_pattern_allowed_apply env CHARGING_ERR s hc hr (by decide) (by decide),
    pattern_apply_some env CHARGING_ERR _ _
      (by unfold pattern_switch; rw [if_neg (by decide), if_pos rfl])]
  simp only [leds_set_slope_mode, leds_on]
  rw [hbr, himg, e2, e0]

theorem channel_view_forced_off (img : Image) (c : Nat) (hc : c < 3) :
    (channel_view (forced_off img) c).enable = false ∧
      (channel_view (forced_off img) c).slope = false :=
  ⟨(forced_off_bits img c hc).1, (forced_off_bits img c hc).2.1⟩

/-- Claim C27. When the restriction check reports not-blocked, for every prior
register image and every setting for which the brightness computation is defined
(intensity 0, or a non-zero dynamic-current scalar), the Charging-error pattern
leaves Red enabled in slope mode with `CNT1 = 0xFF`, `CNT2 = 0x10`,
`CNT3 = CNT4 = 0x00` and sleep-timing `0x11`, and leaves Green and Blue with
their enable and slope bits clear. -/
theorem charging_err_recipe (env : Env) (s : State)
    (hc : s.block_leds_check_allowed = true) (hr : (check_restrictions env s).1 = true)
    (_hdiv : s.led_intensity = 0 ∨ pattern_dynamic_current s ≠ 0) :
    (channel_view (an30259a_start_led_pattern env CHARGING_ERR s).shadow_reg LED_R).enable
        = true ∧
      (channel_view (an30259a_start_led_pattern env CHARGING_ERR s).shadow_reg LED_R).slope
        = true ∧
      (channel_view (an30259a_start_led_pattern env CHARGING_ERR s).shadow_reg LED_R).cnt1
        = 0xFF ∧
      (channel_view (an30259a_start_led_pattern env CHARGING_ERR s).shadow_reg LED_R).cnt2
        = 0x10 ∧
      (channel_view (an30259a_start_led_pattern env CHARGING_ERR s).shadow_reg LED_R).cnt3
        = 0x00 ∧
      (channel_view (an30259a_start_led_pattern env CHARGING_ERR s).shadow_reg LED_R).cnt4
        = 0x00 ∧
      (channel_view (an30259a_start_led_pattern env CHARGING_ERR s).shadow_reg LED_R).slp
        = 0x11 ∧
      (∀ c, c = LED_G ∨ c = LED_B →
        (channel_view (an30259a_start_led_pattern env CHARGING_ERR s).shadow_reg c).enable
          = false ∧
        (channel_view (an30259a_start_led_pattern env CHARGING_ERR s).shadow_reg c).slope
          = false) := by
  rw [charging_err_image env s hc hr]
  refine ⟨?_, ?_, ?_, ?_, ?_, ?_, ?_, ?_⟩
  · rw [channel_view_slope_self, channel_view_leds_on_self _ _ _ _ _ (by decide)]
  · rw [channel_view_slope_self, channel_view_leds_on_self _ _ _ _ _ (by decide)]
  · rw [channel_view_slope_self]; rfl
  · rw [channel_view_slope_self]; rfl
  · rw [channel_view_slope_self]
    simp only [Nat.zero_mod, Nat.zero_shiftLeft, Nat.or_self]
  · rw [channel_view_slope_self]
    simp only [Nat.zero_mod, Nat.zero_shiftLeft, Nat.or_self]
  · rw [channel_view_slope_self]; rfl
  · intro c hcgb
    have hc3 : c < 3 ∧ c ≠ LED_R := by
      rcases hcgb with h | h <;> subst h <;> decide
    rw [channel_view_slope_other _ _ LED_R _ _ _ _ _ _ _ _ _ _ c (by decide) hc3.1 hc3.2,
      channel_view_leds_on_other _ LED_R c _ _ _ (by decide) hc3.1 hc3.2]
    exact channel_view_forced_off _ c hc3.1

/-- Witness of C27: Charging-error at noon with Charging shown before. -/
theorem charging_err_recipe_witness :
    (channel_view (an30259a_start_led_pattern (env_at 12) CHARGING_ERR
        charging_evening).shadow_reg LED_R).enable = true ∧
      (channel_view (an30259a_start_led_pattern (env_at 12) CHARGING_ERR
        charging_evening).shadow_reg LED_R).cnt2 = 0x10 ∧
      (channel_view (an30259a_start_led_pattern (env_at 12) CHARGING_ERR
        charging_evening).shadow_reg LED_R).slp = 0x11 ∧
      (channel_view (an30259a_start_led_pattern (env_at 12) CHARGING_ERR
        charging_evening).shadow_reg LED_B).enable = false :=
  have h := charging_err_recipe (env_at 12) charging_evening (by decide) (by decide)
    (Or.inl (by decide))
  ⟨h.1, h.2.2.2.1, h.2.2.2.2.2.2.1, (h.2.2.2.2.2.2.2 LED_B (Or.inr rfl)).1⟩

theorem to_units_spec (ms : Nat) (h : ms ≤ 7500) :
    to_units ms = spec_to_units ms ∧ spec_to_units ms ≤ 15 := by
  simp only [to_units, spec_to_units, AN30259A_TIME_UNIT]
  omega

theorem charging_image (env : Env) (s : State)
    (hc : s.block_leds_check_allowed = true) (hr : (check_restrictions env s).1 = true) :
    (an30259a_start_led_pattern env CHARGING s).shadow_reg =
      if s.led_enable_fade_charging = 1 then
        leds_set_slope_mode_img s.led_step_bit_shift
          (leds_on_img (forced_off (check_restrictions env s).2.shadow_reg) LED_R true true
            (pattern_brightness { s with LED_DYNAMIC_CURRENT := pattern_dynamic_current s }
              s.LED_R_CURRENT))
          LED_R 0 30 15 0 (to_units (effective_ms s.led_time_on 500))
          (to_units (effective_ms s.led_time_off 2000))
          s.led_step_speed1 s.led_step_speed2 s.led_step_speed3 s.led_step_speed4
      else
        leds_on_img (forced_off (check_restrictions env s).2.shadow_reg) LED_R true false
          (pattern_brightness { s with LED_DYNAMIC_CURRENT := pattern_dynamic_current s }
            s.LED_R_CURRENT) := by
  obtain ⟨hset, himg, hbr⟩ := pattern_context env s
  obtain ⟨_, e2, _, _, _, _, _, e8, _, e10, e11⟩ := settings_fields hset
  obtain ⟨e0, s1, s2, s3, s4⟩ := step_fields hset
  rw [start_led_pattern_allowed_apply env CHARGING s hc hr (by decide) (by decide)]
  by_cases hfc : s.led_enable_fade_charging = 1
  · rw [if_pos hfc, pattern_apply_some env CHARGING _ _
      (by unfold pattern_switch; rw [if_pos rfl, if_pos (by simpa [e8] using hfc)])]
    simp only [pattern_fade_slope, leds_set_slope_mode, leds_on, pattern_delay_on,
      pattern_delay_off]
    rw [hbr, himg, e2, e0, s1, s2, s3, s4, e10, e11]
    rfl
  · rw [if_neg hfc, pattern_apply_some env CHARGING _ _
      (by unfold pattern_switch; rw [if_pos rfl, if_neg (by simpa [e8] using hfc)])]
    simp only [leds_on]
    rw [hbr, himg, e2]

theorem effective_ms_le (override ms : Nat) (ho : override ≤ 7500) (hm : ms ≤ 7500) :
    effective_ms override ms ≤ 7500 := by
  unfold effective_ms
  split_ifs <;> assumption

/-- Claim C28. In a reachable state that is not blocked and in which the brightness
computation is defined, the Charging pattern enables Red, and Red's slope bit is set
exactly when fade during charging is on (flag 1), whatever the general fade flag.
With the flag off Red is solid with its current-control equal to the Red brightness
of the pattern; with the flag on the current-control is the same value and the
sleep-timing nibbles are `to_units` of the on-time (the override, else 500 ms) and
of the off-time (the override, else 2000 ms). -/
theorem charging_recipe (env : Env) (s : State) (hs : Reachable s)
    (hr : (check_restrictions env s).1 = true)
    (_hdiv : s.led_intensity = 0 ∨ pattern_dynamic_current s ≠ 0) :
    (channel_view (an30259a_start_led_pattern env CHARGING s).shadow_reg LED_R).enable
        = true ∧
      ((channel_view (an30259a_start_led_pattern env CHARGING s).shadow_reg LED_R).slope
        = true ↔ s.led_enable_fade_charging = 1) ∧
      (channel_view (an30259a_start_led_pattern env CHARGING s).shadow_reg LED_R).cc =
        pattern_brightness { s with LED_DYNAMIC_CURRENT := pattern_dynamic_current s }
          s.LED_R_CURRENT ∧
      (s.led_enable_fade_charging = 1 →
        unpack_lo
            (channel_view (an30259a_start_led_pattern env CHARGING s).shadow_reg LED_R).slp
          = spec_to_units (effective_ms s.led_time_on 500) ∧
        unpack_hi
            (channel_view (an30259a_start_led_pattern env CHARGING s).shadow_reg LED_R).slp
          = spec_to_units (effective_ms s.led_time_off 2000)) := by
  have hc := reachable_check_allowed hs
  obtain ⟨h1, h2⟩ := reachable_time_bounds hs
  obtain ⟨u1, l1⟩ := to_units_spec _ (effective_ms_le s.led_time_on 500 h1 (by norm_num))
  obtain ⟨u2, l2⟩ := to_units_spec _ (effective_ms_le s.led_time_off 2000 h2 (by norm_num))
  have hbr := Nat.mod_eq_of_lt (pattern_brightness_lt
    { s with LED_DYNAMIC_CURRENT := pattern_dynamic_current s } s.LED_R_CURRENT)
  rw [charging_image env s hc hr]
  by_cases hfc : s.led_enable_fade_charging = 1
  · rw [if_pos hfc, channel_view_slope_self, channel_view_leds_on_self _ _ _ _ _ (by decide),
      u1, u2, pack_nibbles _ _ (by omega) (by omega)]
    have hu := unpack_pack _ _ (Nat.lt_succ_of_le l2) (Nat.lt_succ_of_le l1)
    exact ⟨rfl, ⟨fun _ => hfc, fun _ => rfl⟩, hbr, fun _ => ⟨hu.2, hu.1⟩⟩
  · rw [if_neg hfc, channel_view_leds_on_self _ _ _ _ _ (by decide)]
    exact ⟨rfl, ⟨fun h => absurd h (by simp), fun h => absurd h hfc⟩, hbr,
      fun h => absurd h hfc⟩

/-- Witness of C28: after the probe the Charging pattern leaves Red solid at its
calibrated current 0x28; with fade during charging on it leaves Red in slope mode
with the nibbles (1, 4). -/
theorem charging_recipe_witness :
    ((channel_view (an30259a_start_led_pattern (env_at 12) CHARGING state0).shadow_reg
        LED_R).enable = true ∧
      (channel_view (an30259a_start_led_pattern (env_at 12) CHARGING state0).shadow_reg
        LED_R).cc = 0x28) ∧
    ((channel_view (an30259a_start_led_pattern (env_at 12) CHARGING
        fade_charging_on).shadow_reg LED_R).slope = true ∧
      unpack_lo (channel_view (an30259a_start_led_pattern (env_at 12) CHARGING
        fade_charging_on).shadow_reg LED_R).slp = 1 ∧
      unpack_hi (channel_view (an30259a_start_led_pattern (env_at 12) CHARGING
        fade_charging_on).shadow_reg LED_R).slp = 4) :=
  have h0 := charging_recipe (env_at 12) state0 (Reachable.probe (fun _ => 0) none none)
    (by decide) (Or.inl (by decide))
  have h1 := charging_recipe (env_at 12) fade_charging_on
    (Reachable.step (env_at 12) (Command.led_fade_charging 1) state0
      (Reachable.probe (fun _ => 0) none none))
    (by decide) (Or.inl (by decide))
  ⟨⟨h0.1, h0.2.2.1.trans (by decide)⟩,
    ⟨h1.2.1.2 (by decide), ((h1.2.2.2 (by decide)).1).trans (by decide),
      ((h1.2.2.2 (by decide)).2).trans (by decide)⟩⟩

theorem missed_noti_image (env : Env) (s : State)
    (hc : s.block_leds_check_allowed = true) (hr : (check_restrictions env s).1 = true) :
    (an30259a_start_led_pattern env MISSED_NOTI s).shadow_reg =
      if s.led_enable_fade = 1 then
        leds_set_slope_mode_img s.led_step_bit_shift
          (leds_on_img
            (leds_on_img (forced_off (check_restrictions env s).2.shadow_reg) LED_B true true
              (pattern_brightness { s with LED_DYNAMIC_CURRENT := pattern_dynamic_current s }
                s.LED_B_CURRENT))
            LED_B true true
            (pattern_brightness { s with LED_DYNAMIC_CURRENT := pattern_dynamic_current s }
              s.LED_R_CURRENT))
          LED_B 0 30 15 0 (to_units (effective_ms s.led_time_on 500))
          (to_units (effective_ms s.led_time_off 2000))
          s.led_step_speed1 s.led_step_speed2 s.led_step_speed3 s.led_step_speed4
      else
        leds_set_slope_mode_img s.led_step_bit_shift
          (leds_on_img (forced_off (check_restrictions env s).2.shadow_reg) LED_B true true
            (pattern_brightness { s with LED_DYNAMIC_CURRENT := pattern_dynamic_current s }
              s.LED_B_CURRENT))
          LED_B 10 15 15 0 1 10 0 0 0 0 := by
  obtain ⟨hset, himg, hbr⟩ := pattern_context env s
  obtain ⟨_, e2, _, e4, _, _, e7, _, _, e10, e11⟩ := settings_fields hset
  obtain ⟨e0, s1, s2, s3, s4⟩ := step_fields hset
  rw [start_led_pattern_allowed_apply env MISSED_NOTI s hc hr (by decide) (by decide)]
  by_cases hf : s.led_enable_fade = 1
  · rw [if_pos hf, pattern_apply_some env MISSED_NOTI _ _
      (by
        unfold pattern_switch
        rw [if_neg (by decide), if_neg (by decide), if_pos rfl,
          if_pos (by simpa [e7] using hf)])]
    simp only [pattern_fade_slope, leds_set_slope_mode, leds_on, pattern_delay_on,
      pattern_delay_off]
    rw [hbr, hbr, himg, e2, e4, e0, s1, s2, s3, s4, e10, e11]
    rfl
  · rw [if_neg hf, pattern_apply_some env MISSED_NOTI _ _
      (by
        unfold pattern_switch
        rw [if_neg (by decide), if_neg (by decide), if_pos rfl,
          if_neg (by simpa [e7] using hf)])]
    simp only [leds_set_slope_mode, leds_on]
    rw [hbr, himg, e4, e0]

set_option maxRecDepth 100000 in
/-- Claim C26, evaluated on the code. A custom red blink is requested at 23 o'clock
inside the window (22, 6) and saved. The evaluation of the timer at 7 o'clock
replays it: the register image has Red enabled in slope mode (`LEDON = 0x11`), but
the evaluation issued only the two transfers of the replayed Off pattern, and the
last transfer on the bus wrote `0x00` to `LEDON`. The same blink requested at
7 o'clock through `store_an30259a_led_blink` ends with `0x11` written to `LEDON`. -/
theorem replayed_blink_not_committed :
    custom_blink_saved.block_leds_saved_delay_on_time LED_R = 500 ∧
      (check_restrictions (env_at 7) custom_blink_saved).1 = true ∧
      (check_led_timer (env_at 7) custom_blink_saved).shadow_reg AN30259A_REG_LEDON
        = 0x11 ∧
      (check_led_timer (env_at 7) custom_blink_saved).bus.length =
        custom_blink_saved.bus.length + 2 ∧
      (check_led_timer (env_at 7) custom_blink_saved).bus.getLast? =
        some (BusOp.byte AN30259A_REG_LEDON 0x00) ∧
      (store_an30259a_led_blink (env_at 7) 0x00FF0000 500 2000 night_settled).bus.getLast? =
        some (BusOp.byte AN30259A_REG_LEDON 0x11) := by
  decide

/-! ### Global current scale -/

theorem imax_mask (x : Nat) : (x &&& compl32 AN30259A_MASK_IMAX) % 256 = x % 64 := by
  have hm : compl32 AN30259A_MASK_IMAX % 256 = 63 := by decide
  rw [land_mod_256, hm]
  have h := Nat.and_pow_two_sub_one_eq_mod (x % 256) 6
  norm_num at h
  rw [h]

theorem imax_pack (lo k : Nat) (hlo : lo < 64) : (lo ||| (k <<< 6)) = 64 * k + lo := by
  have h : 2 ^ 6 * k + lo = 2 ^ 6 * k ||| lo := Nat.mul_add_lt_is_or (by omega) k
  rw [Nat.shiftLeft_eq, Nat.lor_comm, Nat.mul_comm k, ← h]
  norm_num

theorem leds_set_imax_sel (env : Env) (s : State) (imax : Nat) :
    (leds_set_imax env s imax).2.shadow_reg AN30259A_REG_SEL =
      (64 * (imax % 256) + s.shadow_reg AN30259A_REG_SEL % 64) % 256 := by
  simp only [leds_set_imax, Image.set_apply, if_true, LED_IMAX_SHIFT, imax_mask]
  rw [imax_pack _ _ (Nat.mod_lt _ (by norm_num))]

theorem leds_set_imax_other (env : Env) (s : State) (imax r : Nat)
    (hr : r ≠ AN30259A_REG_SEL) :
    (leds_set_imax env s imax).2.shadow_reg r = s.shadow_reg r := by
  simp only [leds_set_imax, Image.set_apply, if_neg hr]

/-- Claim C31. For every level, `store_an30259a_led_br_lev` (`leds_set_imax`) leaves
register `0x02` with its top two bits equal to `level mod 4` and its low six bits as
they were, and leaves every other register of the image, the three current-control
registers included, unchanged. -/
theorem set_imax_top_bits (env : Env) (s : State) (level : Nat) :
    (store_an30259a_led_br_lev env level s).shadow_reg AN30259A_REG_SEL < 256 ∧
      (store_an30259a_led_br_lev env level s).shadow_reg AN30259A_REG_SEL / 64 =
        level % 4 ∧
      (store_an30259a_led_br_lev env level s).shadow_reg AN30259A_REG_SEL % 64 =
        s.shadow_reg AN30259A_REG_SEL % 64 ∧
      (∀ c, c < 3 →
        current_control (store_an30259a_led_br_lev env level s).shadow_reg c =
          current_control s.shadow_reg c) ∧
      (∀ r, r ≠ AN30259A_REG_SEL →
        (store_an30259a_led_br_lev env level s).shadow_reg r = s.shadow_reg r) := by
  unfold store_an30259a_led_br_lev
  rw [leds_set_imax_sel]
  refine ⟨by omega, by omega, by omega, ?_, ?_⟩
  · intro c hc
    exact leds_set_imax_other env s level _
      (by simp only [AN30259A_REG_LED1CC, AN30259A_REG_SEL]; omega)
  · intro r hr
    exact leds_set_imax_other env s level r hr

set_option maxRecDepth 100000 in
/-- Witness of C31: level 7 on the state with Charging shown leaves `0xC0` in
register `0x02` and Red's current-control at `0x28`. -/
theorem set_imax_top_bits_witness :
    (store_an30259a_led_br_lev (env_at 12) 7 charging_evening).shadow_reg AN30259A_REG_SEL
        = 0xC0 ∧
      current_control (store_an30259a_led_br_lev (env_at 12) 7 charging_evening).shadow_reg
        LED_R = 0x28 :=
  have h := set_imax_top_bits (env_at 12) charging_evening 7
  ⟨by
      have h1 := h.2.1
      have h2 := h.2.2.1
      have h3 : charging_evening.shadow_reg AN30259A_REG_SEL % 64 = 0 := by decide
      have h4 : (7 : Nat) % 4 = 3 := by decide
      omega,
    (h.2.2.2.1 LED_R (by decide)).trans (by decide)⟩

/-! ### Frame of the channel encoders -/

/-- Claim C32. For every channel `led` and every other channel `c`, with any
arguments, `leds_on` and `leds_set_slope_mode` on `led` leave unchanged the enable
bit, the slope bit, the current-control register, the sleep-timing register and the
four control bytes of `c`, bits 3 and 7 of `LEDON`, and the registers `0x00` and
`0x02`. -/
theorem encoders_frame (s : State) (led c : Nat) (on_ slopemode : Bool)
    (ledcc delay dutymax dutymid dutymin slptt1 slptt2 dt1 dt2 dt3 dt4 : Nat)
    (hled : led < 3) (hc : c < 3) (hne : c ≠ led) :
    channel_view (leds_on s led on_ slopemode ledcc).shadow_reg c =
        channel_view s.shadow_reg c ∧
      channel_view (leds_set_slope_mode s led delay dutymax dutymid dutymin slptt1 slptt2
          dt1 dt2 dt3 dt4).shadow_reg c = channel_view s.shadow_reg c ∧
      (∀ i, i = 3 ∨ i = 7 →
        ((leds_on s led on_ slopemode ledcc).shadow_reg AN30259A_REG_LEDON).testBit i =
            (s.shadow_reg AN30259A_REG_LEDON).testBit i ∧
          ((leds_set_slope_mode s led delay dutymax dutymid dutymin slptt1 slptt2
            dt1 dt2 dt3 dt4).shadow_reg AN30259A_REG_LEDON).testBit i =
            (s.shadow_reg AN30259A_REG_LEDON).testBit i) ∧
      (∀ r, r = AN30259A_REG_SRESET ∨ r = AN30259A_REG_SEL →
        (leds_on s led on_ slopemode ledcc).shadow_reg r = s.shadow_reg r ∧
          (leds_set_slope_mode s led delay dutymax dutymid dutymin slptt1 slptt2
            dt1 dt2 dt3 dt4).shadow_reg r = s.shadow_reg r) := by
  refine ⟨channel_view_leds_on_other s.shadow_reg led c on_ slopemode ledcc hled hc hne,
    channel_view_slope_other _ _ led _ _ _ _ _ _ _ _ _ _ c hled hc hne, ?_, ?_⟩
  · intro i hi
    constructor
    · show (leds_on_img s.shadow_reg led on_ slopemode ledcc AN30259A_REG_LEDON).testBit i = _
      rw [leds_on_img_ledon_testBit s.shadow_reg led i on_ slopemode ledcc hled (by omega),
        if_neg (by omega), if_neg (by omega)]
    · show (leds_set_slope_mode_img s.led_step_bit_shift s.shadow_reg led delay dutymax
        dutymid dutymin slptt1 slptt2 dt1 dt2 dt3 dt4 AN30259A_REG_LEDON).testBit i = _
      rw [leds_set_slope_mode_img_ledon]
  · intro r hr
    have hr2 : r = 0 ∨ r = 2 := hr
    constructor
    · show leds_on_img s.shadow_reg led on_ slopemode ledcc r = _
      rw [leds_on_img_apply s.shadow_reg led on_ slopemode ledcc r (by omega),
        if_neg (by omega), if_neg (by omega)]
    · show leds_set_slope_mode_img s.led_step_bit_shift s.shadow_reg led delay dutymax
        dutymid dutymin slptt1 slptt2 dt1 dt2 dt3 dt4 r = _
      rw [leds_set_slope_mode_img_apply]
      repeat rw [if_neg (by omega)]

/-- Witness of C32: with Charging shown on Red, switching Blue on in slope mode and
programming Blue's slope registers leave Red's view as it was. -/
theorem encoders_frame_witness :
    channel_view (leds_on charging_evening LED_B true true 0xFF).shadow_reg LED_R =
        channel_view charging_evening.shadow_reg LED_R ∧
      channel_view (leds_set_slope_mode charging_evening LED_B 10 15 15 0 1 10
          0 0 0 0).shadow_reg LED_R = channel_view charging_evening.shadow_reg LED_R :=
  have h := encoders_frame charging_evening LED_B LED_R true true 0xFF 10 15 15 0 1 10
    0 0 0 0 (by decide) (by decide) (by decide)
  ⟨h.1, h.2.1⟩

/-! ### The division of the pattern brightness -/

theorem pattern_dynamic_current_ne_zero (s : State)
    (hl : s.led_lowpower_cur % 256 ≠ 0) (hd : s.led_default_cur % 256 ≠ 0) :
    pattern_dynamic_current s ≠ 0 := by
  unfold pattern_dynamic_current
  split_ifs
  · exact hl
  · decide
  · exact hd

theorem pattern_brightness_checked_eq (s : State) (cur : Nat)
    (h : s.led_intensity = 0 ∨ s.LED_DYNAMIC_CURRENT ≠ 0) :
    pattern_brightness_checked s cur = some (pattern_brightness s cur) := by
  unfold pattern_brightness_checked pattern_brightness
  by_cases hi : s.led_intensity = 0
  · rw [if_pos hi, if_pos hi]
  · rw [if_neg hi, if_neg hi, if_neg (by rcases h with h | h; exact absurd h hi; exact h)]

theorem pattern_apply_checked_eq (env : Env) (mode : Int) (s : State)
    (h : s.led_intensity = 0 ∨ pattern_dynamic_current s ≠ 0) :
    pattern_apply_checked env mode s = some (pattern_apply env mode s) := by
  have e := pattern_brightness_checked_eq
    { s with LED_DYNAMIC_CURRENT := pattern_dynamic_current s } s.LED_R_CURRENT h
  unfold pattern_apply_checked
  rw [e]

theorem start_led_pattern_body_checked_eq (env : Env) (mode : Int) (s : State)
    (hl : s.led_lowpower_cur % 256 ≠ 0) (hd : s.led_default_cur % 256 ≠ 0) :
    start_led_pattern_body_checked env mode s = some (start_led_pattern_body env mode s) := by
  obtain ⟨_, _, _, _, e5, e6, _, _, _, _, _⟩ := settings_fields (settings_reset env s)
  unfold start_led_pattern_body_checked start_led_pattern_body
  split_ifs
  · rfl
  · rfl
  · exact pattern_apply_checked_eq env mode _
      (Or.inr (pattern_dynamic_current_ne_zero _ (by rw [e6]; exact hl) (by rw [e5]; exact hd)))

theorem restore_mode_checked_eq (env : Env) (s : State)
    (hl : s.led_lowpower_cur % 256 ≠ 0) (hd : s.led_default_cur % 256 ≠ 0) :
    restore_mode_checked env s = some (restore_mode env s) := by
  unfold restore_mode_checked restore_mode
  split_ifs
  · simp only
    rw [start_led_pattern_body_checked_eq env s.block_leds_saved_mode
      { s with block_leds_check_allowed := false } hl hd]
  · rfl

theorem restore_saved_checked_eq (env : Env) (s : State)
    (hl : s.led_lowpower_cur % 256 ≠ 0) (hd : s.led_default_cur % 256 ≠ 0) :
    restore_saved_checked env s = some (restore_saved env s) := by
  unfold restore_saved_checked restore_saved
  rw [restore_mode_checked_eq env s hl hd]

theorem check_restrictions_checked_eq (env : Env) (s : State)
    (hl : s.led_lowpower_cur % 256 ≠ 0) (hd : s.led_default_cur % 256 ≠ 0) :
    check_restrictions_checked env s = some (check_restrictions env s) := by
  obtain ⟨_, _, _, _, e5, e6, _, _, _, _, _⟩ := settings_fields (settings_reset env s)
  unfold check_restrictions_checked check_restrictions
  split_ifs with h1 h2
  · rfl
  · simp only
    split_ifs with h3 h4 h5
    · rw [restore_saved_checked_eq env _ (by rw [e6]; exact hl) (by rw [e5]; exact hd)]
    · rfl
    · rw [restore_saved_checked_eq env _ hl hd]
    · rfl
  · rfl

theorem start_led_pattern_checked_eq (env : Env) (mode : Int) (s : State)
    (hl : s.led_lowpower_cur % 256 ≠ 0) (hd : s.led_default_cur % 256 ≠ 0) :
    an30259a_start_led_pattern_checked env mode s =
      some (an30259a_start_led_pattern env mode s) := by
  obtain ⟨_, _, _, _, e5, e6, _, _, _, _, _⟩ :=
    settings_fields (settings_check_restrictions env s)
  unfold an30259a_start_led_pattern_checked an30259a_start_led_pattern
  split_ifs with hc
  · rw [check_restrictions_checked_eq env s hl hd]
    simp only
    split_ifs
    · rfl
    · exact start_led_pattern_body_checked_eq env mode _ (by rw [e6]; exact hl)
        (by rw [e5]; exact hd)
  · exact start_led_pattern_body_checked_eq env mode s hl hd

theorem pattern_brightness_quotient (s : State) (cur : Nat)
    (hi : s.led_intensity < 256) (hne : s.led_intensity ≠ 0) :
    pattern_brightness { s with LED_DYNAMIC_CURRENT := pattern_dynamic_current s } cur =
      s.led_intensity / pattern_dynamic_current s := by
  have hle : s.led_intensity / pattern_dynamic_current s ≤ s.led_intensity :=
    Nat.div_le_self _ _
  simp only [pattern_brightness, if_neg hne]
  exact Nat.mod_eq_of_lt (by omega)

theorem charging_cc (env : Env) (s : State)
    (hc : s.block_leds_check_allowed = true) (hr : (check_restrictions env s).1 = true) :
    current_control (an30259a_start_led_pattern env CHARGING s).shadow_reg LED_R =
      pattern_brightness { s with LED_DYNAMIC_CURRENT := pattern_dynamic_current s }
        s.LED_R_CURRENT := by
  have hbr := Nat.mod_eq_of_lt (pattern_brightness_lt
    { s with LED_DYNAMIC_CURRENT := pattern_dynamic_current s } s.LED_R_CURRENT)
  show (channel_view (an30259a_start_led_pattern env CHARGING s).shadow_reg LED_R).cc = _
  rw [charging_image env s hc hr]
  split_ifs
  · rw [channel_view_slope_self, channel_view_leds_on_self _ _ _ _ _ (by decide)]
    exact hbr
  · rw [channel_view_leds_on_self _ _ _ _ _ (by decide)]
    exact hbr

theorem fully_charged_cc (env : Env) (s : State)
    (hc : s.block_leds_check_allowed = true) (hr : (check_restrictions env s).1 = true) :
    current_control (an30259a_start_led_pattern env FULLY_CHARGED s).shadow_reg LED_G =
      pattern_brightness { s with LED_DYNAMIC_CURRENT := pattern_dynamic_current s }
        s.LED_G_CURRENT := by
  have hbr := Nat.mod_eq_of_lt (pattern_brightness_lt
    { s with LED_DYNAMIC_CURRENT := pattern_dynamic_current s } s.LED_G_CURRENT)
  show (channel_view (an30259a_start_led_pattern env FULLY_CHARGED s).shadow_reg LED_G).cc = _
  rw [fully_charged_image env s hc hr, channel_view_leds_on_self _ _ _ _ _ (by decide)]
  exact hbr

theorem missed_noti_cc (env : Env) (s : State)
    (hc : s.block_leds_check_allowed = true) (hr : (check_restrictions env s).1 = true) :
    current_control (an30259a_start_led_pattern env MISSED_NOTI s).shadow_reg LED_B =
      if s.led_enable_fade = 1 then
        pattern_brightness { s with LED_DYNAMIC_CURRENT := pattern_dynamic_current s }
          s.LED_R_CURRENT
      else
        pattern_brightness { s with LED_DYNAMIC_CURRENT := pattern_dynamic_current s }
          s.LED_B_CURRENT := by
  have hbrR := Nat.mod_eq_of_lt (pattern_brightness_lt
    { s with LED_DYNAMIC_CURRENT := pattern_dynamic_current s } s.LED_R_CURRENT)
  have hbrB := Nat.mod_eq_of_lt (pattern_brightness_lt
    { s with LED_DYNAMIC_CURRENT := pattern_dynamic_current s } s.LED_B_CURRENT)
  show (channel_view (an30259a_start_led_pattern env MISSED_NOTI s).shadow_reg LED_B).cc = _
  rw [missed_noti_image env s hc hr]
  split_ifs
  · rw [channel_view_slope_self, channel_view_leds_on_self _ _ _ _ _ (by decide)]
    exact hbrR
  · rw [channel_view_slope_self, channel_view_leds_on_self _ _ _ _ _ (by decide)]
    exact hbrB

/-- Claim C33. Provided the low-power and the default calibration currents are
non-zero modulo 256, `an30259a_start_led_pattern` never divides by zero, for every
pattern id, intensity, fade and low-power setting and every state, the replay of a
saved pattern included: the checked function returns the state of the unchecked
one. The scalar is the low-power current when low-power mode is 1, else 1 when fade
is enabled, else the default current, each as a byte, and it is non-zero. With a
non-zero intensity (a `u8`) the brightness computed for any channel is
`floor(intensity / scalar)`, and that is what an applied Charging, Fully-charged and
Missed-notification pattern writes for Red, Green and Blue. -/
theorem pattern_brightness_total (env : Env) (mode : Int) (s : State) (cur : Nat)
    (hl : s.led_lowpower_cur % 256 ≠ 0) (hd : s.led_default_cur % 256 ≠ 0)
    (hi : s.led_intensity < 256) :
    an30259a_start_led_pattern_checked env mode s =
        some (an30259a_start_led_pattern env mode s) ∧
      pattern_dynamic_current s ≠ 0 ∧
      (s.LED_LOWPOWER_MODE = 1 → pattern_dynamic_current s = s.led_lowpower_cur % 256) ∧
      (s.LED_LOWPOWER_MODE ≠ 1 → s.led_enable_fade ≠ 0 → pattern_dynamic_current s = 1) ∧
      (s.LED_LOWPOWER_MODE ≠ 1 → s.led_enable_fade = 0 →
        pattern_dynamic_current s = s.led_default_cur % 256) ∧
      (s.led_intensity ≠ 0 →
        pattern_brightness_checked
            { s with LED_DYNAMIC_CURRENT := pattern_dynamic_current s } cur =
          some (s.led_intensity / pattern_dynamic_current s)) ∧
      (s.led_intensity ≠ 0 → s.block_leds_check_allowed = true →
        (check_restrictions env s).1 = true →
        current_control (an30259a_start_led_pattern env CHARGING s).shadow_reg LED_R =
            s.led_intensity / pattern_dynamic_current s ∧
          current_control (an30259a_start_led_pattern env FULLY_CHARGED s).shadow_reg LED_G =
            s.led_intensity / pattern_dynamic_current s ∧
          current_control (an30259a_start_led_pattern env MISSED_NOTI s).shadow_reg LED_B =
            s.led_intensity / pattern_dynamic_current s) := by
  have hne := pattern_dynamic_current_ne_zero s hl hd
  refine ⟨start_led_pattern_checked_eq env mode s hl hd, hne, ?_, ?_, ?_, ?_, ?_⟩
  · intro h
    simp [pattern_dynamic_current, h]
  · intro h1 h2
    simp [pattern_dynamic_current, h1, h2]
  · intro h1 h2
    simp [pattern_dynamic_current, h1, h2]
  · intro h
    have e := pattern_brightness_checked_eq
      { s with LED_DYNAMIC_CURRENT := pattern_dynamic_current s } cur (Or.inr hne)
    rw [e, pattern_brightness_quotient s cur hi h]
  · intro h hc hr
    refine ⟨?_, ?_, ?_⟩
    · rw [charging_cc env s hc hr, pattern_brightness_quotient s _ hi h]
    · rw [fully_charged_cc env s hc hr, pattern_brightness_quotient s _ hi h]
    · rw [missed_noti_cc env s hc hr]
      split_ifs <;> exact pattern_brightness_quotient s _ hi h

set_option maxRecDepth 100000 in
/-- Witness of C33: with the default calibration (0x28 and 0x05) and the intensity
at 100, the Fully-charged pattern returns and writes `100 / 40 = 2` for Green; with
low-power mode on it writes `100 / 5 = 20`. -/
theorem pattern_brightness_total_witness :
    (an30259a_start_led_pattern_checked (env_at 12) FULLY_CHARGED intensity_100 =
        some (an30259a_start_led_pattern (env_at 12) FULLY_CHARGED intensity_100) ∧
      current_control (an30259a_start_led_pattern (env_at 12) FULLY_CHARGED
        intensity_100).shadow_reg LED_G = 2) ∧
    current_control (an30259a_start_led_pattern (env_at 12) FULLY_CHARGED
      lowpower_intensity_100).shadow_reg LED_G = 20 :=
  have h0 := pattern_brightness_total (env_at 12) FULLY_CHARGED intensity_100 0
    (by decide) (by decide) (by decide)
  have h1 := pattern_brightness_total (env_at 12) FULLY_CHARGED lowpower_intensity_100 0
    (by decide) (by decide) (by decide)
  ⟨⟨h0.1, ((h0.2.2.2.2.2.2 (by decide) (by decide) (by decide)).2.1).trans (by decide)⟩,
    ((h1.2.2.2.2.2.2 (by decide) (by decide) (by decide)).2.1).trans (by decide)⟩

set_option maxRecDepth 100000 in
theorem start_led_pattern_checked_traps :
    zero_default_intensity_100.led_default_cur = 0 ∧
      zero_default_intensity_100.led_intensity = 100 ∧
      pattern_dynamic_current zero_default_intensity_100 = 0 ∧
      (an30259a_start_led_pattern_checked (env_at 12) FULLY_CHARGED
        zero_default_intensity_100).isNone = true := by
  decide

/-! ### Calibrated currents in the reachable states -/

end AN30259A
